import Mathlib

/-!
The JamTaba audio looper (`Audio::Looper`, AudioLooper.cpp).

A shallow embedding of `Audio::Looper` and theorems about it.

Conventions of the embedding.

* C++ `quint8` and `uint` values are natural numbers; wrap-around is written
  explicitly (`% QUINT8_RANGE`, `% UINT_RANGE`) where the C++ arithmetic can
  wrap.  `Op.WellTyped` says that the arguments of a call fit their C++ types.
* A method whose C++ body may index `layers` outside the array or take a
  remainder by zero returns `Option`; `none` means the C++ call has no defined
  result (or, for the `do ... while` loop, that the iteration budget passed to
  the model ran out).
* `emit x` appends `x` to the `emitted` log of the Looper.
* `MAX_LOOP_LAYERS` is a macro of AudioLooper.h; its value is a parameter of
  the definitions that use it.
* Sample values, gains and pans are abstracted to integers; no theorem
  depends on floating-point arithmetic.
-/

namespace Audio

/-! ## Machine integers -/

/-- Number of values of a C++ `uint` (32 bits). -/
def UINT_RANGE : Nat := 2 ^ 32

/-- Number of values of a `quint8`. -/
def QUINT8_RANGE : Nat := 256

/-- Subtraction of two `uint` values, with wrap-around. -/
def usub (a b : Nat) : Nat := (a + UINT_RANGE - b % UINT_RANGE) % UINT_RANGE

/-- Addition of two `uint` values, with wrap-around. -/
def uadd (a b : Nat) : Nat := (a + b) % UINT_RANGE

/-- Qt's `qMin(a, b)`: `(a < b) ? a : b`. -/
def qMin (a b : Nat) : Nat := if a < b then a else b

/-! ## Data model -/

abbrev Sample := Int

abbrev SamplesBuffer := List Sample

inductive Mode
  | SEQUENCE
  | ALL_LAYERS
  | SELECTED_LAYER
deriving DecidableEq, Repr

inductive RecordingOption
  | Overdub
  | HearAllLayers
deriving DecidableEq, Repr

inductive PlayingOption
  | PlayLockedLayers
  | RandomizeLayers
  | PlayNonEmptyLayers
deriving DecidableEq, Repr

/-- A `QMap<K, V>`: the key/value pairs it holds (at most one per key). -/
abbrev QMap (K V : Type) := List (K × V)

/-- The statement `map[k] = v`: replaces the value of `k` or inserts the pair. -/
def QMap.assign {K V : Type} [DecidableEq K] (m : QMap K V) (k : K) (v : V) : QMap K V :=
  match m with
  | [] => [(k, v)]
  | (k0, v0) :: rest => if k0 = k then (k, v) :: rest else (k0, v0) :: QMap.assign rest k v

/-- The call `map.contains(k)`. -/
def QMap.contains {K V : Type} [DecidableEq K] (m : QMap K V) (k : K) : Bool :=
  (List.lookup k m).isSome

/-- The call `map.value(k)`, with the default-constructed value `d` for a missing key. -/
def QMap.value {K V : Type} [DecidableEq K] (m : QMap K V) (k : K) (d : V) : V :=
  (List.lookup k m).getD d

/-- The options of one mode (`modeOptions[mode]`). -/
structure ModeOptions where
  recordingOptions : QMap RecordingOption Bool
  playingOptions : QMap PlayingOption Bool
deriving DecidableEq, Repr

/-- Modelled from the spec: the class `LooperLayer` (AudioLooperLayer.h/.cpp are
not among the sources).  The spec gives a layer one buffer of recorded samples
and the flags `locked` and `valid`; `setLayerGain` and `setLayerPan` of the
Looper store a gain and a pan in it. -/
structure LooperLayer where
  samples : SamplesBuffer
  gain : Int
  pan : Int
  locked : Bool
  valid : Bool
deriving DecidableEq, Repr

/-- The four concrete classes of `LooperState`, with their constructor arguments
(the `Looper *` back pointer is left out). -/
inductive LooperState
  | StoppedState
  | WaitingState
  | RecordingState (firstRecordingLayer : Int)
  | PlayingState
deriving DecidableEq, Repr

/-- A heap-allocated state object: its address and its value. -/
structure StatePtr where
  addr : Nat
  obj : LooperState
deriving DecidableEq, Repr

/-- The Qt signals of `Looper`. -/
inductive Signal
  | stateChanged
  | currentLayerChanged (newLayer : Nat)
  | maxLayersChanged (newMaxLayers : Nat)
  | layerLockedStateChanged (layerIndex : Nat) (locked : Bool)
  | modeChanged
deriving DecidableEq, Repr

/-- The fields of `Audio::Looper`, and the log of the signals it has emitted. -/
structure Looper where
  currentLayerIndex : Nat
  intervalLenght : Nat
  intervalPosition : Nat
  maxLayers : Nat
  state : StatePtr
  mode : Mode
  layers : List LooperLayer
  modeOptions : QMap Mode ModeOptions
  emitted : List Signal
deriving DecidableEq, Repr

/-! ## LooperLayer -/

/-- Modelled from the spec: the constructor of `LooperLayer`.  A new layer holds
no recorded content: empty buffer, not valid, not locked; gain and pan start
at the neutral values 1 and 0. -/
def LooperLayer.new : LooperLayer :=
  { samples := [], gain := 1, pan := 0, locked := false, valid := false }

/-- Modelled from the spec: `LooperLayer::zero()` clears the buffer and clears `valid`. -/
def LooperLayer.zero (l : LooperLayer) : LooperLayer :=
  { l with samples := [], valid := false }

/-- Modelled from the spec: `LooperLayer::setLocked`. -/
def LooperLayer.setLocked (l : LooperLayer) (locked : Bool) : LooperLayer :=
  { l with locked := locked }

/-- Modelled from the spec: `LooperLayer::isLocked`. -/
def LooperLayer.isLocked (l : LooperLayer) : Bool := l.locked

/-- Modelled from the spec: `LooperLayer::isValid`. -/
def LooperLayer.isValid (l : LooperLayer) : Bool := l.valid

/-- Modelled from the spec: `LooperLayer::setGain`. -/
def LooperLayer.setGain (l : LooperLayer) (gain : Int) : LooperLayer :=
  { l with gain := gain }

/-- Modelled from the spec: `LooperLayer::setPan`. -/
def LooperLayer.setPan (l : LooperLayer) (pan : Int) : LooperLayer :=
  { l with pan := pan }

/-- Modelled from the spec: `LooperLayer::getAvailableSamples`, the recorded length. -/
def LooperLayer.getAvailableSamples (l : LooperLayer) : Nat := l.samples.length

/-- Modelled from the spec: `LooperLayer::append(samples, count)` writes `count`
samples at the write cursor, which is the end of what was recorded so far; the
layer then holds recorded content. -/
def LooperLayer.append (l : LooperLayer) (samples : SamplesBuffer) (count : Nat) : LooperLayer :=
  { l with samples := l.samples ++ samples.take count, valid := true }

/-- Pointwise sum of `xs` into `content` from index `position` on; positions
past the end of `content` count as silence. -/
def addAt : SamplesBuffer → Nat → SamplesBuffer → SamplesBuffer
  | content, 0, [] => content
  | [], 0, x :: xs => x :: addAt [] 0 xs
  | c :: content, 0, x :: xs => (c + x) :: addAt content 0 xs
  | [], p + 1, xs => 0 :: addAt [] p xs
  | c :: content, p + 1, xs => c :: addAt content p xs

/-- Modelled from the spec: `LooperLayer::overdub(samples, count, position)`
additively mixes `count` samples into the existing content at `position`. -/
def LooperLayer.overdub (l : LooperLayer) (samples : SamplesBuffer) (count position : Nat) :
    LooperLayer :=
  { l with samples := addAt l.samples position (samples.take count), valid := true }

/-! ## Looper: construction, signals, state object -/

/-- The statement `emit signal`. -/
def Looper.emit (lp : Looper) (s : Signal) : Looper :=
  { lp with emitted := lp.emitted ++ [s] }

/-- `Looper::getDefaultSupportedRecordingOptions`. -/
def Looper.getDefaultSupportedRecordingOptions (mode : Mode) : QMap RecordingOption Bool :=
  let options : QMap RecordingOption Bool := []
  let options := options.assign RecordingOption.Overdub false
  let options :=
    if mode = Mode.SEQUENCE then options.assign RecordingOption.HearAllLayers false else options
  options

/-- `Looper::getDefaultSupportedPlayingOptions`. -/
def Looper.getDefaultSupportedPlayingOptions (mode : Mode) : QMap PlayingOption Bool :=
  let options : QMap PlayingOption Bool := []
  let options :=
    if mode = Mode.SEQUENCE then
      ((options.assign PlayingOption.PlayLockedLayers false).assign
        PlayingOption.RandomizeLayers false).assign PlayingOption.PlayNonEmptyLayers true
    else options
  let options :=
    if mode = Mode.ALL_LAYERS then
      (options.assign PlayingOption.PlayLockedLayers false).assign
        PlayingOption.PlayNonEmptyLayers true
    else options
  options

/-- The constructor `Looper::Looper()`. -/
def Looper.new (MAX_LOOP_LAYERS : Nat) : Looper :=
  { currentLayerIndex := 0
    intervalLenght := 0
    intervalPosition := 0
    maxLayers := 4
    state := { addr := 0, obj := LooperState.StoppedState }
    mode := Mode.SEQUENCE
    layers := List.replicate MAX_LOOP_LAYERS LooperLayer.new
    modeOptions :=
      [Mode.SEQUENCE, Mode.ALL_LAYERS, Mode.SELECTED_LAYER].foldl
        (fun m mode => m.assign mode
          { recordingOptions := Looper.getDefaultSupportedRecordingOptions mode
            playingOptions := Looper.getDefaultSupportedPlayingOptions mode })
        []
    emitted := [] }

/-- The expression `new XState(...)`: the new object lives at an address
different from the one of the live state object. -/
def Looper.newState (lp : Looper) (obj : LooperState) : StatePtr :=
  { addr := lp.state.addr + 1, obj := obj }

/-- `Looper::setState`: the test `state.data() != newState` compares addresses. -/
def Looper.setState (lp : Looper) (newState : StatePtr) : Looper :=
  if lp.state.addr ≠ newState.addr then
    ({ lp with state := newState }).emit Signal.stateChanged
  else lp

/-- `Looper::isWaiting`. -/
def Looper.isWaiting (lp : Looper) : Bool :=
  match lp.state.obj with
  | LooperState.WaitingState => true
  | _ => false

/-- `Looper::isPlaying`. -/
def Looper.isPlaying (lp : Looper) : Bool :=
  match lp.state.obj with
  | LooperState.PlayingState => true
  | _ => false

/-- `Looper::isRecording`. -/
def Looper.isRecording (lp : Looper) : Bool :=
  match lp.state.obj with
  | LooperState.RecordingState _ => true
  | _ => false

/-- `Looper::isStopped`. -/
def Looper.isStopped (lp : Looper) : Bool :=
  match lp.state.obj with
  | LooperState.StoppedState => true
  | _ => false

/-- Modelled from the spec: `Looper::getOption(RecordingOption)` (declared in
AudioLooper.h, not among the sources) reads the value the current mode's
recording options hold for the option, `false` when the mode has none. -/
def Looper.getOption (lp : Looper) (option : RecordingOption) : Bool :=
  ((lp.modeOptions.value lp.mode { recordingOptions := [], playingOptions := [] }).recordingOptions).value
    option false

/-- Modelled from the spec: `Looper::getOption(PlayingOption)`, as `getOption`
for the playing options of the current mode. -/
def Looper.getPlayingOption (lp : Looper) (option : PlayingOption) : Bool :=
  ((lp.modeOptions.value lp.mode { recordingOptions := [], playingOptions := [] }).playingOptions).value
    option false

/-- The expression `layers[i]`; `none` outside the array. -/
def Looper.layerAt (lp : Looper) (i : Nat) : Option LooperLayer := lp.layers[i]?

/-- The statement `layers[i]->method(...)` for a mutating method `f`; `none`
outside the array. -/
def Looper.updateLayer (lp : Looper) (i : Nat) (f : LooperLayer → LooperLayer) : Option Looper :=
  match lp.layers[i]? with
  | some l => some { lp with layers := lp.layers.set i (f l) }
  | none => none

/-! ## Looper: layers -/

/-- `Looper::setLayerGain`. -/
def Looper.setLayerGain (lp : Looper) (layerIndex : Nat) (gain : Int) : Option Looper :=
  if layerIndex < lp.maxLayers then lp.updateLayer layerIndex (fun l => l.setGain gain)
  else some lp

/-- `Looper::setLayerPan`. -/
def Looper.setLayerPan (lp : Looper) (layerIndex : Nat) (pan : Int) : Option Looper :=
  if layerIndex < lp.maxLayers then lp.updateLayer layerIndex (fun l => l.setPan pan)
  else some lp

/-- The loop of `Looper::getLockedLayers`: the value of `lockedLayers` after
the iterations `l = 0, ..., n - 1`. -/
def Looper.getLockedLayers.loop (lp : Looper) : Nat → Option Nat
  | 0 => some 0
  | l + 1 =>
    match Looper.getLockedLayers.loop lp l, lp.layerAt l with
    | some lockedLayers, some layer =>
      some (if layer.isLocked then uadd lockedLayers 1 else lockedLayers)
    | _, _ => none

/-- `Looper::getLockedLayers`. -/
def Looper.getLockedLayers (lp : Looper) : Option Nat :=
  Looper.getLockedLayers.loop lp lp.maxLayers

/-- `Looper::layerIsLocked`. -/
def Looper.layerIsLocked (lp : Looper) (layerIndex : Nat) : Option Bool :=
  if layerIndex < lp.maxLayers then (lp.layerAt layerIndex).map LooperLayer.isLocked
  else some false

/-- `Looper::layerIsValid`. -/
def Looper.layerIsValid (lp : Looper) (layerIndex : Nat) : Option Bool :=
  if layerIndex < lp.maxLayers then (lp.layerAt layerIndex).map LooperLayer.isValid
  else some false

/-- `Looper::setCurrentLayer`. -/
def Looper.setCurrentLayer (lp : Looper) (newLayer : Nat) : Looper :=
  if newLayer < lp.maxLayers then
    ({ lp with currentLayerIndex := newLayer }).emit (Signal.currentLayerChanged newLayer)
  else lp

/-- The `do ... while (!layerIsLocked(nextLayer))` loop of
`Looper::incrementLockedLayer`.  `fuel` bounds the number of iterations the
model runs, `iter` counts the iterations done and `rand iter` is the value the
call of `qrand()` returns in this iteration. -/
def Looper.incrementLockedLayer.loop (lp : Looper) (isRandomizing : Bool) (rand : Nat → Nat) :
    Nat → Nat → Nat → Option Nat
  | 0, _, _ => none
  | fuel + 1, iter, nextLayer =>
    if lp.maxLayers = 0 then none
    else
      let nextLayer :=
        if isRandomizing then (rand iter % lp.maxLayers) % QUINT8_RANGE
        else ((nextLayer + 1) % lp.maxLayers) % QUINT8_RANGE
      match lp.layerIsLocked nextLayer with
      | none => none
      | some true => some nextLayer
      | some false => Looper.incrementLockedLayer.loop lp isRandomizing rand fuel (iter + 1) nextLayer

/-- `Looper::incrementLockedLayer`. -/
def Looper.incrementLockedLayer (lp : Looper) (fuel : Nat) (rand : Nat → Nat) : Option Looper :=
  let nextLayer := lp.currentLayerIndex
  let isRandomizing := lp.getPlayingOption PlayingOption.RandomizeLayers
  match lp.getLockedLayers with
  | none => none
  | some lockedLayers =>
    if lockedLayers > 0 then
      (Looper.incrementLockedLayer.loop lp isRandomizing rand fuel 0 nextLayer).map
        (fun nextLayer => lp.setCurrentLayer nextLayer)
    else some (lp.setCurrentLayer nextLayer)

/-- `Looper::incrementCurrentLayer`. -/
def Looper.incrementCurrentLayer (lp : Looper) (fuel : Nat) (rand : Nat → Nat) : Option Looper :=
  let isPlayingLockedLayersOnly := lp.getPlayingOption PlayingOption.PlayLockedLayers
  let isRandomizing := lp.getPlayingOption PlayingOption.RandomizeLayers
  if isPlayingLockedLayersOnly then lp.incrementLockedLayer fuel rand
  else if lp.maxLayers = 0 then none
  else
    let nextLayer :=
      if isRandomizing && decide (lp.maxLayers > 1) then (rand 0 % lp.maxLayers) % QUINT8_RANGE
      else ((lp.currentLayerIndex + 1) % lp.maxLayers) % QUINT8_RANGE
    some (lp.setCurrentLayer nextLayer)

/-- `Looper::appendInCurrentLayer`. -/
def Looper.appendInCurrentLayer (lp : Looper) (samples : SamplesBuffer) (samplesToAppend : Nat) :
    Option Looper :=
  lp.updateLayer lp.currentLayerIndex (fun l => l.append samples samplesToAppend)

/-- `Looper::overdubInCurrentLayer`. -/
def Looper.overdubInCurrentLayer (lp : Looper) (samples : SamplesBuffer) (samplesToMix : Nat) :
    Option Looper :=
  lp.updateLayer lp.currentLayerIndex (fun l => l.overdub samples samplesToMix lp.intervalPosition)

/-- `Looper::currentLayerIsLocked`. -/
def Looper.currentLayerIsLocked (lp : Looper) : Option Bool :=
  (lp.layerAt lp.currentLayerIndex).map LooperLayer.isLocked

/-- `Looper::canLockLayer`. -/
def Looper.canLockLayer (lp : Looper) (layer : Nat) : Bool :=
  if layer ≥ lp.maxLayers then false
  else lp.isPlaying || lp.isStopped

/-- `Looper::setLayerLockedState`. -/
def Looper.setLayerLockedState (lp : Looper) (layerIndex : Nat) (locked : Bool) : Option Looper :=
  if lp.canLockLayer layerIndex then
    (lp.updateLayer layerIndex (fun l => l.setLocked locked)).map
      (fun lp1 => lp1.emit (Signal.layerLockedStateChanged layerIndex locked))
  else some lp

/-- `Looper::toggleLayerLockedState`: the argument of the call reads
`layers[layerIndex]` before any test of `layerIndex`. -/
def Looper.toggleLayerLockedState (lp : Looper) (layerIndex : Nat) : Option Looper :=
  match lp.layerAt layerIndex with
  | some layer => lp.setLayerLockedState layerIndex (!layer.isLocked)
  | none => none

/-- The `while (testedLayers < maxLayers)` loop of
`Looper::getFirstUnlockedLayerIndex`, by the number `maxLayers - testedLayers`
of iterations that are left. -/
def Looper.getFirstUnlockedLayerIndex.loop (lp : Looper) : Nat → Nat → Option Int
  | 0, _ => some (-1)
  | left + 1, layer =>
    match lp.layerAt layer with
    | none => none
    | some l =>
      if !l.isLocked then some (layer : Int)
      else
        Looper.getFirstUnlockedLayerIndex.loop lp left (((layer + 1) % lp.maxLayers) % QUINT8_RANGE)

/-- `Looper::getFirstUnlockedLayerIndex`. -/
def Looper.getFirstUnlockedLayerIndex (lp : Looper) (startingFrom : Nat) : Option Int :=
  if lp.maxLayers = 0 then none
  else Looper.getFirstUnlockedLayerIndex.loop lp lp.maxLayers (startingFrom % lp.maxLayers)

/-- `Looper::getNextUnlockedLayerIndex`. -/
def Looper.getNextUnlockedLayerIndex (lp : Looper) : Option Int :=
  if lp.maxLayers = 0 then none
  else lp.getFirstUnlockedLayerIndex (((lp.currentLayerIndex + 1) % lp.maxLayers) % QUINT8_RANGE)

/-! ## Looper: transport -/

/-- `Looper::stop`. -/
def Looper.stop (lp : Looper) : Looper :=
  lp.setState (lp.newState LooperState.StoppedState)

/-- `Looper::play`. -/
def Looper.play (lp : Looper) : Looper :=
  lp.setState (lp.newState LooperState.PlayingState)

/-- `Looper::togglePlay`. -/
def Looper.togglePlay (lp : Looper) : Looper :=
  if lp.isPlaying then lp.stop else lp.play

/-- `Looper::startRecording`. -/
def Looper.startRecording (lp : Looper) : Option Looper :=
  match lp.getFirstUnlockedLayerIndex lp.currentLayerIndex with
  | none => none
  | some firstRecordingLayer =>
    if firstRecordingLayer ≥ 0 then
      let lp1 := lp.setCurrentLayer (firstRecordingLayer.toNat % QUINT8_RANGE)
      let isOverdubbing := lp1.getOption RecordingOption.Overdub
      let zeroed :=
        if !isOverdubbing then lp1.updateLayer lp1.currentLayerIndex LooperLayer.zero
        else some lp1
      zeroed.map (fun lp2 => lp2.setState (lp2.newState (LooperState.RecordingState firstRecordingLayer)))
    else some lp

/-- `Looper::toggleRecording`. -/
def Looper.toggleRecording (lp : Looper) : Option Looper :=
  if lp.isRecording || lp.isWaiting then some lp.play
  else
    match lp.getFirstUnlockedLayerIndex lp.currentLayerIndex with
    | none => none
    | some firstRecordingLayer =>
      if firstRecordingLayer ≥ 0 then
        let lp1 := lp.setState (lp.newState LooperState.WaitingState)
        some (lp1.setCurrentLayer (firstRecordingLayer.toNat % QUINT8_RANGE))
      else some lp.stop

/-- `Looper::canClearLayer`; `&&` evaluates its right operand only when the
left one is true. -/
def Looper.canClearLayer (lp : Looper) (layer : Nat) : Option Bool :=
  if layer ≥ lp.maxLayers then some false
  else if !(lp.isPlaying || lp.isStopped) then some false
  else
    match lp.layerIsLocked layer with
    | none => none
    | some true => some false
    | some false => lp.layerIsValid layer

/-- `Looper::clearLayer`. -/
def Looper.clearLayer (lp : Looper) (layer : Nat) : Option Looper :=
  match lp.canClearLayer layer with
  | none => none
  | some true => lp.updateLayer layer LooperLayer.zero
  | some false => some lp

/-- `Looper::clearCurrentLayer`. -/
def Looper.clearCurrentLayer (lp : Looper) : Option Looper :=
  lp.clearLayer lp.currentLayerIndex

/-- `Looper::canSelectLayers`. -/
def Looper.canSelectLayers (lp : Looper) : Bool :=
  if lp.maxLayers ≤ 1 then false
  else if lp.isRecording || lp.isWaiting then false
  else if lp.isPlaying && decide (lp.mode ≠ Mode.SELECTED_LAYER) then false
  else true

/-- `Looper::selectLayer`. -/
def Looper.selectLayer (lp : Looper) (layerIndex : Nat) : Looper :=
  if !lp.canSelectLayers then lp
  else lp.setCurrentLayer layerIndex

/-- `Looper::setLayers`; the parameter `maxLayers` is a `quint8`, so the
assignment of the macro to it is taken modulo 256. -/
def Looper.setLayers (MAX_LOOP_LAYERS : Nat) (lp : Looper) (maxLayers : Nat) : Looper :=
  let maxLayers :=
    if maxLayers < 1 then 1
    else if maxLayers > MAX_LOOP_LAYERS then MAX_LOOP_LAYERS % QUINT8_RANGE
    else maxLayers
  ({ lp with maxLayers := maxLayers }).emit (Signal.maxLayersChanged maxLayers)

/-- `Looper::setMode`. -/
def Looper.setMode (lp : Looper) (mode : Mode) : Looper :=
  if lp.mode ≠ mode then ({ lp with mode := mode }).emit Signal.modeChanged
  else lp

/-- `Looper::canRecord`; the call `getFirstUnlockedLayerIndex()` takes the
default argument 0 of the declaration. -/
def Looper.canRecord (lp : Looper) : Option Bool :=
  if lp.mode ≠ Mode.SELECTED_LAYER then
    (lp.getFirstUnlockedLayerIndex 0).map (fun r => decide (r ≥ 0))
  else (lp.layerAt lp.currentLayerIndex).map (fun l => !l.isLocked)

/-- The windows of `getSamplesPeaks`: `fuel` bounds the number of windows. -/
def LooperLayer.getSamplesPeaks.windows (samplesPerPeak : Nat) : Nat → SamplesBuffer → List Sample
  | 0, _ => []
  | _ + 1, [] => []
  | fuel + 1, x :: xs =>
    (((x :: xs).take samplesPerPeak).map (fun s => (s.natAbs : Int))).foldl max 0 ::
      LooperLayer.getSamplesPeaks.windows samplesPerPeak fuel ((x :: xs).drop samplesPerPeak)

/-- Modelled from the spec: `LooperLayer::getSamplesPeaks(samplesPerPeak)` scans
the buffer in non-overlapping windows of `samplesPerPeak` samples and takes the
maximum absolute sample of each window. -/
def LooperLayer.getSamplesPeaks (l : LooperLayer) (samplesPerPeak : Nat) : List Sample :=
  if samplesPerPeak = 0 then []
  else LooperLayer.getSamplesPeaks.windows samplesPerPeak l.samples.length l.samples

/-- `Looper::getLayerPeaks`. -/
def Looper.getLayerPeaks (lp : Looper) (layerIndex : Nat) (samplesPerPeak : Nat) :
    Option (List Sample) :=
  if layerIndex < lp.maxLayers then
    (lp.layerAt layerIndex).map (fun layer => layer.getSamplesPeaks samplesPerPeak)
  else some []

/-! ## The state objects

AudioLooperStates.cpp is not among the sources: the three virtual methods of
`LooperState` that `Looper` calls are modelled from the spec (section 4.2). -/

/-- Modelled from the spec: `LooperState::addBuffer(samples, count)`, missing from
the sources.  Stopped, Waiting and Playing ignore the input; Recording routes it
into the current layer, by `overdub` when the Overdub option is set and by
`append` otherwise. -/
def LooperState.addBuffer (st : LooperState) (lp : Looper) (samples : SamplesBuffer)
    (samplesToProcess : Nat) : Option Looper :=
  match st with
  | LooperState.RecordingState _ =>
    if lp.getOption RecordingOption.Overdub then lp.overdubInCurrentLayer samples samplesToProcess
    else lp.appendInCurrentLayer samples samplesToProcess
  | _ => some lp

/-- Modelled from the spec: `LooperState::mixTo(destination, count)`, missing from
the sources.  It produces or ignores output: it writes into the destination
buffer only (the layers' `mixTo` is a read-only copy), so the Looper is the
same after the call.  The destination buffer is not part of the model. -/
def LooperState.mixTo (_st : LooperState) (lp : Looper) (_samplesToMix : Nat) : Option Looper :=
  some lp

/-- Modelled from the spec: `LooperState::handleNewCycle(cycleLength)`, missing from
the sources.  Stopped does nothing; Waiting starts the recording at the cycle
edge; Recording goes on while `stillArmed` and becomes Playing otherwise (the
spec leaves this arming rule to a policy, here an argument); Playing advances
the current layer once per cycle in SEQUENCE mode. -/
def LooperState.handleNewCycle (st : LooperState) (lp : Looper) (_samplesInCycle : Nat)
    (stillArmed : Bool) (fuel : Nat) (rand : Nat → Nat) : Option Looper :=
  match st with
  | LooperState.StoppedState => some lp
  | LooperState.WaitingState => lp.startRecording
  | LooperState.RecordingState _ => if stillArmed then some lp else some lp.play
  | LooperState.PlayingState =>
    if lp.mode = Mode.SEQUENCE then lp.incrementCurrentLayer fuel rand else some lp

/-! ## Looper: audio path -/

/-- The expression `qMin(samples.getFrameLenght(), intervalLenght - intervalPosition)`
of `addBuffer` and `mixToBuffer`: the sample count handed to the state. -/
def Looper.samplesToProcess (lp : Looper) (frameLenght : Nat) : Nat :=
  qMin frameLenght (usub lp.intervalLenght lp.intervalPosition)

/-- `Looper::addBuffer`; the virtual call `state->addBuffer(samples, samplesToProcess)`
is the argument `stateAddBuffer`, which gets the state object, the Looper, the
input buffer and the sample count, and gives the Looper after the call. -/
def Looper.addBufferWith
    (stateAddBuffer : LooperState → Looper → SamplesBuffer → Nat → Option Looper)
    (lp : Looper) (samples : SamplesBuffer) : Option Looper :=
  let samplesToProcess := lp.samplesToProcess samples.length
  stateAddBuffer lp.state.obj lp samples samplesToProcess

/-- `Looper::addBuffer` with the state objects of the spec. -/
def Looper.addBuffer (lp : Looper) (samples : SamplesBuffer) : Option Looper :=
  lp.addBufferWith LooperState.addBuffer samples

/-- `Looper::mixToBuffer`; the virtual call `state->mixTo(samples, samplesToProcess)`
is the argument `stateMixTo`, which gets the state object, the Looper, the
destination buffer and the sample count, and gives the Looper and the
destination buffer after the call. -/
def Looper.mixToBufferWith
    (stateMixTo : LooperState → Looper → SamplesBuffer → Nat → Option (Looper × SamplesBuffer))
    (lp : Looper) (samples : SamplesBuffer) : Option (Looper × SamplesBuffer) :=
  let samplesToProcess := lp.samplesToProcess samples.length
  match stateMixTo lp.state.obj lp samples samplesToProcess with
  | none => none
  | some (lp1, mixed) =>
    if lp1.intervalLenght ≠ 0 then
      some ({ lp1 with
        intervalPosition := uadd lp1.intervalPosition samplesToProcess % lp1.intervalLenght }, mixed)
    else some (lp1, mixed)

/-- `Looper::mixToBuffer` with the state objects of the spec, for a destination
buffer of `frameLenght` frames; the destination buffer, which the state objects
of the spec leave out, is dropped from the result. -/
def Looper.mixToBuffer (lp : Looper) (frameLenght : Nat) : Option Looper :=
  (lp.mixToBufferWith
    (fun st lp1 samples samplesToMix => (st.mixTo lp1 samplesToMix).map (fun lp2 => (lp2, samples)))
    (List.replicate frameLenght 0)).map Prod.fst

/-- The loop `for (l = 0; l < maxLayers; ++l) layers[l]->prepareForNewCycle(...)`
of `startNewCycle`: the Looper after the iterations `l = 0, ..., n - 1`. -/
def Looper.startNewCycle.loop (prepareForNewCycle : LooperLayer → Nat → Bool → LooperLayer)
    (samplesInCycle : Nat) (isOverdubbing : Bool) (lp : Looper) : Nat → Option Looper
  | 0 => some lp
  | l + 1 =>
    match Looper.startNewCycle.loop prepareForNewCycle samplesInCycle isOverdubbing lp l with
    | none => none
    | some lp1 =>
      lp1.updateLayer l (fun layer => prepareForNewCycle layer samplesInCycle isOverdubbing)

/-- `Looper::startNewCycle`.  `LooperLayer::prepareForNewCycle` is missing from
the sources and the spec leaves what it does to the content to a policy: it is
the parameter `prepareForNewCycle`.  `stillArmed`, `fuel` and `rand` go to
`handleNewCycle`. -/
def Looper.startNewCycle (prepareForNewCycle : LooperLayer → Nat → Bool → LooperLayer)
    (lp : Looper) (samplesInCycle : Nat) (stillArmed : Bool) (fuel : Nat) (rand : Nat → Nat) :
    Option Looper :=
  let lp1 :=
    if samplesInCycle ≠ lp.intervalLenght then { lp with intervalLenght := samplesInCycle } else lp
  let lp2 := { lp1 with intervalPosition := 0 }
  let isOverdubbing := lp2.getOption RecordingOption.Overdub
  match Looper.startNewCycle.loop prepareForNewCycle samplesInCycle isOverdubbing lp2
      lp2.maxLayers with
  | none => none
  | some lp3 => lp3.state.obj.handleNewCycle lp3 samplesInCycle stillArmed fuel rand

/-- Modelled from the spec: `Looper::setOption(RecordingOption, value)`, missing
from the sources: a control operation that changes the value the current mode
holds for an option it supports. -/
def Looper.setOption (lp : Looper) (option : RecordingOption) (value : Bool) : Looper :=
  let current := lp.modeOptions.value lp.mode { recordingOptions := [], playingOptions := [] }
  if current.recordingOptions.contains option then
    let updated : ModeOptions :=
      { current with recordingOptions := current.recordingOptions.assign option value }
    { lp with modeOptions := lp.modeOptions.assign lp.mode updated }
  else lp

/-- Modelled from the spec: `Looper::setOption(PlayingOption, value)`, as
`setOption` for the playing options. -/
def Looper.setPlayingOption (lp : Looper) (option : PlayingOption) (value : Bool) : Looper :=
  let current := lp.modeOptions.value lp.mode { recordingOptions := [], playingOptions := [] }
  if current.playingOptions.contains option then
    let updated : ModeOptions :=
      { current with playingOptions := current.playingOptions.assign option value }
    { lp with modeOptions := lp.modeOptions.assign lp.mode updated }
  else lp

/-! ## Sequences of calls -/

/-- A call of an operation of `Looper`, with its arguments. -/
inductive Op
  | setLayerGain (layerIndex : Nat) (gain : Int)
  | setLayerPan (layerIndex : Nat) (pan : Int)
  | setLayers (maxLayers : Nat)
  | setCurrentLayer (newLayer : Nat)
  | selectLayer (layerIndex : Nat)
  | startRecording
  | toggleRecording
  | play
  | stop
  | togglePlay
  | incrementCurrentLayer (fuel : Nat) (rand : Nat → Nat)
  | incrementLockedLayer (fuel : Nat) (rand : Nat → Nat)
  | toggleLayerLockedState (layerIndex : Nat)
  | setLayerLockedState (layerIndex : Nat) (locked : Bool)
  | clearLayer (layer : Nat)
  | clearCurrentLayer
  | setMode (mode : Mode)
  | setOption (option : RecordingOption) (value : Bool)
  | setPlayingOption (option : PlayingOption) (value : Bool)
  | addBuffer (samples : SamplesBuffer)
  | mixToBuffer (frameLenght : Nat)
  | startNewCycle (samplesInCycle : Nat) (stillArmed : Bool) (fuel : Nat) (rand : Nat → Nat)

/-- The arguments of the call fit their C++ parameter types (`quint8`, `uint`). -/
def Op.WellTyped : Op → Prop
  | Op.setLayerGain layerIndex _ => layerIndex < QUINT8_RANGE
  | Op.setLayerPan layerIndex _ => layerIndex < QUINT8_RANGE
  | Op.setLayers maxLayers => maxLayers < QUINT8_RANGE
  | Op.setCurrentLayer newLayer => newLayer < QUINT8_RANGE
  | Op.selectLayer layerIndex => layerIndex < QUINT8_RANGE
  | Op.toggleLayerLockedState layerIndex => layerIndex < QUINT8_RANGE
  | Op.setLayerLockedState layerIndex _ => layerIndex < QUINT8_RANGE
  | Op.clearLayer layer => layer < QUINT8_RANGE
  | Op.addBuffer samples => samples.length < UINT_RANGE
  | Op.mixToBuffer frameLenght => frameLenght < UINT_RANGE
  | Op.startNewCycle samplesInCycle _ _ _ => samplesInCycle < UINT_RANGE
  | _ => True

instance (op : Op) : Decidable op.WellTyped := by
  cases op <;> unfold Op.WellTyped <;> exact inferInstance

/-- The Looper after one call; `none` when the call has no defined result or
its arguments do not fit their types. -/
def Looper.apply (MAX_LOOP_LAYERS : Nat)
    (prepareForNewCycle : LooperLayer → Nat → Bool → LooperLayer) (lp : Looper) (op : Op) :
    Option Looper :=
  if op.WellTyped then
    match op with
    | Op.setLayerGain layerIndex gain => lp.setLayerGain layerIndex gain
    | Op.setLayerPan layerIndex pan => lp.setLayerPan layerIndex pan
    | Op.setLayers maxLayers => some (lp.setLayers MAX_LOOP_LAYERS maxLayers)
    | Op.setCurrentLayer newLayer => some (lp.setCurrentLayer newLayer)
    | Op.selectLayer layerIndex => some (lp.selectLayer layerIndex)
    | Op.startRecording => lp.startRecording
    | Op.toggleRecording => lp.toggleRecording
    | Op.play => some lp.play
    | Op.stop => some lp.stop
    | Op.togglePlay => some lp.togglePlay
    | Op.incrementCurrentLayer fuel rand => lp.incrementCurrentLayer fuel rand
    | Op.incrementLockedLayer fuel rand => lp.incrementLockedLayer fuel rand
    | Op.toggleLayerLockedState layerIndex => lp.toggleLayerLockedState layerIndex
    | Op.setLayerLockedState layerIndex locked => lp.setLayerLockedState layerIndex locked
    | Op.clearLayer layer => lp.clearLayer layer
    | Op.clearCurrentLayer => lp.clearCurrentLayer
    | Op.setMode mode => some (lp.setMode mode)
    | Op.setOption option value => some (lp.setOption option value)
    | Op.setPlayingOption option value => some (lp.setPlayingOption option value)
    | Op.addBuffer samples => lp.addBuffer samples
    | Op.mixToBuffer frameLenght => lp.mixToBuffer frameLenght
    | Op.startNewCycle samplesInCycle stillArmed fuel rand =>
      lp.startNewCycle prepareForNewCycle samplesInCycle stillArmed fuel rand
  else none

/-- The Looper after a sequence of calls, each on the result of the one before. -/
def Looper.run (MAX_LOOP_LAYERS : Nat)
    (prepareForNewCycle : LooperLayer → Nat → Bool → LooperLayer) (lp : Looper) :
    List Op → Option Looper
  | [] => some lp
  | op :: ops =>
    match lp.apply MAX_LOOP_LAYERS prepareForNewCycle op with
    | none => none
    | some lp1 => Looper.run MAX_LOOP_LAYERS prepareForNewCycle lp1 ops

/-- A policy for `prepareForNewCycle` in the spec's words: the buffer keeps its
content when overdubbing with an unchanged length, and is cleared otherwise;
a locked layer is left alone.  Used to run the model on concrete inputs. -/
def prepareKeepOrClear (l : LooperLayer) (length : Nat) (isOverdubbing : Bool) : LooperLayer :=
  if l.locked then l
  else if isOverdubbing && decide (l.samples.length = length) then l
  else { l with samples := [] }

/-! ## Predicates on the cycle fields, and concrete runs -/

/-- The two Loopers have the same cycle length and cycle position. -/
def SameCycle (lp lp1 : Looper) : Prop :=
  lp1.intervalLenght = lp.intervalLenght ∧ lp1.intervalPosition = lp.intervalPosition

/-- The cycle position is in range: below the cycle length when there is a
cycle, and 0 when no cycle is established. -/
def Looper.PositionInRange (lp : Looper) : Prop :=
  (0 < lp.intervalLenght → lp.intervalPosition < lp.intervalLenght) ∧
  (lp.intervalLenght = 0 → lp.intervalPosition = 0)

instance (lp : Looper) : Decidable lp.PositionInRange := by
  unfold Looper.PositionInRange; exact inferInstance

/-- What every call keeps true of the cycle fields. -/
def Looper.CycleOk (lp : Looper) : Prop :=
  lp.intervalLenght < UINT_RANGE ∧ lp.PositionInRange

/-- The Looper that a sequence of calls on a new Looper with eight layer slots
leaves, under the policy `prepareKeepOrClear`; the new Looper itself when a
call of the sequence has no defined result. -/
def demoRun (ops : List Op) : Looper :=
  (Looper.run 8 prepareKeepOrClear (Looper.new 8) ops).getD (Looper.new 8)

/-- A run: a recording is armed and starts at a cycle of 256 samples, takes
three samples and mixes 100 frames; in the next cycle it plays, and two buffers
of 200 frames are mixed, the second one clipped at the end of the cycle. -/
def recordThenPlayCalls : List Op :=
  [Op.toggleRecording, Op.startNewCycle 256 true 0 (fun _ => 0), Op.addBuffer [1, 2, 3],
    Op.mixToBuffer 100, Op.startNewCycle 256 false 0 (fun _ => 0), Op.mixToBuffer 200,
    Op.mixToBuffer 200]

/-- The active layers are allocated: `maxLayers` is at least 1, fits a `quint8`
and does not exceed the number of layer objects. -/
def Looper.ActiveLayersOk (lp : Looper) : Prop :=
  0 < lp.maxLayers ∧ lp.maxLayers ≤ lp.layers.length ∧ lp.maxLayers < QUINT8_RANGE

instance (lp : Looper) : Decidable lp.ActiveLayersOk := by
  unfold Looper.ActiveLayersOk; exact inferInstance

/-- Layer `i` exists and is locked. -/
def Looper.lockedAt (lp : Looper) (i : Nat) : Prop :=
  ∃ l, lp.layers[i]? = some l ∧ l.locked = true

/-- Layer `i` exists and is not locked. -/
def Looper.unlockedAt (lp : Looper) (i : Nat) : Prop :=
  ∃ l, lp.layers[i]? = some l ∧ l.locked = false

instance (lp : Looper) (i : Nat) : Decidable (lp.lockedAt i) :=
  decidable_of_iff (lp.layers[i]?.map LooperLayer.isLocked = some true) (by
    unfold Looper.lockedAt LooperLayer.isLocked
    cases lp.layers[i]? <;> simp)

instance (lp : Looper) (i : Nat) : Decidable (lp.unlockedAt i) :=
  decidable_of_iff (lp.layers[i]?.map LooperLayer.isLocked = some false) (by
    unfold Looper.unlockedAt LooperLayer.isLocked
    cases lp.layers[i]? <;> simp)

/-- A state for concrete runs: a new Looper with eight layer slots whose layer
0 holds three recorded samples and is locked. -/
def lockedFirstLayer : Looper :=
  { Looper.new 8 with
    layers :=
      (Looper.new 8).layers.set 0
        { samples := [5, -7, 2], gain := 1, pan := 0, locked := true, valid := true } }

/-- A state for concrete runs: a new Looper with eight layer slots whose four
active layers are locked. -/
def allActiveLocked : Looper :=
  { Looper.new 8 with
    layers :=
      List.replicate 4 { LooperLayer.new with locked := true } ++ List.replicate 4 LooperLayer.new }

/-- The two Loopers have the same `maxLayers` and as many layer objects. -/
def SameLayout (lp lp1 : Looper) : Prop :=
  lp1.maxLayers = lp.maxLayers ∧ lp1.layers.length = lp.layers.length

/-- The layer array has `M` entries and `maxLayers` lies in `[1, M]`. -/
def Looper.LayoutOk (M : Nat) (lp : Looper) : Prop :=
  0 < lp.maxLayers ∧ lp.maxLayers ≤ M ∧ lp.layers.length = M

/-! ## Further predicates, counts and concrete states -/

/-- Layer `i` exists and is valid. -/
def Looper.validAt (lp : Looper) (i : Nat) : Prop :=
  ∃ l, lp.layers[i]? = some l ∧ l.valid = true

instance (lp : Looper) (i : Nat) : Decidable (lp.validAt i) :=
  decidable_of_iff (lp.layers[i]?.map LooperLayer.isValid = some true) (by
    unfold Looper.validAt LooperLayer.isValid
    cases lp.layers[i]? <;> simp)

/-- A state for concrete runs: a new Looper with eight layer slots after
`setLayerLockedState(1, true)`: layer 1 is locked, the current layer is 0. -/
def secondLayerLocked : Looper := demoRun [Op.setLayerLockedState 1 true]

/-- A state for concrete runs: SELECTED_LAYER mode with layer 2 selected, and
layers 0 and 3 locked. -/
def selectedThirdLayer : Looper :=
  demoRun [Op.setMode Mode.SELECTED_LAYER, Op.selectLayer 2, Op.setLayerLockedState 0 true,
    Op.setLayerLockedState 3 true]

/-- A run: a recording is armed and starts at a cycle of 256 samples, takes
three samples, and `stop()` ends it. -/
def recordOneLayerCalls : List Op :=
  [Op.toggleRecording, Op.startNewCycle 256 true 0 (fun _ => 0), Op.addBuffer [1, 2, 3], Op.stop]

/-- The number of unlocked layers among the layers `0, ..., n - 1`. -/
def Looper.countUnlockedBelow (lp : Looper) (n : Nat) : Nat :=
  ((List.range n).filter fun i => decide (lp.unlockedAt i)).length

/-- The `countUnlocked()` of the spec: the number of unlocked layers with index
below `maxLayers`. -/
def Looper.countUnlocked (lp : Looper) : Nat := lp.countUnlockedBelow lp.maxLayers

/-- Successive calls of `incrementCurrentLayer`, `n` of them. -/
def Looper.incrementCurrentLayerTimes (lp : Looper) (fuel : Nat) (rand : Nat → Nat) :
    Nat → Option Looper
  | 0 => some lp
  | n + 1 =>
    match lp.incrementCurrentLayer fuel rand with
    | none => none
    | some lp1 => Looper.incrementCurrentLayerTimes lp1 fuel rand n

/-- A state for concrete runs: a new Looper with eight layer slots after
`setLayerLockedState(0, true)` and `setLayerLockedState(1, true)`: layers 0 and
1 of the four active layers are locked, the current layer is 0. -/
def twoLockedOfFour : Looper :=
  demoRun [Op.setLayerLockedState 0 true, Op.setLayerLockedState 1 true]

/-- The second Looper has the `maxLayers` and the number of layer objects of
the first, and its current layer is the one of the first or an active one. -/
def CurStep (lp lp1 : Looper) : Prop :=
  lp1.maxLayers = lp.maxLayers ∧ lp1.layers.length = lp.layers.length ∧
  (lp1.currentLayerIndex = lp.currentLayerIndex ∨ lp1.currentLayerIndex < lp.maxLayers)

/-- The layout is in order and the current layer is one of the `M` layer objects. -/
def Looper.CurrentOk (M : Nat) (lp : Looper) : Prop :=
  lp.LayoutOk M ∧ lp.currentLayerIndex < M

/-! ## Looper: mixing layers into an output buffer

`LooperLayer::mixTo(destination, count, position)` is missing from the sources
and the spec describes it as a read-only additive copy: it is the parameter
`mixTo`, a function of the layer, the destination buffer, the count and the
position that returns the destination buffer after the call. -/

/-- `Looper::mixLayer`; the result is the buffer `samples` after the call. -/
def Looper.mixLayer (mixTo : LooperLayer → SamplesBuffer → Nat → Nat → SamplesBuffer)
    (lp : Looper) (layerIndex : Nat) (samples : SamplesBuffer) (samplesToMix : Nat) :
    Option SamplesBuffer :=
  if layerIndex ≥ lp.maxLayers then some samples
  else
    match lp.layerAt layerIndex with
    | none => none
    | some loopLayer =>
      let samplesToMix := qMin samplesToMix loopLayer.getAvailableSamples
      if samplesToMix ≠ 0 then some (mixTo loopLayer samples samplesToMix lp.intervalPosition)
      else some samples

/-- `Looper::mixCurrentLayerTo`. -/
def Looper.mixCurrentLayerTo (mixTo : LooperLayer → SamplesBuffer → Nat → Nat → SamplesBuffer)
    (lp : Looper) (samples : SamplesBuffer) (samplesToMix : Nat) : Option SamplesBuffer :=
  lp.mixLayer mixTo lp.currentLayerIndex samples samplesToMix

/-- The loop of `Looper::mixAllLayers`: the buffer after the iterations
`layer = 0, ..., n - 1`; the `uint` loop variable is converted to the `quint8`
parameter of `mixLayer`. -/
def Looper.mixAllLayers.loop (mixTo : LooperLayer → SamplesBuffer → Nat → Nat → SamplesBuffer)
    (lp : Looper) (samples : SamplesBuffer) (samplesToMix : Nat) : Nat → Option SamplesBuffer
  | 0 => some samples
  | layer + 1 =>
    match Looper.mixAllLayers.loop mixTo lp samples samplesToMix layer with
    | none => none
    | some mixed => lp.mixLayer mixTo (layer % QUINT8_RANGE) mixed samplesToMix

/-- `Looper::mixAllLayers`. -/
def Looper.mixAllLayers (mixTo : LooperLayer → SamplesBuffer → Nat → Nat → SamplesBuffer)
    (lp : Looper) (samples : SamplesBuffer) (samplesToMix : Nat) : Option SamplesBuffer :=
  Looper.mixAllLayers.loop mixTo lp samples samplesToMix lp.maxLayers

/-- The loop of `Looper::mixLockedLayers`: the buffer after the iterations
`layer = 0, ..., n - 1`. -/
def Looper.mixLockedLayers.loop (mixTo : LooperLayer → SamplesBuffer → Nat → Nat → SamplesBuffer)
    (lp : Looper) (samples : SamplesBuffer) (samplesToMix : Nat) : Nat → Option SamplesBuffer
  | 0 => some samples
  | layer + 1 =>
    match Looper.mixLockedLayers.loop mixTo lp samples samplesToMix layer with
    | none => none
    | some mixed =>
      match lp.layerIsLocked (layer % QUINT8_RANGE) with
      | none => none
      | some true => lp.mixLayer mixTo (layer % QUINT8_RANGE) mixed samplesToMix
      | some false => some mixed

/-- `Looper::mixLockedLayers`. -/
def Looper.mixLockedLayers (mixTo : LooperLayer → SamplesBuffer → Nat → Nat → SamplesBuffer)
    (lp : Looper) (samples : SamplesBuffer) (samplesToMix : Nat) : Option SamplesBuffer :=
  Looper.mixLockedLayers.loop mixTo lp samples samplesToMix lp.maxLayers

/-- Pointwise sum of `xs` onto the front of `destination`, which keeps its length. -/
def addOnto : SamplesBuffer → SamplesBuffer → SamplesBuffer
  | [], _ => []
  | d :: destination, [] => d :: destination
  | d :: destination, x :: xs => (d + x) :: addOnto destination xs

/-- Modelled from the spec: `LooperLayer::mixTo(destination, count, position)`,
an additive copy of `count` samples starting at `position` into `destination`,
clipped to the recorded length.  Used to run the model on concrete inputs. -/
def LooperLayer.mixTo (l : LooperLayer) (destination : SamplesBuffer) (count position : Nat) :
    SamplesBuffer :=
  addOnto destination ((l.samples.drop position).take count)

/-- The layer array has `M` entries and `maxLayers` lies in `[1, M]` and fits a
`quint8`. -/
def Looper.TypedLayoutOk (M : Nat) (lp : Looper) : Prop :=
  0 < lp.maxLayers ∧ lp.maxLayers ≤ M ∧ lp.maxLayers < QUINT8_RANGE ∧ lp.layers.length = M

/-- A state for concrete runs: layers 0 and 2 hold recorded samples and layer 2
is locked; the cycle has 4 samples and the position is 1. -/
def mixDemo : Looper :=
  { Looper.new 8 with
    intervalLenght := 4
    intervalPosition := 1
    layers :=
      [{ samples := [1, 2, 3, 4], gain := 1, pan := 0, locked := false, valid := true },
        LooperLayer.new,
        { samples := [10, 20, 30], gain := 1, pan := 0, locked := true, valid := true },
        LooperLayer.new, LooperLayer.new, LooperLayer.new, LooperLayer.new, LooperLayer.new] }

/-- The second Looper differs from the first by the state object and one more
`stateChanged` signal, and by nothing else. -/
def OnlyStateSwapped (lp lp1 : Looper) : Prop :=
  lp1.currentLayerIndex = lp.currentLayerIndex ∧ lp1.maxLayers = lp.maxLayers ∧
  lp1.mode = lp.mode ∧ lp1.intervalLenght = lp.intervalLenght ∧
  lp1.intervalPosition = lp.intervalPosition ∧ lp1.layers = lp.layers ∧
  lp1.modeOptions = lp.modeOptions ∧ lp1.emitted = lp.emitted ++ [Signal.stateChanged]

/-- A state for concrete runs: SELECTED_LAYER mode with layer 2 selected and
locked, the other layers unlocked. -/
def selectedLayerLocked : Looper :=
  demoRun [Op.setMode Mode.SELECTED_LAYER, Op.selectLayer 2, Op.setLayerLockedState 2 true]

/-! ## The cycle fields are changed by `mixToBuffer` and `startNewCycle` only -/

theorem sameCycle_refl (lp : Looper) : SameCycle lp lp := ⟨rfl, rfl⟩

theorem sameCycle_trans {a b c : Looper} (h1 : SameCycle a b) (h2 : SameCycle b c) :
    SameCycle a c := ⟨h2.1.trans h1.1, h2.2.trans h1.2⟩

theorem sameCycle_emit (lp : Looper) (s : Signal) : SameCycle lp (lp.emit s) := ⟨rfl, rfl⟩

theorem sameCycle_setState (lp : Looper) (p : StatePtr) : SameCycle lp (lp.setState p) := by
  unfold Looper.setState
  split
  · exact ⟨rfl, rfl⟩
  · exact sameCycle_refl lp

theorem sameCycle_setCurrentLayer (lp : Looper) (n : Nat) :
    SameCycle lp (lp.setCurrentLayer n) := by
  unfold Looper.setCurrentLayer
  split
  · exact ⟨rfl, rfl⟩
  · exact sameCycle_refl lp

theorem sameCycle_updateLayer {lp lp1 : Looper} {i : Nat} {f : LooperLayer → LooperLayer}
    (h : lp.updateLayer i f = some lp1) : SameCycle lp lp1 := by
  unfold Looper.updateLayer at h
  split at h
  · cases h; exact ⟨rfl, rfl⟩
  · cases h

theorem sameCycle_stop (lp : Looper) : SameCycle lp lp.stop := sameCycle_setState _ _

theorem sameCycle_play (lp : Looper) : SameCycle lp lp.play := sameCycle_setState _ _

theorem sameCycle_togglePlay (lp : Looper) : SameCycle lp lp.togglePlay := by
  unfold Looper.togglePlay
  split
  · exact sameCycle_stop lp
  · exact sameCycle_play lp

theorem sameCycle_startRecording {lp lp1 : Looper} (h : lp.startRecording = some lp1) :
    SameCycle lp lp1 := by
  unfold Looper.startRecording at h
  split at h
  · cases h
  · split at h
    · simp only [Option.map_eq_some'] at h
      obtain ⟨lp2, h2, rfl⟩ := h
      refine sameCycle_trans ?_ (sameCycle_setState _ _)
      split at h2
      · exact sameCycle_trans (sameCycle_setCurrentLayer _ _) (sameCycle_updateLayer h2)
      · cases h2; exact sameCycle_setCurrentLayer _ _
    · cases h; exact sameCycle_refl lp

theorem sameCycle_toggleRecording {lp lp1 : Looper} (h : lp.toggleRecording = some lp1) :
    SameCycle lp lp1 := by
  unfold Looper.toggleRecording at h
  split at h
  · cases h; exact sameCycle_play lp
  · split at h
    · cases h
    · split at h
      · cases h
        exact sameCycle_trans (sameCycle_setState _ _) (sameCycle_setCurrentLayer _ _)
      · cases h; exact sameCycle_stop lp

theorem sameCycle_setLayerGain {lp lp1 : Looper} {i : Nat} {g : Int}
    (h : lp.setLayerGain i g = some lp1) : SameCycle lp lp1 := by
  unfold Looper.setLayerGain at h
  split at h
  · exact sameCycle_updateLayer h
  · cases h; exact sameCycle_refl lp

theorem sameCycle_setLayerPan {lp lp1 : Looper} {i : Nat} {g : Int}
    (h : lp.setLayerPan i g = some lp1) : SameCycle lp lp1 := by
  unfold Looper.setLayerPan at h
  split at h
  · exact sameCycle_updateLayer h
  · cases h; exact sameCycle_refl lp

theorem sameCycle_setLayers (M : Nat) (lp : Looper) (n : Nat) :
    SameCycle lp (lp.setLayers M n) := ⟨rfl, rfl⟩

theorem sameCycle_selectLayer (lp : Looper) (n : Nat) : SameCycle lp (lp.selectLayer n) := by
  unfold Looper.selectLayer
  split
  · exact sameCycle_refl lp
  · exact sameCycle_setCurrentLayer lp n

theorem sameCycle_incrementLockedLayer {lp lp1 : Looper} {fuel : Nat} {rand : Nat → Nat}
    (h : lp.incrementLockedLayer fuel rand = some lp1) : SameCycle lp lp1 := by
  unfold Looper.incrementLockedLayer at h
  split at h
  · cases h
  · split at h
    · simp only [Option.map_eq_some'] at h
      obtain ⟨n, _, rfl⟩ := h
      exact sameCycle_setCurrentLayer lp n
    · cases h; exact sameCycle_setCurrentLayer lp _

theorem sameCycle_incrementCurrentLayer {lp lp1 : Looper} {fuel : Nat} {rand : Nat → Nat}
    (h : lp.incrementCurrentLayer fuel rand = some lp1) : SameCycle lp lp1 := by
  unfold Looper.incrementCurrentLayer at h
  dsimp only at h
  split at h
  · exact sameCycle_incrementLockedLayer h
  · split at h
    · cases h
    · cases h; exact sameCycle_setCurrentLayer lp _

theorem sameCycle_setLayerLockedState {lp lp1 : Looper} {i : Nat} {b : Bool}
    (h : lp.setLayerLockedState i b = some lp1) : SameCycle lp lp1 := by
  unfold Looper.setLayerLockedState at h
  split at h
  · simp only [Option.map_eq_some'] at h
    obtain ⟨lp2, h2, rfl⟩ := h
    exact sameCycle_trans (sameCycle_updateLayer h2) (sameCycle_emit _ _)
  · cases h; exact sameCycle_refl lp

theorem sameCycle_toggleLayerLockedState {lp lp1 : Looper} {i : Nat}
    (h : lp.toggleLayerLockedState i = some lp1) : SameCycle lp lp1 := by
  unfold Looper.toggleLayerLockedState at h
  split at h
  · exact sameCycle_setLayerLockedState h
  · cases h

theorem sameCycle_clearLayer {lp lp1 : Looper} {i : Nat}
    (h : lp.clearLayer i = some lp1) : SameCycle lp lp1 := by
  unfold Looper.clearLayer at h
  split at h
  · cases h
  · exact sameCycle_updateLayer h
  · cases h; exact sameCycle_refl lp

theorem sameCycle_setMode (lp : Looper) (m : Mode) : SameCycle lp (lp.setMode m) := by
  unfold Looper.setMode
  split
  · exact ⟨rfl, rfl⟩
  · exact sameCycle_refl lp

theorem sameCycle_setOption (lp : Looper) (o : RecordingOption) (v : Bool) :
    SameCycle lp (lp.setOption o v) := by
  unfold Looper.setOption
  dsimp only
  split
  · exact ⟨rfl, rfl⟩
  · exact sameCycle_refl lp

theorem sameCycle_setPlayingOption (lp : Looper) (o : PlayingOption) (v : Bool) :
    SameCycle lp (lp.setPlayingOption o v) := by
  unfold Looper.setPlayingOption
  dsimp only
  split
  · exact ⟨rfl, rfl⟩
  · exact sameCycle_refl lp

theorem sameCycle_stateAddBuffer {st : LooperState} {lp lp1 : Looper} {samples : SamplesBuffer}
    {n : Nat} (h : st.addBuffer lp samples n = some lp1) : SameCycle lp lp1 := by
  unfold LooperState.addBuffer at h
  split at h
  · split at h
    · exact sameCycle_updateLayer h
    · exact sameCycle_updateLayer h
  · cases h; exact sameCycle_refl lp

theorem sameCycle_addBuffer {lp lp1 : Looper} {samples : SamplesBuffer}
    (h : lp.addBuffer samples = some lp1) : SameCycle lp lp1 :=
  sameCycle_stateAddBuffer h

theorem sameCycle_handleNewCycle {st : LooperState} {lp lp1 : Looper} {n fuel : Nat} {armed : Bool}
    {rand : Nat → Nat} (h : st.handleNewCycle lp n armed fuel rand = some lp1) :
    SameCycle lp lp1 := by
  unfold LooperState.handleNewCycle at h
  split at h
  · cases h; exact sameCycle_refl lp
  · exact sameCycle_startRecording h
  · split at h
    · cases h; exact sameCycle_refl lp
    · cases h; exact sameCycle_play lp
  · split at h
    · exact sameCycle_incrementCurrentLayer h
    · cases h; exact sameCycle_refl lp

theorem sameCycle_startNewCycle_loop {prep : LooperLayer → Nat → Bool → LooperLayer}
    {L : Nat} {b : Bool} {lp : Looper} :
    ∀ (n : Nat) {lp1 : Looper}, Looper.startNewCycle.loop prep L b lp n = some lp1 →
      SameCycle lp lp1
  | 0, lp1, h => by
    simp only [Looper.startNewCycle.loop] at h
    cases h; exact sameCycle_refl lp
  | n + 1, lp1, h => by
    simp only [Looper.startNewCycle.loop] at h
    split at h
    · cases h
    · next lp2 h2 =>
      exact sameCycle_trans (sameCycle_startNewCycle_loop n h2) (sameCycle_updateLayer h)

theorem positionInRange_of_sameCycle {lp lp1 : Looper} (h : SameCycle lp lp1)
    (hp : lp.PositionInRange) : lp1.PositionInRange := by
  unfold Looper.PositionInRange at *
  rw [h.1, h.2]; exact hp

theorem mixToBuffer_eq (lp : Looper) (frameLenght : Nat) :
    lp.mixToBuffer frameLenght =
      some (if lp.intervalLenght ≠ 0 then
        { lp with
          intervalPosition := uadd lp.intervalPosition (lp.samplesToProcess frameLenght) % lp.intervalLenght }
        else lp) := by
  unfold Looper.mixToBuffer Looper.mixToBufferWith LooperState.mixTo
  simp only [Option.map_some', List.length_replicate]
  split <;> rfl

theorem positionInRange_mixToBuffer {lp lp1 : Looper} {frameLenght : Nat}
    (h : lp.mixToBuffer frameLenght = some lp1) (hp : lp.PositionInRange) :
    lp1.intervalLenght = lp.intervalLenght ∧ lp1.PositionInRange := by
  rw [mixToBuffer_eq] at h
  cases h
  split
  · next hne =>
    refine ⟨rfl, ?_, ?_⟩
    · intro _
      exact Nat.mod_lt _ (Nat.pos_of_ne_zero hne)
    · intro h0; exact absurd h0 hne
  · exact ⟨rfl, hp⟩

theorem startNewCycle_cycle {prep : LooperLayer → Nat → Bool → LooperLayer} {lp lp1 : Looper}
    {L fuel : Nat} {armed : Bool} {rand : Nat → Nat}
    (h : lp.startNewCycle prep L armed fuel rand = some lp1) :
    lp1.intervalLenght = L ∧ lp1.intervalPosition = 0 := by
  unfold Looper.startNewCycle at h
  dsimp only at h
  split at h
  · cases h
  · next lp3 h3 =>
    have s1 := sameCycle_startNewCycle_loop _ h3
    have s2 := sameCycle_handleNewCycle h
    have s := sameCycle_trans s1 s2
    refine ⟨?_, s.2⟩
    rw [s.1]
    dsimp only
    split
    · rfl
    · next hne => exact (not_not.mp hne).symm

theorem positionInRange_startNewCycle {prep : LooperLayer → Nat → Bool → LooperLayer}
    {lp lp1 : Looper} {L fuel : Nat} {armed : Bool} {rand : Nat → Nat}
    (h : lp.startNewCycle prep L armed fuel rand = some lp1) : lp1.PositionInRange := by
  obtain ⟨h1, h2⟩ := startNewCycle_cycle h
  unfold Looper.PositionInRange
  rw [h1, h2]
  exact ⟨fun h => h, fun _ => rfl⟩

theorem cycleOk_of_sameCycle {lp lp1 : Looper} (h : SameCycle lp lp1) (hp : lp.CycleOk) :
    lp1.CycleOk := by
  unfold Looper.CycleOk at *
  exact ⟨h.1 ▸ hp.1, positionInRange_of_sameCycle h hp.2⟩

theorem cycleOk_apply {M : Nat} {prep : LooperLayer → Nat → Bool → LooperLayer}
    {lp lp1 : Looper} {op : Op} (h : lp.apply M prep op = some lp1) (hp : lp.CycleOk) :
    lp1.CycleOk := by
  unfold Looper.apply at h
  split at h
  · next hwt =>
    cases op <;> simp only [Option.some.injEq] at h
    case setLayerGain => exact cycleOk_of_sameCycle (sameCycle_setLayerGain h) hp
    case setLayerPan => exact cycleOk_of_sameCycle (sameCycle_setLayerPan h) hp
    case setLayers => exact cycleOk_of_sameCycle (h ▸ sameCycle_setLayers _ _ _) hp
    case setCurrentLayer => exact cycleOk_of_sameCycle (h ▸ sameCycle_setCurrentLayer _ _) hp
    case selectLayer => exact cycleOk_of_sameCycle (h ▸ sameCycle_selectLayer _ _) hp
    case startRecording => exact cycleOk_of_sameCycle (sameCycle_startRecording h) hp
    case toggleRecording => exact cycleOk_of_sameCycle (sameCycle_toggleRecording h) hp
    case play => exact cycleOk_of_sameCycle (h ▸ sameCycle_play _) hp
    case stop => exact cycleOk_of_sameCycle (h ▸ sameCycle_stop _) hp
    case togglePlay => exact cycleOk_of_sameCycle (h ▸ sameCycle_togglePlay _) hp
    case incrementCurrentLayer => exact cycleOk_of_sameCycle (sameCycle_incrementCurrentLayer h) hp
    case incrementLockedLayer => exact cycleOk_of_sameCycle (sameCycle_incrementLockedLayer h) hp
    case toggleLayerLockedState =>
      exact cycleOk_of_sameCycle (sameCycle_toggleLayerLockedState h) hp
    case setLayerLockedState => exact cycleOk_of_sameCycle (sameCycle_setLayerLockedState h) hp
    case clearLayer => exact cycleOk_of_sameCycle (sameCycle_clearLayer h) hp
    case clearCurrentLayer => exact cycleOk_of_sameCycle (sameCycle_clearLayer h) hp
    case setMode => exact cycleOk_of_sameCycle (h ▸ sameCycle_setMode _ _) hp
    case setOption => exact cycleOk_of_sameCycle (h ▸ sameCycle_setOption _ _ _) hp
    case setPlayingOption => exact cycleOk_of_sameCycle (h ▸ sameCycle_setPlayingOption _ _ _) hp
    case addBuffer => exact cycleOk_of_sameCycle (sameCycle_addBuffer h) hp
    case mixToBuffer =>
      obtain ⟨h1, h2⟩ := positionInRange_mixToBuffer h hp.2
      exact ⟨h1 ▸ hp.1, h2⟩
    case startNewCycle L armed fuel rand =>
      refine ⟨?_, positionInRange_startNewCycle h⟩
      rw [(startNewCycle_cycle h).1]
      exact hwt
  · cases h

theorem cycleOk_run {M : Nat} {prep : LooperLayer → Nat → Bool → LooperLayer} :
    ∀ (ops : List Op) {lp lp1 : Looper}, lp.run M prep ops = some lp1 → lp.CycleOk → lp1.CycleOk
  | [], lp, lp1, h, hp => by
    simp only [Looper.run, Option.some.injEq] at h
    exact h ▸ hp
  | op :: ops, lp, lp1, h, hp => by
    simp only [Looper.run] at h
    split at h
    · cases h
    · next lp2 h2 => exact cycleOk_run ops h (cycleOk_apply h2 hp)

theorem cycleOk_new (M : Nat) : (Looper.new M).CycleOk := by
  refine ⟨?_, ?_, ?_⟩
  · show 0 < UINT_RANGE
    decide
  · intro h; exact absurd h (Nat.lt_irrefl 0)
  · intro _; rfl

/-! ## The clipped sample count -/

theorem usub_of_le {a b : Nat} (hb : b ≤ a) (ha : a < UINT_RANGE) : usub a b = a - b := by
  unfold usub
  have hb2 : b < UINT_RANGE := lt_of_le_of_lt hb ha
  rw [Nat.mod_eq_of_lt hb2]
  have : a + UINT_RANGE - b = (a - b) + UINT_RANGE := by omega
  rw [this, Nat.add_mod_right]
  exact Nat.mod_eq_of_lt (lt_of_le_of_lt (Nat.sub_le a b) ha)

theorem qMin_eq_min (a b : Nat) : qMin a b = min a b := by
  unfold qMin
  split
  · next h => exact (Nat.min_eq_left (Nat.le_of_lt h)).symm
  · next h => exact (Nat.min_eq_right (Nat.le_of_not_lt h)).symm

theorem position_le_length {lp : Looper} (hp : lp.PositionInRange) :
    lp.intervalPosition ≤ lp.intervalLenght := by
  rcases Nat.eq_zero_or_pos lp.intervalLenght with h0 | hpos
  · rw [hp.2 h0]; exact Nat.zero_le _
  · exact Nat.le_of_lt (hp.1 hpos)

theorem samplesToProcess_of_cycleOk {lp : Looper} (h : lp.CycleOk) (frameLenght : Nat) :
    lp.samplesToProcess frameLenght = min frameLenght (lp.intervalLenght - lp.intervalPosition) := by
  unfold Looper.samplesToProcess
  rw [usub_of_le (position_le_length h.2) h.1, qMin_eq_min]

/-! ## The cyclic scan for an unlocked layer -/

theorem layerAt_of_lt {lp : Looper} {i : Nat} (h : i < lp.layers.length) :
    ∃ l, lp.layers[i]? = some l :=
  ⟨lp.layers[i], List.getElem?_eq_getElem h⟩

theorem not_lockedAt_of_unlockedAt {lp : Looper} {i : Nat} (hu : lp.unlockedAt i) :
    ¬ lp.lockedAt i := by
  rintro ⟨l, hl, hlock⟩
  obtain ⟨l2, hl2, hun⟩ := hu
  rw [hl] at hl2
  cases hl2
  rw [hlock] at hun
  cases hun

theorem cyclic_succ (s k m : Nat) : ((s + 1) % m + k) % m = (s + (k + 1)) % m := by
  rw [Nat.mod_add_mod]
  congr 1
  omega

theorem cyclic_reaches (s m i : Nat) (hi : i < m) : ∃ j, j < m ∧ (s + j) % m = i := by
  have hm : 0 < m := Nat.lt_of_le_of_lt (Nat.zero_le i) hi
  have hr : s % m < m := Nat.mod_lt s hm
  refine ⟨(i + m - s % m) % m, Nat.mod_lt _ hm, ?_⟩
  rw [Nat.add_mod_mod]
  have hs : s = m * (s / m) + s % m := (Nat.div_add_mod s m).symm
  have : s + (i + m - s % m) = m * (s / m + 1) + i := by
    rw [Nat.mul_add, Nat.mul_one]
    omega
  rw [this, Nat.mul_add_mod, Nat.mod_eq_of_lt hi]

theorem getFirstUnlockedLayerIndex_loop_scan (lp : Looper) (hok : lp.ActiveLayersOk) :
    ∀ (left s : Nat), s < lp.maxLayers →
      (∃ j, j < left ∧ lp.unlockedAt ((s + j) % lp.maxLayers) ∧
          (∀ i, i < j → lp.lockedAt ((s + i) % lp.maxLayers)) ∧
          Looper.getFirstUnlockedLayerIndex.loop lp left s =
            some (((s + j) % lp.maxLayers : Nat) : Int)) ∨
      ((∀ i, i < left → lp.lockedAt ((s + i) % lp.maxLayers)) ∧
          Looper.getFirstUnlockedLayerIndex.loop lp left s = some (-1))
  | 0, s, _ => Or.inr ⟨fun i hi => absurd hi (Nat.not_lt_zero i), rfl⟩
  | left + 1, s, hs => by
    obtain ⟨hm, hlen, h256⟩ := hok
    obtain ⟨l, hl⟩ := layerAt_of_lt (Nat.lt_of_lt_of_le hs hlen)
    have hs0 : (s + 0) % lp.maxLayers = s := by
      rw [Nat.add_zero]; exact Nat.mod_eq_of_lt hs
    have hnext : ((s + 1) % lp.maxLayers) % QUINT8_RANGE = (s + 1) % lp.maxLayers :=
      Nat.mod_eq_of_lt (Nat.lt_trans (Nat.mod_lt _ hm) h256)
    simp only [Looper.getFirstUnlockedLayerIndex.loop, Looper.layerAt, hl, LooperLayer.isLocked,
      hnext]
    cases hlock : l.locked
    · left
      refine ⟨0, Nat.succ_pos left, ?_, fun i hi => absurd hi (Nat.not_lt_zero i), ?_⟩
      · rw [hs0]; exact ⟨l, hl, hlock⟩
      · simp only [hs0, Bool.not_false, if_true]
    · have hlocked : lp.lockedAt s := ⟨l, hl, hlock⟩
      have ih := getFirstUnlockedLayerIndex_loop_scan lp ⟨hm, hlen, h256⟩ left
        ((s + 1) % lp.maxLayers) (Nat.mod_lt _ hm)
      simp only [Bool.not_true, Bool.false_eq_true, if_false]
      rcases ih with ⟨j, hj, hun, hall, heq⟩ | ⟨hall, heq⟩
      · left
        refine ⟨j + 1, Nat.succ_lt_succ hj, ?_, ?_, ?_⟩
        · rw [← cyclic_succ]; exact hun
        · intro i hi
          cases i with
          | zero => rw [hs0]; exact hlocked
          | succ i =>
            rw [← cyclic_succ]
            exact hall i (Nat.lt_of_succ_lt_succ hi)
        · rw [heq, cyclic_succ]
      · right
        refine ⟨?_, heq⟩
        intro i hi
        cases i with
        | zero => rw [hs0]; exact hlocked
        | succ i =>
          rw [← cyclic_succ]
          exact hall i (Nat.lt_of_succ_lt_succ hi)

/-- What `getFirstUnlockedLayerIndex` returns: the first unlocked index in the
cyclic order from `startingFrom`, or -1 when every active layer is locked. -/
theorem getFirstUnlockedLayerIndex_scan (lp : Looper) (hok : lp.ActiveLayersOk) (s : Nat) :
    (∃ j, j < lp.maxLayers ∧ lp.unlockedAt ((s + j) % lp.maxLayers) ∧
        (∀ i, i < j → lp.lockedAt ((s + i) % lp.maxLayers)) ∧
        lp.getFirstUnlockedLayerIndex s = some (((s + j) % lp.maxLayers : Nat) : Int)) ∨
    ((∀ i, i < lp.maxLayers → lp.lockedAt i) ∧ lp.getFirstUnlockedLayerIndex s = some (-1)) := by
  have hm := hok.1
  unfold Looper.getFirstUnlockedLayerIndex
  rw [if_neg (Nat.pos_iff_ne_zero.mp hm)]
  rcases getFirstUnlockedLayerIndex_loop_scan lp hok lp.maxLayers (s % lp.maxLayers)
      (Nat.mod_lt _ hm) with ⟨j, hj, hun, hall, heq⟩ | ⟨hall, heq⟩
  · left
    refine ⟨j, hj, ?_, ?_, ?_⟩
    · rw [← Nat.mod_add_mod]; exact hun
    · intro i hi
      rw [← Nat.mod_add_mod]; exact hall i hi
    · rw [heq, Nat.mod_add_mod]
  · right
    refine ⟨?_, heq⟩
    intro i hi
    obtain ⟨j, hj, hji⟩ := cyclic_reaches (s % lp.maxLayers) lp.maxLayers i hi
    rw [← hji]
    exact hall j hj

/-! ## `startRecording` and `toggleRecording`, given the result of the scan -/

theorem setState_new (lp : Looper) (obj : LooperState) :
    lp.setState (lp.newState obj) =
      { lp with
        state := { addr := lp.state.addr + 1, obj := obj }
        emitted := lp.emitted ++ [Signal.stateChanged] } := by
  unfold Looper.setState Looper.newState Looper.emit
  rw [if_pos (Nat.ne_of_lt (Nat.lt_succ_self _))]

theorem setCurrentLayer_of_lt {lp : Looper} {n : Nat} (h : n < lp.maxLayers) :
    lp.setCurrentLayer n =
      { lp with
        currentLayerIndex := n
        emitted := lp.emitted ++ [Signal.currentLayerChanged n] } := by
  unfold Looper.setCurrentLayer Looper.emit
  rw [if_pos h]

theorem setCurrentLayer_of_ge {lp : Looper} {n : Nat} (h : lp.maxLayers ≤ n) :
    lp.setCurrentLayer n = lp := by
  unfold Looper.setCurrentLayer
  rw [if_neg (Nat.not_lt.mpr h)]

theorem updateLayer_of_some {lp : Looper} {i : Nat} {l : LooperLayer}
    (f : LooperLayer → LooperLayer) (h : lp.layers[i]? = some l) :
    lp.updateLayer i f = some { lp with layers := lp.layers.set i (f l) } := by
  unfold Looper.updateLayer
  rw [h]

theorem startRecording_of_found {lp : Looper} {r : Nat} {l : LooperLayer}
    (h256 : lp.maxLayers < QUINT8_RANGE) (hr : r < lp.maxLayers) (hl : lp.layers[r]? = some l)
    (hget : lp.getFirstUnlockedLayerIndex lp.currentLayerIndex = some (r : Int)) :
    lp.startRecording =
      some { lp with
        currentLayerIndex := r
        layers := if lp.getOption RecordingOption.Overdub then lp.layers else lp.layers.set r l.zero
        state := { addr := lp.state.addr + 1, obj := LooperState.RecordingState r }
        emitted := lp.emitted ++ [Signal.currentLayerChanged r, Signal.stateChanged] } := by
  have hr256 : r % QUINT8_RANGE = r := Nat.mod_eq_of_lt (Nat.lt_trans hr h256)
  unfold Looper.startRecording
  rw [hget]
  simp only [ge_iff_le, Int.natCast_nonneg, if_true, Int.toNat_ofNat, hr256]
  rw [setCurrentLayer_of_lt hr]
  cases hov : lp.getOption RecordingOption.Overdub
  · have hov1 : Looper.getOption
        { lp with
          currentLayerIndex := r
          emitted := lp.emitted ++ [Signal.currentLayerChanged r] } RecordingOption.Overdub = false :=
      hov
    rw [hov1]
    simp only [Bool.not_false, if_true, Bool.false_eq_true, if_false]
    rw [updateLayer_of_some LooperLayer.zero (by exact hl)]
    simp only [Option.map_some', setState_new, List.append_assoc, List.singleton_append]
  · have hov1 : Looper.getOption
        { lp with
          currentLayerIndex := r
          emitted := lp.emitted ++ [Signal.currentLayerChanged r] } RecordingOption.Overdub = true :=
      hov
    rw [hov1]
    simp only [Bool.not_true, Bool.false_eq_true, if_false, if_true, Option.map_some',
      setState_new, List.append_assoc, List.singleton_append]

theorem startRecording_of_none_found {lp : Looper}
    (hget : lp.getFirstUnlockedLayerIndex lp.currentLayerIndex = some (-1)) :
    lp.startRecording = some lp := by
  unfold Looper.startRecording
  rw [hget]
  rfl

theorem toggleRecording_of_active {lp : Looper} (h : (lp.isRecording || lp.isWaiting) = true) :
    lp.toggleRecording = some lp.play := by
  unfold Looper.toggleRecording
  rw [if_pos h]

theorem toggleRecording_of_found {lp : Looper} {r : Nat}
    (hidle : (lp.isRecording || lp.isWaiting) = false)
    (h256 : lp.maxLayers < QUINT8_RANGE) (hr : r < lp.maxLayers)
    (hget : lp.getFirstUnlockedLayerIndex lp.currentLayerIndex = some (r : Int)) :
    lp.toggleRecording =
      some { lp with
        currentLayerIndex := r
        state := { addr := lp.state.addr + 1, obj := LooperState.WaitingState }
        emitted := lp.emitted ++ [Signal.stateChanged, Signal.currentLayerChanged r] } := by
  have hr256 : r % QUINT8_RANGE = r := Nat.mod_eq_of_lt (Nat.lt_trans hr h256)
  unfold Looper.toggleRecording
  rw [hidle, hget]
  simp only [Bool.false_eq_true, if_false, ge_iff_le, Int.natCast_nonneg, if_true,
    Int.toNat_ofNat, hr256, setState_new]
  rw [setCurrentLayer_of_lt (by exact hr)]
  simp only [List.append_assoc, List.singleton_append]

theorem toggleRecording_of_none_found {lp : Looper}
    (hidle : (lp.isRecording || lp.isWaiting) = false)
    (hget : lp.getFirstUnlockedLayerIndex lp.currentLayerIndex = some (-1)) :
    lp.toggleRecording = some lp.stop := by
  unfold Looper.toggleRecording
  rw [hidle, hget]
  rfl

theorem isStopped_stop (lp : Looper) : lp.stop.isStopped = true := by
  unfold Looper.stop
  rw [setState_new]
  rfl

theorem isPlaying_play (lp : Looper) : lp.play.isPlaying = true := by
  unfold Looper.play
  rw [setState_new]
  rfl

/-! ## `startNewCycle` returns -/

theorem getLockedLayers_loop_returns (lp : Looper) :
    ∀ n, n ≤ lp.layers.length →
      ∃ k, Looper.getLockedLayers.loop lp n = some k ∧ (0 < k → ∃ i, i < n ∧ lp.lockedAt i)
  | 0, _ => ⟨0, rfl, fun h => absurd h (Nat.lt_irrefl 0)⟩
  | n + 1, hn => by
    obtain ⟨k, hk, hex⟩ := getLockedLayers_loop_returns lp n (Nat.le_of_succ_le hn)
    obtain ⟨l, hl⟩ := layerAt_of_lt (Nat.lt_of_succ_le hn)
    simp only [Looper.getLockedLayers.loop, hk, Looper.layerAt, hl, LooperLayer.isLocked]
    rcases Bool.eq_false_or_eq_true l.locked with hlock | hlock
    · exact ⟨uadd k 1, by rw [if_pos hlock], fun _ => ⟨n, Nat.lt_succ_self n, l, hl, hlock⟩⟩
    · refine ⟨k, by simp only [hlock, Bool.false_eq_true, if_false], ?_⟩
      intro hpos
      obtain ⟨i, hi, hli⟩ := hex hpos
      exact ⟨i, Nat.lt_succ_of_lt hi, hli⟩

theorem layerIsLocked_of_lt {lp : Looper} {i : Nat} (hi : i < lp.maxLayers)
    (hlen : lp.maxLayers ≤ lp.layers.length) :
    (lp.layerIsLocked i = some true ∧ lp.lockedAt i) ∨
      (lp.layerIsLocked i = some false ∧ lp.unlockedAt i) := by
  obtain ⟨l, hl⟩ := layerAt_of_lt (Nat.lt_of_lt_of_le hi hlen)
  unfold Looper.layerIsLocked Looper.layerAt
  rw [if_pos hi, hl]
  cases hlock : l.locked
  · right; exact ⟨by simp [LooperLayer.isLocked, hlock], l, hl, hlock⟩
  · left; exact ⟨by simp [LooperLayer.isLocked, hlock], l, hl, hlock⟩

/-- The sequential `do ... while` loop of `incrementLockedLayer` stops at the
first locked index after `nextLayer` in the cyclic order, once the budget
covers the steps up to it. -/
theorem incrementLockedLayer_loop_scan (lp : Looper) (hok : lp.ActiveLayersOk)
    (rand : Nat → Nat) :
    ∀ (fuel iter nextLayer j : Nat), j < fuel →
      lp.lockedAt ((nextLayer + 1 + j) % lp.maxLayers) →
      (∀ i, i < j → ¬ lp.lockedAt ((nextLayer + 1 + i) % lp.maxLayers)) →
      Looper.incrementLockedLayer.loop lp false rand fuel iter nextLayer =
        some ((nextLayer + 1 + j) % lp.maxLayers)
  | 0, _, _, j, hj, _, _ => absurd hj (Nat.not_lt_zero j)
  | fuel + 1, iter, nextLayer, j, hj, hlock, hfirst => by
    obtain ⟨hm, hlen, h256⟩ := hok
    have hnext : ((nextLayer + 1) % lp.maxLayers) % QUINT8_RANGE = (nextLayer + 1) % lp.maxLayers :=
      Nat.mod_eq_of_lt (Nat.lt_trans (Nat.mod_lt _ hm) h256)
    simp only [Looper.incrementLockedLayer.loop, if_neg (Nat.pos_iff_ne_zero.mp hm),
      Bool.false_eq_true, if_false, hnext]
    rcases layerIsLocked_of_lt (Nat.mod_lt (nextLayer + 1) hm) hlen with ⟨h1, hl⟩ | ⟨h1, hu⟩
    · rw [h1]
      cases j with
      | zero => rfl
      | succ j => exact absurd hl (hfirst 0 (Nat.succ_pos j))
    · rw [h1]
      cases j with
      | zero => exact absurd hlock (not_lockedAt_of_unlockedAt hu)
      | succ j =>
        have e : ∀ k, ((nextLayer + 1) % lp.maxLayers + 1 + k) % lp.maxLayers =
            (nextLayer + 1 + (k + 1)) % lp.maxLayers := by
          intro k
          rw [Nat.add_assoc ((nextLayer + 1) % lp.maxLayers), Nat.mod_add_mod]
          congr 1
          omega
        have ih := incrementLockedLayer_loop_scan lp ⟨hm, hlen, h256⟩ rand fuel (iter + 1)
          ((nextLayer + 1) % lp.maxLayers) j (Nat.lt_of_succ_lt_succ hj)
          (by rw [e]; exact hlock)
          (by intro i hi; rw [e]; exact hfirst (i + 1) (Nat.succ_lt_succ hi))
        simp only [ih, e]

theorem incrementLockedLayer_returns (lp : Looper) (hok : lp.ActiveLayersOk) (fuel : Nat)
    (rand : Nat → Nat) (hfuel : lp.maxLayers ≤ fuel)
    (hseq : lp.getPlayingOption PlayingOption.RandomizeLayers = false) :
    ∃ lp1, lp.incrementLockedLayer fuel rand = some lp1 := by
  obtain ⟨k, hk, hex⟩ := getLockedLayers_loop_returns lp lp.maxLayers hok.2.1
  unfold Looper.incrementLockedLayer
  dsimp only
  unfold Looper.getLockedLayers
  rw [hk, hseq]
  dsimp only
  split
  · next hpos =>
    obtain ⟨i, hi, hli⟩ := hex hpos
    obtain ⟨j0, hj0, hji⟩ := cyclic_reaches (lp.currentLayerIndex + 1) lp.maxLayers i hi
    have hexj : ∃ j, j < lp.maxLayers ∧
        lp.lockedAt ((lp.currentLayerIndex + 1 + j) % lp.maxLayers) :=
      ⟨j0, hj0, by rw [hji]; exact hli⟩
    classical
    have hspec := Nat.find_spec hexj
    have hmin : ∀ i, i < Nat.find hexj →
        ¬ lp.lockedAt ((lp.currentLayerIndex + 1 + i) % lp.maxLayers) := by
      intro i hi hl
      exact Nat.find_min hexj hi ⟨Nat.lt_trans hi hspec.1, hl⟩
    rw [incrementLockedLayer_loop_scan lp hok rand fuel 0 lp.currentLayerIndex (Nat.find hexj)
      (Nat.lt_of_lt_of_le hspec.1 hfuel) hspec.2 hmin]
    exact ⟨_, rfl⟩
  · exact ⟨_, rfl⟩

theorem incrementCurrentLayer_returns (lp : Looper) (hok : lp.ActiveLayersOk) (fuel : Nat)
    (rand : Nat → Nat) (hfuel : lp.maxLayers ≤ fuel)
    (hseq : lp.getPlayingOption PlayingOption.RandomizeLayers = false) :
    ∃ lp1, lp.incrementCurrentLayer fuel rand = some lp1 := by
  unfold Looper.incrementCurrentLayer
  dsimp only
  split
  · exact incrementLockedLayer_returns lp hok fuel rand hfuel hseq
  · rw [if_neg (Nat.pos_iff_ne_zero.mp hok.1)]
    exact ⟨_, rfl⟩

theorem sameLayout_refl (lp : Looper) : SameLayout lp lp := ⟨rfl, rfl⟩

theorem sameLayout_trans {a b c : Looper} (h1 : SameLayout a b) (h2 : SameLayout b c) :
    SameLayout a c := ⟨h2.1.trans h1.1, h2.2.trans h1.2⟩

theorem sameLayout_emit (lp : Looper) (s : Signal) : SameLayout lp (lp.emit s) := ⟨rfl, rfl⟩

theorem sameLayout_setState (lp : Looper) (p : StatePtr) : SameLayout lp (lp.setState p) := by
  unfold Looper.setState
  split
  · exact ⟨rfl, rfl⟩
  · exact sameLayout_refl lp

theorem sameLayout_setCurrentLayer (lp : Looper) (n : Nat) :
    SameLayout lp (lp.setCurrentLayer n) := by
  unfold Looper.setCurrentLayer
  split
  · exact ⟨rfl, rfl⟩
  · exact sameLayout_refl lp

theorem sameLayout_updateLayer {lp lp1 : Looper} {i : Nat} {f : LooperLayer → LooperLayer}
    (h : lp.updateLayer i f = some lp1) : SameLayout lp lp1 := by
  unfold Looper.updateLayer at h
  split at h
  · cases h; exact ⟨rfl, List.length_set _ _ _⟩
  · cases h

theorem sameLayout_stop (lp : Looper) : SameLayout lp lp.stop := sameLayout_setState _ _

theorem sameLayout_play (lp : Looper) : SameLayout lp lp.play := sameLayout_setState _ _

theorem sameLayout_togglePlay (lp : Looper) : SameLayout lp lp.togglePlay := by
  unfold Looper.togglePlay
  split
  · exact sameLayout_stop lp
  · exact sameLayout_play lp

theorem sameLayout_startRecording {lp lp1 : Looper} (h : lp.startRecording = some lp1) :
    SameLayout lp lp1 := by
  unfold Looper.startRecording at h
  split at h
  · cases h
  · split at h
    · simp only [Option.map_eq_some'] at h
      obtain ⟨lp2, h2, rfl⟩ := h
      refine sameLayout_trans ?_ (sameLayout_setState _ _)
      split at h2
      · exact sameLayout_trans (sameLayout_setCurrentLayer _ _) (sameLayout_updateLayer h2)
      · cases h2; exact sameLayout_setCurrentLayer _ _
    · cases h; exact sameLayout_refl lp

theorem sameLayout_toggleRecording {lp lp1 : Looper} (h : lp.toggleRecording = some lp1) :
    SameLayout lp lp1 := by
  unfold Looper.toggleRecording at h
  split at h
  · cases h; exact sameLayout_play lp
  · split at h
    · cases h
    · split at h
      · cases h
        exact sameLayout_trans (sameLayout_setState _ _) (sameLayout_setCurrentLayer _ _)
      · cases h; exact sameLayout_stop lp

theorem sameLayout_setLayerGain {lp lp1 : Looper} {i : Nat} {g : Int}
    (h : lp.setLayerGain i g = some lp1) : SameLayout lp lp1 := by
  unfold Looper.setLayerGain at h
  split at h
  · exact sameLayout_updateLayer h
  · cases h; exact sameLayout_refl lp

theorem sameLayout_setLayerPan {lp lp1 : Looper} {i : Nat} {g : Int}
    (h : lp.setLayerPan i g = some lp1) : SameLayout lp lp1 := by
  unfold Looper.setLayerPan at h
  split at h
  · exact sameLayout_updateLayer h
  · cases h; exact sameLayout_refl lp

theorem sameLayout_selectLayer (lp : Looper) (n : Nat) : SameLayout lp (lp.selectLayer n) := by
  unfold Looper.selectLayer
  split
  · exact sameLayout_refl lp
  · exact sameLayout_setCurrentLayer lp n

theorem sameLayout_incrementLockedLayer {lp lp1 : Looper} {fuel : Nat} {rand : Nat → Nat}
    (h : lp.incrementLockedLayer fuel rand = some lp1) : SameLayout lp lp1 := by
  unfold Looper.incrementLockedLayer at h
  split at h
  · cases h
  · split at h
    · simp only [Option.map_eq_some'] at h
      obtain ⟨n, _, rfl⟩ := h
      exact sameLayout_setCurrentLayer lp n
    · cases h; exact sameLayout_setCurrentLayer lp _

theorem sameLayout_incrementCurrentLayer {lp lp1 : Looper} {fuel : Nat} {rand : Nat → Nat}
    (h : lp.incrementCurrentLayer fuel rand = some lp1) : SameLayout lp lp1 := by
  unfold Looper.incrementCurrentLayer at h
  dsimp only at h
  split at h
  · exact sameLayout_incrementLockedLayer h
  · split at h
    · cases h
    · cases h; exact sameLayout_setCurrentLayer lp _

theorem sameLayout_setLayerLockedState {lp lp1 : Looper} {i : Nat} {b : Bool}
    (h : lp.setLayerLockedState i b = some lp1) : SameLayout lp lp1 := by
  unfold Looper.setLayerLockedState at h
  split at h
  · simp only [Option.map_eq_some'] at h
    obtain ⟨lp2, h2, rfl⟩ := h
    exact sameLayout_trans (sameLayout_updateLayer h2) (sameLayout_emit _ _)
  · cases h; exact sameLayout_refl lp

theorem sameLayout_toggleLayerLockedState {lp lp1 : Looper} {i : Nat}
    (h : lp.toggleLayerLockedState i = some lp1) : SameLayout lp lp1 := by
  unfold Looper.toggleLayerLockedState at h
  split at h
  · exact sameLayout_setLayerLockedState h
  · cases h

theorem sameLayout_clearLayer {lp lp1 : Looper} {i : Nat}
    (h : lp.clearLayer i = some lp1) : SameLayout lp lp1 := by
  unfold Looper.clearLayer at h
  split at h
  · cases h
  · exact sameLayout_updateLayer h
  · cases h; exact sameLayout_refl lp

theorem sameLayout_setMode (lp : Looper) (m : Mode) : SameLayout lp (lp.setMode m) := by
  unfold Looper.setMode
  split
  · exact ⟨rfl, rfl⟩
  · exact sameLayout_refl lp

theorem sameLayout_setOption (lp : Looper) (o : RecordingOption) (v : Bool) :
    SameLayout lp (lp.setOption o v) := by
  unfold Looper.setOption
  dsimp only
  split
  · exact ⟨rfl, rfl⟩
  · exact sameLayout_refl lp

theorem sameLayout_setPlayingOption (lp : Looper) (o : PlayingOption) (v : Bool) :
    SameLayout lp (lp.setPlayingOption o v) := by
  unfold Looper.setPlayingOption
  dsimp only
  split
  · exact ⟨rfl, rfl⟩
  · exact sameLayout_refl lp

theorem sameLayout_stateAddBuffer {st : LooperState} {lp lp1 : Looper} {samples : SamplesBuffer}
    {n : Nat} (h : st.addBuffer lp samples n = some lp1) : SameLayout lp lp1 := by
  unfold LooperState.addBuffer at h
  split at h
  · split at h
    · exact sameLayout_updateLayer h
    · exact sameLayout_updateLayer h
  · cases h; exact sameLayout_refl lp

theorem sameLayout_addBuffer {lp lp1 : Looper} {samples : SamplesBuffer}
    (h : lp.addBuffer samples = some lp1) : SameLayout lp lp1 :=
  sameLayout_stateAddBuffer h

theorem sameLayout_handleNewCycle {st : LooperState} {lp lp1 : Looper} {n fuel : Nat} {armed : Bool}
    {rand : Nat → Nat} (h : st.handleNewCycle lp n armed fuel rand = some lp1) :
    SameLayout lp lp1 := by
  unfold LooperState.handleNewCycle at h
  split at h
  · cases h; exact sameLayout_refl lp
  · exact sameLayout_startRecording h
  · split at h
    · cases h; exact sameLayout_refl lp
    · cases h; exact sameLayout_play lp
  · split at h
    · exact sameLayout_incrementCurrentLayer h
    · cases h; exact sameLayout_refl lp

theorem sameLayout_startNewCycle_loop {prep : LooperLayer → Nat → Bool → LooperLayer}
    {L : Nat} {b : Bool} {lp : Looper} :
    ∀ (n : Nat) {lp1 : Looper}, Looper.startNewCycle.loop prep L b lp n = some lp1 →
      SameLayout lp lp1
  | 0, lp1, h => by
    simp only [Looper.startNewCycle.loop] at h
    cases h; exact sameLayout_refl lp
  | n + 1, lp1, h => by
    simp only [Looper.startNewCycle.loop] at h
    split at h
    · cases h
    · next lp2 h2 =>
      exact sameLayout_trans (sameLayout_startNewCycle_loop n h2) (sameLayout_updateLayer h)

theorem sameLayout_mixToBuffer {lp lp1 : Looper} {frameLenght : Nat}
    (h : lp.mixToBuffer frameLenght = some lp1) : SameLayout lp lp1 := by
  rw [mixToBuffer_eq] at h
  cases h
  split
  · exact ⟨rfl, rfl⟩
  · exact sameLayout_refl lp

theorem sameLayout_startNewCycle {prep : LooperLayer → Nat → Bool → LooperLayer} {lp lp1 : Looper}
    {L fuel : Nat} {armed : Bool} {rand : Nat → Nat}
    (h : lp.startNewCycle prep L armed fuel rand = some lp1) : SameLayout lp lp1 := by
  unfold Looper.startNewCycle at h
  dsimp only at h
  split at h
  · cases h
  · next lp3 h3 =>
    have s0 : SameLayout lp
        { (if L ≠ lp.intervalLenght then { lp with intervalLenght := L } else lp) with
          intervalPosition := 0 } := by
      constructor
      · show (if L ≠ lp.intervalLenght then { lp with intervalLenght := L } else lp).maxLayers = _
        split <;> rfl
      · show (if L ≠ lp.intervalLenght then
          { lp with intervalLenght := L } else lp).layers.length = _
        split <;> rfl
    exact sameLayout_trans s0
      (sameLayout_trans (sameLayout_startNewCycle_loop _ h3) (sameLayout_handleNewCycle h))

theorem layoutOk_of_sameLayout {M : Nat} {lp lp1 : Looper} (h : SameLayout lp lp1)
    (hp : lp.LayoutOk M) : lp1.LayoutOk M := by
  unfold Looper.LayoutOk at *
  rw [h.1, h.2]; exact hp

theorem layoutOk_setLayers {M : Nat} (hM : 0 < M) (hM256 : M < QUINT8_RANGE) {lp : Looper}
    {n : Nat} (hp : lp.LayoutOk M) : (lp.setLayers M n).LayoutOk M := by
  unfold Looper.LayoutOk Looper.setLayers Looper.emit
  dsimp only
  refine ⟨?_, ?_, hp.2.2⟩
  · split
    · exact Nat.one_pos
    · split
      · rw [Nat.mod_eq_of_lt hM256]; exact hM
      · omega
  · split
    · exact hM
    · split
      · rw [Nat.mod_eq_of_lt hM256]
      · omega

theorem layoutOk_apply {M : Nat} (hM : 0 < M) (hM256 : M < QUINT8_RANGE)
    {prep : LooperLayer → Nat → Bool → LooperLayer}
    {lp lp1 : Looper} {op : Op} (h : lp.apply M prep op = some lp1) (hp : lp.LayoutOk M) :
    lp1.LayoutOk M := by
  unfold Looper.apply at h
  split at h
  · cases op <;> simp only [Option.some.injEq] at h
    case setLayerGain => exact layoutOk_of_sameLayout (sameLayout_setLayerGain h) hp
    case setLayerPan => exact layoutOk_of_sameLayout (sameLayout_setLayerPan h) hp
    case setLayers => exact h ▸ layoutOk_setLayers hM hM256 hp
    case setCurrentLayer => exact layoutOk_of_sameLayout (h ▸ sameLayout_setCurrentLayer _ _) hp
    case selectLayer => exact layoutOk_of_sameLayout (h ▸ sameLayout_selectLayer _ _) hp
    case startRecording => exact layoutOk_of_sameLayout (sameLayout_startRecording h) hp
    case toggleRecording => exact layoutOk_of_sameLayout (sameLayout_toggleRecording h) hp
    case play => exact layoutOk_of_sameLayout (h ▸ sameLayout_play _) hp
    case stop => exact layoutOk_of_sameLayout (h ▸ sameLayout_stop _) hp
    case togglePlay => exact layoutOk_of_sameLayout (h ▸ sameLayout_togglePlay _) hp
    case incrementCurrentLayer =>
      exact layoutOk_of_sameLayout (sameLayout_incrementCurrentLayer h) hp
    case incrementLockedLayer => exact layoutOk_of_sameLayout (sameLayout_incrementLockedLayer h) hp
    case toggleLayerLockedState =>
      exact layoutOk_of_sameLayout (sameLayout_toggleLayerLockedState h) hp
    case setLayerLockedState => exact layoutOk_of_sameLayout (sameLayout_setLayerLockedState h) hp
    case clearLayer => exact layoutOk_of_sameLayout (sameLayout_clearLayer h) hp
    case clearCurrentLayer => exact layoutOk_of_sameLayout (sameLayout_clearLayer h) hp
    case setMode => exact layoutOk_of_sameLayout (h ▸ sameLayout_setMode _ _) hp
    case setOption => exact layoutOk_of_sameLayout (h ▸ sameLayout_setOption _ _ _) hp
    case setPlayingOption => exact layoutOk_of_sameLayout (h ▸ sameLayout_setPlayingOption _ _ _) hp
    case addBuffer => exact layoutOk_of_sameLayout (sameLayout_addBuffer h) hp
    case mixToBuffer => exact layoutOk_of_sameLayout (sameLayout_mixToBuffer h) hp
    case startNewCycle => exact layoutOk_of_sameLayout (sameLayout_startNewCycle h) hp
  · cases h

theorem layoutOk_run {M : Nat} (hM : 0 < M) (hM256 : M < QUINT8_RANGE)
    {prep : LooperLayer → Nat → Bool → LooperLayer} :
    ∀ (ops : List Op) {lp lp1 : Looper}, lp.run M prep ops = some lp1 → lp.LayoutOk M →
      lp1.LayoutOk M
  | [], lp, lp1, h, hp => by
    simp only [Looper.run, Option.some.injEq] at h
    exact h ▸ hp
  | op :: ops, lp, lp1, h, hp => by
    simp only [Looper.run] at h
    split at h
    · cases h
    · next lp2 h2 => exact layoutOk_run hM hM256 ops h (layoutOk_apply hM hM256 h2 hp)

theorem layoutOk_new {M : Nat} (hM : 4 ≤ M) : (Looper.new M).LayoutOk M :=
  ⟨Nat.succ_pos 3, hM, List.length_replicate M LooperLayer.new⟩

/-- With at least four and at most 255 layer slots, the active layers are
allocated in every state reached from a new Looper. -/
theorem activeLayersOk_of_run {M : Nat} (hM : 4 ≤ M) (hM256 : M < QUINT8_RANGE)
    {prep : LooperLayer → Nat → Bool → LooperLayer} {ops : List Op} {lp : Looper}
    (h : Looper.run M prep (Looper.new M) ops = some lp) : lp.ActiveLayersOk := by
  obtain ⟨h1, h2, h3⟩ := layoutOk_run (Nat.lt_of_lt_of_le (by decide) hM) hM256 ops h
    (layoutOk_new hM)
  exact ⟨h1, h3 ▸ h2, Nat.lt_of_le_of_lt h2 hM256⟩

/-! ## The position after `mixToBuffer` inside a cycle -/

theorem curStep_refl (lp : Looper) : CurStep lp lp := ⟨rfl, rfl, Or.inl rfl⟩

theorem curStep_trans {a b c : Looper} (h1 : CurStep a b) (h2 : CurStep b c) : CurStep a c := by
  refine ⟨h2.1.trans h1.1, h2.2.1.trans h1.2.1, ?_⟩
  rcases h2.2.2 with h | h
  · rcases h1.2.2 with g | g
    · exact Or.inl (h.trans g)
    · exact Or.inr (h ▸ g)
  · exact Or.inr (h1.1 ▸ h)

theorem curStep_emit (lp : Looper) (s : Signal) : CurStep lp (lp.emit s) := ⟨rfl, rfl, Or.inl rfl⟩

theorem curStep_setState (lp : Looper) (p : StatePtr) : CurStep lp (lp.setState p) := by
  unfold Looper.setState
  split
  · exact ⟨rfl, rfl, Or.inl rfl⟩
  · exact curStep_refl lp

theorem curStep_setCurrentLayer (lp : Looper) (n : Nat) :
    CurStep lp (lp.setCurrentLayer n) := by
  unfold Looper.setCurrentLayer
  split
  · next h => exact ⟨rfl, rfl, Or.inr h⟩
  · exact curStep_refl lp

theorem curStep_updateLayer {lp lp1 : Looper} {i : Nat} {f : LooperLayer → LooperLayer}
    (h : lp.updateLayer i f = some lp1) : CurStep lp lp1 := by
  unfold Looper.updateLayer at h
  split at h
  · cases h; exact ⟨rfl, List.length_set _ _ _, Or.inl rfl⟩
  · cases h

theorem curStep_stop (lp : Looper) : CurStep lp lp.stop := curStep_setState _ _

theorem curStep_play (lp : Looper) : CurStep lp lp.play := curStep_setState _ _

theorem curStep_togglePlay (lp : Looper) : CurStep lp lp.togglePlay := by
  unfold Looper.togglePlay
  split
  · exact curStep_stop lp
  · exact curStep_play lp

theorem curStep_startRecording {lp lp1 : Looper} (h : lp.startRecording = some lp1) :
    CurStep lp lp1 := by
  unfold Looper.startRecording at h
  split at h
  · cases h
  · split at h
    · simp only [Option.map_eq_some'] at h
      obtain ⟨lp2, h2, rfl⟩ := h
      refine curStep_trans ?_ (curStep_setState _ _)
      split at h2
      · exact curStep_trans (curStep_setCurrentLayer _ _) (curStep_updateLayer h2)
      · cases h2; exact curStep_setCurrentLayer _ _
    · cases h; exact curStep_refl lp

theorem curStep_toggleRecording {lp lp1 : Looper} (h : lp.toggleRecording = some lp1) :
    CurStep lp lp1 := by
  unfold Looper.toggleRecording at h
  split at h
  · cases h; exact curStep_play lp
  · split at h
    · cases h
    · split at h
      · cases h
        exact curStep_trans (curStep_setState _ _) (curStep_setCurrentLayer _ _)
      · cases h; exact curStep_stop lp

theorem curStep_setLayerGain {lp lp1 : Looper} {i : Nat} {g : Int}
    (h : lp.setLayerGain i g = some lp1) : CurStep lp lp1 := by
  unfold Looper.setLayerGain at h
  split at h
  · exact curStep_updateLayer h
  · cases h; exact curStep_refl lp

theorem curStep_setLayerPan {lp lp1 : Looper} {i : Nat} {g : Int}
    (h : lp.setLayerPan i g = some lp1) : CurStep lp lp1 := by
  unfold Looper.setLayerPan at h
  split at h
  · exact curStep_updateLayer h
  · cases h; exact curStep_refl lp

theorem curStep_selectLayer (lp : Looper) (n : Nat) : CurStep lp (lp.selectLayer n) := by
  unfold Looper.selectLayer
  split
  · exact curStep_refl lp
  · exact curStep_setCurrentLayer lp n

theorem curStep_incrementLockedLayer {lp lp1 : Looper} {fuel : Nat} {rand : Nat → Nat}
    (h : lp.incrementLockedLayer fuel rand = some lp1) : CurStep lp lp1 := by
  unfold Looper.incrementLockedLayer at h
  split at h
  · cases h
  · split at h
    · simp only [Option.map_eq_some'] at h
      obtain ⟨n, _, rfl⟩ := h
      exact curStep_setCurrentLayer lp n
    · cases h; exact curStep_setCurrentLayer lp _

theorem curStep_incrementCurrentLayer {lp lp1 : Looper} {fuel : Nat} {rand : Nat → Nat}
    (h : lp.incrementCurrentLayer fuel rand = some lp1) : CurStep lp lp1 := by
  unfold Looper.incrementCurrentLayer at h
  dsimp only at h
  split at h
  · exact curStep_incrementLockedLayer h
  · split at h
    · cases h
    · cases h; exact curStep_setCurrentLayer lp _

theorem curStep_setLayerLockedState {lp lp1 : Looper} {i : Nat} {b : Bool}
    (h : lp.setLayerLockedState i b = some lp1) : CurStep lp lp1 := by
  unfold Looper.setLayerLockedState at h
  split at h
  · simp only [Option.map_eq_some'] at h
    obtain ⟨lp2, h2, rfl⟩ := h
    exact curStep_trans (curStep_updateLayer h2) (curStep_emit _ _)
  · cases h; exact curStep_refl lp

theorem curStep_toggleLayerLockedState {lp lp1 : Looper} {i : Nat}
    (h : lp.toggleLayerLockedState i = some lp1) : CurStep lp lp1 := by
  unfold Looper.toggleLayerLockedState at h
  split at h
  · exact curStep_setLayerLockedState h
  · cases h

theorem curStep_clearLayer {lp lp1 : Looper} {i : Nat}
    (h : lp.clearLayer i = some lp1) : CurStep lp lp1 := by
  unfold Looper.clearLayer at h
  split at h
  · cases h
  · exact curStep_updateLayer h
  · cases h; exact curStep_refl lp

theorem curStep_setMode (lp : Looper) (m : Mode) : CurStep lp (lp.setMode m) := by
  unfold Looper.setMode
  split
  · exact ⟨rfl, rfl, Or.inl rfl⟩
  · exact curStep_refl lp

theorem curStep_setOption (lp : Looper) (o : RecordingOption) (v : Bool) :
    CurStep lp (lp.setOption o v) := by
  unfold Looper.setOption
  dsimp only
  split
  · exact ⟨rfl, rfl, Or.inl rfl⟩
  · exact curStep_refl lp

theorem curStep_setPlayingOption (lp : Looper) (o : PlayingOption) (v : Bool) :
    CurStep lp (lp.setPlayingOption o v) := by
  unfold Looper.setPlayingOption
  dsimp only
  split
  · exact ⟨rfl, rfl, Or.inl rfl⟩
  · exact curStep_refl lp

theorem curStep_stateAddBuffer {st : LooperState} {lp lp1 : Looper} {samples : SamplesBuffer}
    {n : Nat} (h : st.addBuffer lp samples n = some lp1) : CurStep lp lp1 := by
  unfold LooperState.addBuffer at h
  split at h
  · split at h
    · exact curStep_updateLayer h
    · exact curStep_updateLayer h
  · cases h; exact curStep_refl lp

theorem curStep_addBuffer {lp lp1 : Looper} {samples : SamplesBuffer}
    (h : lp.addBuffer samples = some lp1) : CurStep lp lp1 :=
  curStep_stateAddBuffer h

theorem curStep_handleNewCycle {st : LooperState} {lp lp1 : Looper} {n fuel : Nat} {armed : Bool}
    {rand : Nat → Nat} (h : st.handleNewCycle lp n armed fuel rand = some lp1) :
    CurStep lp lp1 := by
  unfold LooperState.handleNewCycle at h
  split at h
  · cases h; exact curStep_refl lp
  · exact curStep_startRecording h
  · split at h
    · cases h; exact curStep_refl lp
    · cases h; exact curStep_play lp
  · split at h
    · exact curStep_incrementCurrentLayer h
    · cases h; exact curStep_refl lp

theorem curStep_startNewCycle_loop {prep : LooperLayer → Nat → Bool → LooperLayer}
    {L : Nat} {b : Bool} {lp : Looper} :
    ∀ (n : Nat) {lp1 : Looper}, Looper.startNewCycle.loop prep L b lp n = some lp1 →
      CurStep lp lp1
  | 0, lp1, h => by
    simp only [Looper.startNewCycle.loop] at h
    cases h; exact curStep_refl lp
  | n + 1, lp1, h => by
    simp only [Looper.startNewCycle.loop] at h
    split at h
    · cases h
    · next lp2 h2 =>
      exact curStep_trans (curStep_startNewCycle_loop n h2) (curStep_updateLayer h)

theorem curStep_mixToBuffer {lp lp1 : Looper} {frameLenght : Nat}
    (h : lp.mixToBuffer frameLenght = some lp1) : CurStep lp lp1 := by
  rw [mixToBuffer_eq] at h
  cases h
  split
  · exact ⟨rfl, rfl, Or.inl rfl⟩
  · exact curStep_refl lp

theorem curStep_startNewCycle {prep : LooperLayer → Nat → Bool → LooperLayer} {lp lp1 : Looper}
    {L fuel : Nat} {armed : Bool} {rand : Nat → Nat}
    (h : lp.startNewCycle prep L armed fuel rand = some lp1) : CurStep lp lp1 := by
  unfold Looper.startNewCycle at h
  dsimp only at h
  split at h
  · cases h
  · next lp3 h3 =>
    have s0 : CurStep lp
        { (if L ≠ lp.intervalLenght then { lp with intervalLenght := L } else lp) with
          intervalPosition := 0 } := by
      refine ⟨?_, ?_, Or.inl ?_⟩
      · show (if L ≠ lp.intervalLenght then { lp with intervalLenght := L } else lp).maxLayers = _
        split <;> rfl
      · show (if L ≠ lp.intervalLenght then
          { lp with intervalLenght := L } else lp).layers.length = _
        split <;> rfl
      · show (if L ≠ lp.intervalLenght then
          { lp with intervalLenght := L } else lp).currentLayerIndex = _
        split <;> rfl
    exact curStep_trans s0
      (curStep_trans (curStep_startNewCycle_loop _ h3) (curStep_handleNewCycle h))

theorem currentOk_of_curStep {M : Nat} {lp lp1 : Looper} (h : CurStep lp lp1)
    (hp : lp.CurrentOk M) : lp1.CurrentOk M := by
  obtain ⟨⟨h1, h2, h3⟩, h4⟩ := hp
  refine ⟨⟨h.1 ▸ h1, h.1 ▸ h2, h.2.1 ▸ h3⟩, ?_⟩
  rcases h.2.2 with g | g
  · exact g ▸ h4
  · exact Nat.lt_of_lt_of_le g h2

theorem currentOk_apply {M : Nat} (hM : 0 < M) (hM256 : M < QUINT8_RANGE)
    {prep : LooperLayer → Nat → Bool → LooperLayer}
    {lp lp1 : Looper} {op : Op} (h : lp.apply M prep op = some lp1) (hp : lp.CurrentOk M) :
    lp1.CurrentOk M := by
  unfold Looper.apply at h
  split at h
  · cases op <;> simp only [Option.some.injEq] at h
    case setLayerGain => exact currentOk_of_curStep (curStep_setLayerGain h) hp
    case setLayerPan => exact currentOk_of_curStep (curStep_setLayerPan h) hp
    case setLayers => exact h ▸ ⟨layoutOk_setLayers hM hM256 hp.1, hp.2⟩
    case setCurrentLayer => exact currentOk_of_curStep (h ▸ curStep_setCurrentLayer _ _) hp
    case selectLayer => exact currentOk_of_curStep (h ▸ curStep_selectLayer _ _) hp
    case startRecording => exact currentOk_of_curStep (curStep_startRecording h) hp
    case toggleRecording => exact currentOk_of_curStep (curStep_toggleRecording h) hp
    case play => exact currentOk_of_curStep (h ▸ curStep_play _) hp
    case stop => exact currentOk_of_curStep (h ▸ curStep_stop _) hp
    case togglePlay => exact currentOk_of_curStep (h ▸ curStep_togglePlay _) hp
    case incrementCurrentLayer =>
      exact currentOk_of_curStep (curStep_incrementCurrentLayer h) hp
    case incrementLockedLayer => exact currentOk_of_curStep (curStep_incrementLockedLayer h) hp
    case toggleLayerLockedState =>
      exact currentOk_of_curStep (curStep_toggleLayerLockedState h) hp
    case setLayerLockedState => exact currentOk_of_curStep (curStep_setLayerLockedState h) hp
    case clearLayer => exact currentOk_of_curStep (curStep_clearLayer h) hp
    case clearCurrentLayer => exact currentOk_of_curStep (curStep_clearLayer h) hp
    case setMode => exact currentOk_of_curStep (h ▸ curStep_setMode _ _) hp
    case setOption => exact currentOk_of_curStep (h ▸ curStep_setOption _ _ _) hp
    case setPlayingOption => exact currentOk_of_curStep (h ▸ curStep_setPlayingOption _ _ _) hp
    case addBuffer => exact currentOk_of_curStep (curStep_addBuffer h) hp
    case mixToBuffer => exact currentOk_of_curStep (curStep_mixToBuffer h) hp
    case startNewCycle => exact currentOk_of_curStep (curStep_startNewCycle h) hp
  · cases h

theorem currentOk_run {M : Nat} (hM : 0 < M) (hM256 : M < QUINT8_RANGE)
    {prep : LooperLayer → Nat → Bool → LooperLayer} :
    ∀ (ops : List Op) {lp lp1 : Looper}, lp.run M prep ops = some lp1 → lp.CurrentOk M →
      lp1.CurrentOk M
  | [], lp, lp1, h, hp => by
    simp only [Looper.run, Option.some.injEq] at h
    exact h ▸ hp
  | op :: ops, lp, lp1, h, hp => by
    simp only [Looper.run] at h
    split at h
    · cases h
    · next lp2 h2 => exact currentOk_run hM hM256 ops h (currentOk_apply hM hM256 h2 hp)

/-- With at least four and at most 255 layer slots, the current layer is a
layer of the array in every state reached from a new Looper. -/
theorem currentLayerIndex_lt_of_run {M : Nat} (hM : 4 ≤ M) (hM256 : M < QUINT8_RANGE)
    {prep : LooperLayer → Nat → Bool → LooperLayer} {ops : List Op} {lp : Looper}
    (h : Looper.run M prep (Looper.new M) ops = some lp) :
    lp.currentLayerIndex < lp.layers.length := by
  obtain ⟨⟨_, _, h3⟩, h4⟩ := currentOk_run (Nat.lt_of_lt_of_le (by decide) hM) hM256 ops h
    ⟨layoutOk_new hM, Nat.lt_of_lt_of_le (Nat.succ_pos 3) hM⟩
  exact h3 ▸ h4

/-! ## The guards of the lock and clear operations -/

theorem playingOrStopped_eq (lp : Looper) :
    (lp.isPlaying || lp.isStopped) = !(lp.isRecording || lp.isWaiting) := by
  unfold Looper.isPlaying Looper.isStopped Looper.isRecording Looper.isWaiting
  cases lp.state.obj <;> rfl

theorem canLockLayer_eq (lp : Looper) (i : Nat) :
    lp.canLockLayer i = (decide (i < lp.maxLayers) && (lp.isPlaying || lp.isStopped)) := by
  unfold Looper.canLockLayer
  by_cases h : i < lp.maxLayers
  · rw [if_neg (Nat.not_le.mpr h)]
    simp [h]
  · rw [if_pos (Nat.le_of_not_lt h)]
    simp [h]

theorem setLayerLockedState_of_can {lp : Looper} {i : Nat} {l : LooperLayer} (locked : Bool)
    (hcan : lp.canLockLayer i = true) (hl : lp.layers[i]? = some l) :
    lp.setLayerLockedState i locked =
      some { lp with
        layers := lp.layers.set i { l with locked := locked }
        emitted := lp.emitted ++ [Signal.layerLockedStateChanged i locked] } := by
  unfold Looper.setLayerLockedState
  rw [if_pos hcan, updateLayer_of_some _ hl]
  rfl

theorem setLayerLockedState_of_cannot {lp : Looper} {i : Nat} (locked : Bool)
    (hcan : lp.canLockLayer i = false) : lp.setLayerLockedState i locked = some lp := by
  unfold Looper.setLayerLockedState
  rw [hcan]
  rfl

theorem canClearLayer_of_lt {lp : Looper} {i : Nat} {l : LooperLayer} (hi : i < lp.maxLayers)
    (hl : lp.layers[i]? = some l) :
    lp.canClearLayer i = some ((lp.isPlaying || lp.isStopped) && !l.locked && l.valid) := by
  unfold Looper.canClearLayer Looper.layerIsLocked Looper.layerIsValid Looper.layerAt
  rw [if_neg (Nat.not_le.mpr hi), if_pos hi, if_pos hi, hl]
  simp only [Option.map_some', LooperLayer.isLocked, LooperLayer.isValid]
  cases (lp.isPlaying || lp.isStopped) <;> cases l.locked <;> rfl

theorem canClearLayer_of_ge {lp : Looper} {i : Nat} (hi : lp.maxLayers ≤ i) :
    lp.canClearLayer i = some false := by
  unfold Looper.canClearLayer
  rw [if_pos hi]

theorem clearLayer_of_can {lp : Looper} {i : Nat} {l : LooperLayer}
    (hcan : lp.canClearLayer i = some true) (hl : lp.layers[i]? = some l) :
    lp.clearLayer i = some { lp with layers := lp.layers.set i l.zero } := by
  unfold Looper.clearLayer
  rw [hcan]
  exact updateLayer_of_some _ hl

theorem clearLayer_of_cannot {lp : Looper} {i : Nat} (hcan : lp.canClearLayer i = some false) :
    lp.clearLayer i = some lp := by
  unfold Looper.clearLayer
  rw [hcan]

/-! ## Counting locked layers, and layer advancement -/

theorem countUnlockedBelow_succ (lp : Looper) (n : Nat) :
    lp.countUnlockedBelow (n + 1) =
      lp.countUnlockedBelow n + (if lp.unlockedAt n then 1 else 0) := by
  unfold Looper.countUnlockedBelow
  rw [List.range_succ, List.filter_append, List.length_append]
  congr 1
  by_cases h : lp.unlockedAt n
  · simp [h]
  · simp [h]

theorem getLockedLayers_loop_count (lp : Looper) :
    ∀ n, n ≤ lp.layers.length → n < UINT_RANGE →
      ∃ k, Looper.getLockedLayers.loop lp n = some k ∧ k + lp.countUnlockedBelow n = n ∧
        (0 < k ↔ ∃ i, i < n ∧ lp.lockedAt i)
  | 0, _, _ => by
    refine ⟨0, rfl, rfl, ?_⟩
    constructor
    · intro h; exact absurd h (Nat.lt_irrefl 0)
    · rintro ⟨i, hi, _⟩; exact absurd hi (Nat.not_lt_zero i)
  | n + 1, hn, hlt => by
    obtain ⟨k, hk, hsum, hiff⟩ :=
      getLockedLayers_loop_count lp n (Nat.le_of_succ_le hn) (Nat.lt_of_succ_lt hlt)
    obtain ⟨l, hl⟩ := layerAt_of_lt (Nat.lt_of_succ_le hn)
    have hkn : k ≤ n := by omega
    simp only [Looper.getLockedLayers.loop, hk, Looper.layerAt, hl, LooperLayer.isLocked]
    rw [countUnlockedBelow_succ]
    rcases Bool.eq_false_or_eq_true l.locked with hlock | hlock
    · have hnot : ¬ lp.unlockedAt n := fun hu =>
        not_lockedAt_of_unlockedAt hu ⟨l, hl, hlock⟩
      have hadd : uadd k 1 = k + 1 := by
        unfold uadd
        exact Nat.mod_eq_of_lt (by omega)
      refine ⟨k + 1, by rw [if_pos hlock, hadd], ?_, ?_⟩
      · rw [if_neg hnot]; omega
      · exact ⟨fun _ => ⟨n, Nat.lt_succ_self n, l, hl, hlock⟩, fun _ => Nat.succ_pos k⟩
    · have hyes : lp.unlockedAt n := ⟨l, hl, hlock⟩
      refine ⟨k, by simp only [hlock, Bool.false_eq_true, if_false], ?_, ?_⟩
      · rw [if_pos hyes]; omega
      · constructor
        · intro hpos
          obtain ⟨i, hi, hli⟩ := hiff.mp hpos
          exact ⟨i, Nat.lt_succ_of_lt hi, hli⟩
        · rintro ⟨i, hi, hli⟩
          rcases Nat.lt_succ_iff_lt_or_eq.mp hi with hlt2 | heq
          · exact hiff.mpr ⟨i, hlt2, hli⟩
          · subst heq
            exact absurd hli (not_lockedAt_of_unlockedAt hyes)

theorem getLockedLayers_count (lp : Looper) (hok : lp.ActiveLayersOk) :
    ∃ k, lp.getLockedLayers = some k ∧ k + lp.countUnlocked = lp.maxLayers ∧
      (0 < k ↔ ∃ i, i < lp.maxLayers ∧ lp.lockedAt i) :=
  getLockedLayers_loop_count lp lp.maxLayers hok.2.1
    (Nat.lt_trans hok.2.2 (by decide))

theorem lockedAt_of_layerIsLocked {lp : Looper} {r : Nat} (h : lp.layerIsLocked r = some true) :
    r < lp.maxLayers ∧ lp.lockedAt r := by
  unfold Looper.layerIsLocked Looper.layerAt at h
  split at h
  · next hr =>
    refine ⟨hr, ?_⟩
    simp only [Option.map_eq_some'] at h
    obtain ⟨l, hl, hlock⟩ := h
    exact ⟨l, hl, hlock⟩
  · cases h

theorem incrementLockedLayer_loop_locked (lp : Looper) (b : Bool) (rand : Nat → Nat) :
    ∀ (fuel iter nextLayer r : Nat),
      Looper.incrementLockedLayer.loop lp b rand fuel iter nextLayer = some r →
        lp.layerIsLocked r = some true
  | 0, _, _, _, h => by
    simp only [Looper.incrementLockedLayer.loop] at h
    cases h
  | fuel + 1, iter, nextLayer, r, h => by
    simp only [Looper.incrementLockedLayer.loop] at h
    split at h
    · cases h
    · split at h
      · cases h
      · next heq =>
        cases h
        exact heq
      · exact incrementLockedLayer_loop_locked lp b rand fuel _ _ r h

theorem incrementLockedLayer_loop_random (lp : Looper) (hok : lp.ActiveLayersOk)
    (rand : Nat → Nat) :
    ∀ (fuel iter nextLayer : Nat),
      (∃ k, k < fuel ∧ lp.lockedAt (rand (iter + k) % lp.maxLayers)) →
      ∃ r, Looper.incrementLockedLayer.loop lp true rand fuel iter nextLayer = some r
  | 0, _, _, ⟨k, hk, _⟩ => absurd hk (Nat.not_lt_zero k)
  | fuel + 1, iter, nextLayer, ⟨k, hk, hlock⟩ => by
    obtain ⟨hm, hlen, h256⟩ := hok
    have hnext : (rand iter % lp.maxLayers) % QUINT8_RANGE = rand iter % lp.maxLayers :=
      Nat.mod_eq_of_lt (Nat.lt_trans (Nat.mod_lt _ hm) h256)
    simp only [Looper.incrementLockedLayer.loop, if_neg (Nat.pos_iff_ne_zero.mp hm), if_true,
      hnext]
    rcases layerIsLocked_of_lt (Nat.mod_lt (rand iter) hm) hlen with ⟨h1, _⟩ | ⟨h1, hu⟩
    · rw [h1]
      exact ⟨_, rfl⟩
    · rw [h1]
      cases k with
      | zero => exact absurd hlock (not_lockedAt_of_unlockedAt hu)
      | succ k =>
        exact incrementLockedLayer_loop_random lp ⟨hm, hlen, h256⟩ rand fuel (iter + 1) _
          ⟨k, Nat.lt_of_succ_lt_succ hk, by
            rw [show iter + 1 + k = iter + (k + 1) by omega]; exact hlock⟩

theorem incrementLockedLayer_of_none_locked (lp : Looper) (hok : lp.ActiveLayersOk)
    (fuel : Nat) (rand : Nat → Nat) (hnone : ∀ i, i < lp.maxLayers → ¬ lp.lockedAt i) :
    lp.incrementLockedLayer fuel rand = some (lp.setCurrentLayer lp.currentLayerIndex) := by
  obtain ⟨k, hk, _, hiff⟩ := getLockedLayers_count lp hok
  have hk0 : ¬ k > 0 := fun hpos => by
    obtain ⟨i, hi, hli⟩ := hiff.mp hpos
    exact hnone i hi hli
  unfold Looper.incrementLockedLayer
  dsimp only
  rw [hk]
  dsimp only
  rw [if_neg hk0]

theorem incrementLockedLayer_of_some_locked (lp : Looper) (hok : lp.ActiveLayersOk)
    (fuel : Nat) (rand : Nat → Nat) (hsome : ∃ i, i < lp.maxLayers ∧ lp.lockedAt i) :
    lp.incrementLockedLayer fuel rand =
      (Looper.incrementLockedLayer.loop lp (lp.getPlayingOption PlayingOption.RandomizeLayers)
        rand fuel 0 lp.currentLayerIndex).map (fun nextLayer => lp.setCurrentLayer nextLayer) := by
  obtain ⟨k, hk, _, hiff⟩ := getLockedLayers_count lp hok
  have hk0 : k > 0 := hiff.mpr hsome
  unfold Looper.incrementLockedLayer
  dsimp only
  rw [hk]
  dsimp only
  rw [if_pos hk0]

theorem first_locked_after (lp : Looper) (c : Nat)
    (hsome : ∃ i, i < lp.maxLayers ∧ lp.lockedAt i) :
    ∃ j, j < lp.maxLayers ∧ lp.lockedAt ((c + 1 + j) % lp.maxLayers) ∧
      ∀ i, i < j → ¬ lp.lockedAt ((c + 1 + i) % lp.maxLayers) := by
  obtain ⟨i, hi, hli⟩ := hsome
  obtain ⟨j0, hj0, hji⟩ := cyclic_reaches (c + 1) lp.maxLayers i hi
  have hexj : ∃ j, j < lp.maxLayers ∧ lp.lockedAt ((c + 1 + j) % lp.maxLayers) :=
    ⟨j0, hj0, by rw [hji]; exact hli⟩
  classical
  refine ⟨Nat.find hexj, (Nat.find_spec hexj).1, (Nat.find_spec hexj).2, ?_⟩
  intro i hi hl
  exact Nat.find_min hexj hi ⟨Nat.lt_trans hi (Nat.find_spec hexj).1, hl⟩

theorem getPlayingOption_congr {lp lp1 : Looper} (hmode : lp1.mode = lp.mode)
    (hopt : lp1.modeOptions = lp.modeOptions) (o : PlayingOption) :
    lp1.getPlayingOption o = lp.getPlayingOption o := by
  unfold Looper.getPlayingOption
  rw [hmode, hopt]

theorem incrementCurrentLayer_of_all (lp : Looper) (hok : lp.ActiveLayersOk) (fuel : Nat)
    (rand : Nat → Nat) (hall : lp.getPlayingOption PlayingOption.PlayLockedLayers = false) :
    lp.incrementCurrentLayer fuel rand =
      some (lp.setCurrentLayer
        (if (lp.getPlayingOption PlayingOption.RandomizeLayers && decide (lp.maxLayers > 1)) = true
          then rand 0 % lp.maxLayers else (lp.currentLayerIndex + 1) % lp.maxLayers)) := by
  obtain ⟨hm, _, h256⟩ := hok
  have h1 : (rand 0 % lp.maxLayers) % QUINT8_RANGE = rand 0 % lp.maxLayers :=
    Nat.mod_eq_of_lt (Nat.lt_trans (Nat.mod_lt _ hm) h256)
  have h2 : ((lp.currentLayerIndex + 1) % lp.maxLayers) % QUINT8_RANGE =
      (lp.currentLayerIndex + 1) % lp.maxLayers :=
    Nat.mod_eq_of_lt (Nat.lt_trans (Nat.mod_lt _ hm) h256)
  unfold Looper.incrementCurrentLayer
  dsimp only
  rw [hall, h1, h2]
  simp only [Bool.false_eq_true, if_false, if_neg (Nat.pos_iff_ne_zero.mp hm)]

theorem incrementCurrentLayerTimes_sequential :
    ∀ (n : Nat) (lp : Looper) (fuel : Nat) (rand : Nat → Nat), lp.ActiveLayersOk →
      lp.getPlayingOption PlayingOption.PlayLockedLayers = false →
      lp.getPlayingOption PlayingOption.RandomizeLayers = false →
      ∃ lp1, lp.incrementCurrentLayerTimes fuel rand n = some lp1 ∧
        lp1.currentLayerIndex =
          (if n = 0 then lp.currentLayerIndex else (lp.currentLayerIndex + n) % lp.maxLayers) ∧
        lp1.maxLayers = lp.maxLayers ∧ lp1.layers = lp.layers
  | 0, lp, _, _, _, _, _ => ⟨lp, rfl, rfl, rfl, rfl⟩
  | n + 1, lp, fuel, rand, hok, hall, hseq => by
    have hr : (lp.currentLayerIndex + 1) % lp.maxLayers < lp.maxLayers := Nat.mod_lt _ hok.1
    have hstep := incrementCurrentLayer_of_all lp hok fuel rand hall
    rw [hseq] at hstep
    simp only [Bool.false_and, Bool.false_eq_true, if_false] at hstep
    rw [setCurrentLayer_of_lt hr] at hstep
    obtain ⟨lp2, h2, hidx, hmax, hlay⟩ := incrementCurrentLayerTimes_sequential n _ fuel rand
      (show Looper.ActiveLayersOk
        { lp with
          currentLayerIndex := (lp.currentLayerIndex + 1) % lp.maxLayers
          emitted := lp.emitted ++
            [Signal.currentLayerChanged ((lp.currentLayerIndex + 1) % lp.maxLayers)] } from hok)
      (by rw [getPlayingOption_congr rfl rfl]; exact hall)
      (by rw [getPlayingOption_congr rfl rfl]; exact hseq)
    refine ⟨lp2, ?_, ?_, hmax, hlay⟩
    · simp only [Looper.incrementCurrentLayerTimes, hstep, h2]
    · rw [hidx, if_neg (Nat.succ_ne_zero n)]
      dsimp only
      split
      · next h0 => rw [h0]
      · rw [Nat.mod_add_mod]
        congr 1
        omega

theorem setLayers_of_mem {M n : Nat} (lp : Looper) (h1 : 1 ≤ n) (hn : n ≤ M) :
    (lp.setLayers M n).maxLayers = n ∧ (lp.setLayers M n).layers = lp.layers := by
  unfold Looper.setLayers Looper.emit
  dsimp only
  rw [if_neg (Nat.not_lt.mpr h1), if_neg (Nat.not_lt.mpr hn)]
  exact ⟨rfl, rfl⟩

/-! ## The layout in reachable states, without a bound on `MAX_LOOP_LAYERS` -/

theorem apply_layout_cases {M : Nat} {prep : LooperLayer → Nat → Bool → LooperLayer}
    {lp lp1 : Looper} {op : Op} (h : lp.apply M prep op = some lp1) :
    SameLayout lp lp1 ∨ ∃ n, n < QUINT8_RANGE ∧ lp1 = lp.setLayers M n := by
  unfold Looper.apply at h
  split at h
  · next hwt =>
    cases op <;> simp only [Option.some.injEq] at h
    case setLayerGain => exact Or.inl (sameLayout_setLayerGain h)
    case setLayerPan => exact Or.inl (sameLayout_setLayerPan h)
    case setLayers n => exact Or.inr ⟨n, hwt, h.symm⟩
    case setCurrentLayer => exact Or.inl (h ▸ sameLayout_setCurrentLayer _ _)
    case selectLayer => exact Or.inl (h ▸ sameLayout_selectLayer _ _)
    case startRecording => exact Or.inl (sameLayout_startRecording h)
    case toggleRecording => exact Or.inl (sameLayout_toggleRecording h)
    case play => exact Or.inl (h ▸ sameLayout_play _)
    case stop => exact Or.inl (h ▸ sameLayout_stop _)
    case togglePlay => exact Or.inl (h ▸ sameLayout_togglePlay _)
    case incrementCurrentLayer => exact Or.inl (sameLayout_incrementCurrentLayer h)
    case incrementLockedLayer => exact Or.inl (sameLayout_incrementLockedLayer h)
    case toggleLayerLockedState => exact Or.inl (sameLayout_toggleLayerLockedState h)
    case setLayerLockedState => exact Or.inl (sameLayout_setLayerLockedState h)
    case clearLayer => exact Or.inl (sameLayout_clearLayer h)
    case clearCurrentLayer => exact Or.inl (sameLayout_clearLayer h)
    case setMode => exact Or.inl (h ▸ sameLayout_setMode _ _)
    case setOption => exact Or.inl (h ▸ sameLayout_setOption _ _ _)
    case setPlayingOption => exact Or.inl (h ▸ sameLayout_setPlayingOption _ _ _)
    case addBuffer => exact Or.inl (sameLayout_addBuffer h)
    case mixToBuffer => exact Or.inl (sameLayout_mixToBuffer h)
    case startNewCycle => exact Or.inl (sameLayout_startNewCycle h)
  · cases h

theorem typedLayoutOk_setLayers {M : Nat} (hM : 0 < M) {lp : Looper} {n : Nat}
    (hn : n < QUINT8_RANGE) (hp : lp.TypedLayoutOk M) : (lp.setLayers M n).TypedLayoutOk M := by
  unfold Looper.TypedLayoutOk Looper.setLayers Looper.emit
  dsimp only
  refine ⟨?_, ?_, ?_, hp.2.2.2⟩
  · split
    · exact Nat.one_pos
    · split
      · next hgt => rw [Nat.mod_eq_of_lt (Nat.lt_trans hgt hn)]; exact hM
      · omega
  · split
    · exact hM
    · split
      · exact Nat.mod_le _ _
      · omega
  · split
    · decide
    · split
      · exact Nat.mod_lt _ (by decide)
      · exact hn

theorem typedLayoutOk_run {M : Nat} (hM : 0 < M)
    {prep : LooperLayer → Nat → Bool → LooperLayer} :
    ∀ (ops : List Op) {lp lp1 : Looper}, lp.run M prep ops = some lp1 → lp.TypedLayoutOk M →
      lp1.TypedLayoutOk M
  | [], lp, lp1, h, hp => by
    simp only [Looper.run, Option.some.injEq] at h
    exact h ▸ hp
  | op :: ops, lp, lp1, h, hp => by
    simp only [Looper.run] at h
    split at h
    · cases h
    · next lp2 h2 =>
      refine typedLayoutOk_run hM ops h ?_
      rcases apply_layout_cases h2 with hs | ⟨n, hn, rfl⟩
      · unfold Looper.TypedLayoutOk at *
        rw [hs.1, hs.2]; exact hp
      · exact typedLayoutOk_setLayers hM hn hp

theorem typedLayoutOk_new {M : Nat} (hM : 4 ≤ M) : (Looper.new M).TypedLayoutOk M :=
  ⟨Nat.succ_pos 3, hM, (show (4 : Nat) < 256 by decide),
    List.length_replicate M LooperLayer.new⟩

theorem activeLayersOk_of_typedLayoutOk {M : Nat} {lp : Looper} (h : lp.TypedLayoutOk M) :
    lp.ActiveLayersOk :=
  ⟨h.1, h.2.2.2 ▸ h.2.1, h.2.2.1⟩

/-! ## The scan for an unlocked layer, by the number of layers tested -/

theorem getFirstUnlockedLayerIndex_loop_hit (lp : Looper) (hok : lp.ActiveLayersOk) :
    ∀ (left s j : Nat), s < lp.maxLayers → j < left →
      lp.unlockedAt ((s + j) % lp.maxLayers) →
      (∀ i, i < j → lp.lockedAt ((s + i) % lp.maxLayers)) →
      Looper.getFirstUnlockedLayerIndex.loop lp left s =
        some (((s + j) % lp.maxLayers : Nat) : Int) := by
  intro left s j hs hj hun hall
  rcases getFirstUnlockedLayerIndex_loop_scan lp hok left s hs with
    ⟨j2, hj2, hun2, hall2, heq⟩ | ⟨hall2, _⟩
  · have hjj : j2 = j := by
      rcases Nat.lt_trichotomy j2 j with h | h | h
      · exact absurd (hall j2 h) (not_lockedAt_of_unlockedAt hun2)
      · exact h
      · exact absurd (hall2 j h) (not_lockedAt_of_unlockedAt hun)
    rw [heq, hjj]
  · exact absurd (hall2 j hj) (not_lockedAt_of_unlockedAt hun)

/-! ## Mixing as a fold over the layer indices -/

theorem mixAllLayers_loop_eq (mixTo : LooperLayer → SamplesBuffer → Nat → Nat → SamplesBuffer)
    (lp : Looper) (samples : SamplesBuffer) (samplesToMix : Nat) :
    ∀ n, n ≤ QUINT8_RANGE →
      Looper.mixAllLayers.loop mixTo lp samples samplesToMix n =
        (List.range n).foldlM (fun mixed i => lp.mixLayer mixTo i mixed samplesToMix) samples
  | 0, _ => rfl
  | n + 1, hn => by
    have ih := mixAllLayers_loop_eq mixTo lp samples samplesToMix n (Nat.le_of_succ_le hn)
    have hmod : n % QUINT8_RANGE = n := Nat.mod_eq_of_lt (Nat.lt_of_succ_le hn)
    rw [List.range_succ, List.foldlM_append, ← ih]
    simp only [Looper.mixAllLayers.loop, hmod]
    cases Looper.mixAllLayers.loop mixTo lp samples samplesToMix n with
    | none => rfl
    | some mixed => simp [List.foldlM]

theorem mixLockedLayers_loop_eq (mixTo : LooperLayer → SamplesBuffer → Nat → Nat → SamplesBuffer)
    (lp : Looper) (hok : lp.ActiveLayersOk) (samples : SamplesBuffer) (samplesToMix : Nat) :
    ∀ n, n ≤ lp.maxLayers →
      Looper.mixLockedLayers.loop mixTo lp samples samplesToMix n =
        ((List.range n).filter fun i => decide (lp.lockedAt i)).foldlM
          (fun mixed i => lp.mixLayer mixTo i mixed samplesToMix) samples
  | 0, _ => rfl
  | n + 1, hn => by
    have ih := mixLockedLayers_loop_eq mixTo lp hok samples samplesToMix n (Nat.le_of_succ_le hn)
    have hlt : n < lp.maxLayers := Nat.lt_of_succ_le hn
    have hmod : n % QUINT8_RANGE = n := Nat.mod_eq_of_lt (Nat.lt_trans hlt hok.2.2)
    rw [List.range_succ, List.filter_append, List.foldlM_append, ← ih]
    simp only [Looper.mixLockedLayers.loop, hmod]
    cases Looper.mixLockedLayers.loop mixTo lp samples samplesToMix n with
    | none => rfl
    | some mixed =>
      rcases layerIsLocked_of_lt hlt hok.2.1 with ⟨h1, hl⟩ | ⟨h1, hu⟩
      · rw [h1]
        simp [List.foldlM, hl]
      · rw [h1]
        simp [List.foldlM, not_lockedAt_of_unlockedAt hu]

/-! ## The do-while loop does not end before a locked layer is met -/

theorem incrementLockedLayer_loop_short (lp : Looper) (hok : lp.ActiveLayersOk)
    (rand : Nat → Nat) :
    ∀ (fuel iter nextLayer r : Nat),
      Looper.incrementLockedLayer.loop lp false rand fuel iter nextLayer = some r →
      (∀ i, i < fuel → ¬ lp.lockedAt ((nextLayer + 1 + i) % lp.maxLayers)) → False
  | 0, _, _, _, h, _ => by
    simp only [Looper.incrementLockedLayer.loop] at h
    cases h
  | fuel + 1, iter, nextLayer, r, h, hnone => by
    obtain ⟨hm, hlen, h256⟩ := hok
    have hnext : ((nextLayer + 1) % lp.maxLayers) % QUINT8_RANGE = (nextLayer + 1) % lp.maxLayers :=
      Nat.mod_eq_of_lt (Nat.lt_trans (Nat.mod_lt _ hm) h256)
    simp only [Looper.incrementLockedLayer.loop, if_neg (Nat.pos_iff_ne_zero.mp hm),
      Bool.false_eq_true, if_false, hnext] at h
    rcases layerIsLocked_of_lt (Nat.mod_lt (nextLayer + 1) hm) hlen with ⟨h1, hl⟩ | ⟨h1, _⟩
    · exact hnone 0 (Nat.succ_pos fuel) hl
    · rw [h1] at h
      refine incrementLockedLayer_loop_short lp ⟨hm, hlen, h256⟩ rand fuel (iter + 1)
        ((nextLayer + 1) % lp.maxLayers) r h ?_
      intro i hi
      have e : ((nextLayer + 1) % lp.maxLayers + 1 + i) % lp.maxLayers =
          (nextLayer + 1 + (i + 1)) % lp.maxLayers := by
        rw [Nat.add_assoc ((nextLayer + 1) % lp.maxLayers), Nat.mod_add_mod]
        congr 1
        omega
      rw [e]
      exact hnone (i + 1) (Nat.succ_lt_succ hi)

/-! ## Properties of the looper -/

/-- C1 (the code at the failing input): from a new Looper with eight layer
slots, `selectLayer(3)` followed by `setLayers(1)` gives a Looper whose
`currentLayerIndex` is 3 while `maxLayers` is 1: `setLayers` lowers `maxLayers`
and leaves `currentLayerIndex` as it was, so the bound
`currentLayerIndex < maxLayers` is lost. -/
theorem setLayers_keeps_currentLayerIndex_above_maxLayers :
    ∃ lp, Looper.run 8 prepareKeepOrClear (Looper.new 8) [Op.selectLayer 3, Op.setLayers 1] = some lp ∧
      lp.currentLayerIndex = 3 ∧ lp.maxLayers = 1 ∧ ¬ lp.currentLayerIndex < lp.maxLayers :=
  ⟨_, rfl, rfl, rfl, by decide⟩

/-- C2: in every state reached from a new Looper by a sequence of calls, the
cycle position is in range (`intervalPosition < intervalLenght` when
`intervalLenght > 0`, and `intervalPosition = 0` when `intervalLenght = 0`);
`mixToBuffer` returns and keeps the position in range, and every result of
`startNewCycle` has the position in range. -/
theorem intervalPosition_in_range (MAX_LOOP_LAYERS : Nat)
    (prepareForNewCycle : LooperLayer → Nat → Bool → LooperLayer) :
    (∀ (ops : List Op) (lp : Looper),
      Looper.run MAX_LOOP_LAYERS prepareForNewCycle (Looper.new MAX_LOOP_LAYERS) ops = some lp →
        lp.PositionInRange) ∧
    (∀ (lp : Looper) (frameLenght : Nat), lp.PositionInRange →
      ∃ lp1, lp.mixToBuffer frameLenght = some lp1 ∧ lp1.PositionInRange) ∧
    (∀ (lp lp1 : Looper) (samplesInCycle fuel : Nat) (stillArmed : Bool) (rand : Nat → Nat),
      lp.PositionInRange →
      lp.startNewCycle prepareForNewCycle samplesInCycle stillArmed fuel rand = some lp1 →
        lp1.PositionInRange) := by
  refine ⟨?_, ?_, ?_⟩
  · intro ops lp h
    exact (cycleOk_run ops h (cycleOk_new MAX_LOOP_LAYERS)).2
  · intro lp frameLenght hp
    exact ⟨_, mixToBuffer_eq lp frameLenght,
      (positionInRange_mixToBuffer (mixToBuffer_eq lp frameLenght) hp).2⟩
  · intro lp lp1 L fuel armed rand _ h
    exact positionInRange_startNewCycle h

set_option maxRecDepth 4096 in
/-- C2 at the run `recordThenPlayCalls`. -/
theorem intervalPosition_in_range_witness :
    Looper.run 8 prepareKeepOrClear (Looper.new 8) recordThenPlayCalls =
      some (demoRun recordThenPlayCalls) ∧
    (demoRun recordThenPlayCalls).intervalLenght = 256 ∧
    (demoRun recordThenPlayCalls).intervalPosition = 0 ∧
    (demoRun recordThenPlayCalls).PositionInRange :=
  ⟨by rfl, by rfl, by rfl,
    (intervalPosition_in_range 8 prepareKeepOrClear).1 recordThenPlayCalls
      (demoRun recordThenPlayCalls) (by rfl)⟩

/-- C4: in every state reached from a new Looper, the unsigned subtraction
`intervalLenght - intervalPosition` does not wrap, the sample count that
`addBuffer` and `mixToBuffer` compute for a buffer of `frameLenght` frames is
`min(frameLenght, intervalLenght - intervalPosition)`, and `intervalPosition`
plus the count does not exceed `intervalLenght`.  Whatever the state object
does in `addBuffer(samples, count)` and `mixTo(samples, count)`, `addBuffer`
and `mixToBuffer` call it with the buffer they were given and with just that
count, and `mixToBuffer` then advances `intervalPosition` by the same count;
so do they with the state objects of the spec. -/
theorem samplesToProcess_within_cycle (MAX_LOOP_LAYERS : Nat)
    (prepareForNewCycle : LooperLayer → Nat → Bool → LooperLayer) (ops : List Op) (lp : Looper)
    (stateAddBuffer : LooperState → Looper → SamplesBuffer → Nat → Option Looper)
    (stateMixTo : LooperState → Looper → SamplesBuffer → Nat → Option (Looper × SamplesBuffer))
    (samples : SamplesBuffer) (frameLenght : Nat)
    (h : Looper.run MAX_LOOP_LAYERS prepareForNewCycle (Looper.new MAX_LOOP_LAYERS) ops = some lp) :
    lp.intervalPosition ≤ lp.intervalLenght ∧
    usub lp.intervalLenght lp.intervalPosition = lp.intervalLenght - lp.intervalPosition ∧
    lp.samplesToProcess frameLenght = min frameLenght (lp.intervalLenght - lp.intervalPosition) ∧
    lp.addBufferWith stateAddBuffer samples =
      stateAddBuffer lp.state.obj lp samples
        (min samples.length (lp.intervalLenght - lp.intervalPosition)) ∧
    lp.mixToBufferWith stateMixTo samples =
      (stateMixTo lp.state.obj lp samples
          (min samples.length (lp.intervalLenght - lp.intervalPosition))).map
        (fun r => if r.1.intervalLenght ≠ 0 then
          ({ r.1 with
            intervalPosition :=
              uadd r.1.intervalPosition (min samples.length (lp.intervalLenght - lp.intervalPosition)) %
                r.1.intervalLenght }, r.2)
          else r) ∧
    lp.addBuffer samples =
      lp.state.obj.addBuffer lp samples (min samples.length (lp.intervalLenght - lp.intervalPosition)) ∧
    lp.mixToBuffer frameLenght =
      (lp.state.obj.mixTo lp (min frameLenght (lp.intervalLenght - lp.intervalPosition))).map
        (fun lp1 => if lp1.intervalLenght ≠ 0 then
          { lp1 with
            intervalPosition :=
              uadd lp1.intervalPosition (min frameLenght (lp.intervalLenght - lp.intervalPosition)) %
                lp1.intervalLenght }
          else lp1) ∧
    lp.intervalPosition + lp.samplesToProcess frameLenght ≤ lp.intervalLenght := by
  have hok := cycleOk_run ops h (cycleOk_new MAX_LOOP_LAYERS)
  have hle := position_le_length hok.2
  have hs := samplesToProcess_of_cycleOk hok
  refine ⟨hle, usub_of_le hle hok.1, hs frameLenght, ?_, ?_, ?_, ?_, ?_⟩
  · unfold Looper.addBufferWith
    rw [hs]
  · unfold Looper.mixToBufferWith
    rw [hs]
    dsimp only
    cases stateMixTo lp.state.obj lp samples
        (min samples.length (lp.intervalLenght - lp.intervalPosition)) with
    | none => rfl
    | some r =>
      simp only [Option.map_some']
      split <;> rfl
  · unfold Looper.addBuffer Looper.addBufferWith
    rw [hs]
  · rw [mixToBuffer_eq, hs]
    rfl
  · rw [hs]
    have := Nat.min_le_right frameLenght (lp.intervalLenght - lp.intervalPosition)
    omega

set_option maxRecDepth 4096 in
/-- C4 at concrete states: 200 frames into a cycle of 256, a buffer of 100
frames is clipped to the 56 samples left in the cycle; 5 frames into a cycle
of 8, a state object that keeps as many samples of the buffer as it is told
to mix gets the buffer `[1, 2, 3, 4, 5]` with the count 3, and the position
wraps to 0. -/
theorem samplesToProcess_within_cycle_witness :
    (demoRun [Op.startNewCycle 256 false 0 (fun _ => 0), Op.mixToBuffer 200]).samplesToProcess 100 = 56 ∧
    (demoRun [Op.startNewCycle 256 false 0 (fun _ => 0), Op.mixToBuffer 200]).intervalPosition +
      (demoRun [Op.startNewCycle 256 false 0 (fun _ => 0), Op.mixToBuffer 200]).samplesToProcess 100 ≤
      (demoRun [Op.startNewCycle 256 false 0 (fun _ => 0), Op.mixToBuffer 200]).intervalLenght ∧
    (demoRun [Op.startNewCycle 8 false 0 (fun _ => 0), Op.mixToBuffer 5]).intervalPosition = 5 ∧
    (((demoRun [Op.startNewCycle 8 false 0 (fun _ => 0), Op.mixToBuffer 5]).mixToBufferWith
        (fun _ lp1 mixed samplesToMix => some (lp1, mixed.take samplesToMix)) [1, 2, 3, 4, 5]).map
      fun r => (r.1.intervalPosition, r.2)) = some (0, [1, 2, 3]) :=
  ⟨by rfl,
    (samplesToProcess_within_cycle 8 prepareKeepOrClear
      [Op.startNewCycle 256 false 0 (fun _ => 0), Op.mixToBuffer 200] _ (fun _ lp1 _ _ => some lp1)
      (fun _ lp1 mixed samplesToMix => some (lp1, mixed.take samplesToMix)) [] 100
      (by rfl)).2.2.2.2.2.2.2,
    by rfl, by rfl⟩

/-- C5: for every 8-bit `n`, after `setLayers(n)` the field `maxLayers` is `n`
clamped to `[1, MAX_LOOP_LAYERS]`: 1 if `n < 1`, `MAX_LOOP_LAYERS` if
`n > MAX_LOOP_LAYERS`, and `n` otherwise. -/
theorem setLayers_clamps (MAX_LOOP_LAYERS : Nat) (lp : Looper) (n : Nat)
    (hn : n < QUINT8_RANGE) :
    (lp.setLayers MAX_LOOP_LAYERS n).maxLayers =
      if n < 1 then 1 else if n > MAX_LOOP_LAYERS then MAX_LOOP_LAYERS else n := by
  unfold Looper.setLayers Looper.emit
  dsimp only
  split
  · rfl
  · split
    · next hgt => exact Nat.mod_eq_of_lt (Nat.lt_trans hgt hn)
    · rfl

/-- C5 at concrete inputs: with eight layer slots, `setLayers(200)` gives 8,
`setLayers(0)` gives 1 and `setLayers(5)` gives 5. -/
theorem setLayers_clamps_witness :
    ((Looper.new 8).setLayers 8 200).maxLayers = 8 ∧ ((Looper.new 8).setLayers 8 0).maxLayers = 1 ∧
      ((Looper.new 8).setLayers 8 5).maxLayers = 5 :=
  ⟨setLayers_clamps 8 (Looper.new 8) 200 (by decide),
    setLayers_clamps 8 (Looper.new 8) 0 (by decide),
    setLayers_clamps 8 (Looper.new 8) 5 (by decide)⟩

/-- C6: for a layer index `i >= maxLayers`, in every Looper state,
`setLayerGain(i, g)`, `selectLayer(i)`, `clearLayer(i)` and
`setLayerLockedState(i, b)` return the Looper they were given (every field and
the log of emitted signals unchanged), and `getLayerPeaks(i, s)` returns the
empty sequence. -/
theorem layer_index_out_of_range_is_ignored (lp : Looper) (i : Nat) (gain : Int) (locked : Bool)
    (samplesPerPeak : Nat) (hi : lp.maxLayers ≤ i) :
    lp.setLayerGain i gain = some lp ∧ lp.selectLayer i = lp ∧ lp.clearLayer i = some lp ∧
      lp.setLayerLockedState i locked = some lp ∧ lp.getLayerPeaks i samplesPerPeak = some [] := by
  have hnlt : ¬ i < lp.maxLayers := Nat.not_lt.mpr hi
  refine ⟨?_, ?_, ?_, ?_, ?_⟩
  · unfold Looper.setLayerGain
    rw [if_neg hnlt]
  · unfold Looper.selectLayer
    split
    · rfl
    · exact setCurrentLayer_of_ge hi
  · unfold Looper.clearLayer Looper.canClearLayer
    rw [if_pos hi]
  · unfold Looper.setLayerLockedState Looper.canLockLayer
    rw [if_pos hi]
    rfl
  · unfold Looper.getLayerPeaks
    rw [if_neg hnlt]

/-- C6 at a concrete state: on a new Looper (`maxLayers` = 4, eight layer
slots) the calls with index 5 change nothing. -/
theorem layer_index_out_of_range_is_ignored_witness :
    (Looper.new 8).setLayerGain 5 3 = some (Looper.new 8) ∧
      (Looper.new 8).selectLayer 5 = Looper.new 8 ∧
      (Looper.new 8).clearLayer 5 = some (Looper.new 8) ∧
      (Looper.new 8).setLayerLockedState 5 true = some (Looper.new 8) ∧
      (Looper.new 8).getLayerPeaks 5 16 = some [] :=
  layer_index_out_of_range_is_ignored (Looper.new 8) 5 3 true 16 (by decide)

/-- C7: with the Overdub option disabled, `startRecording()` returns, every
locked layer (content, gain, lock and valid flags) is the same after the call
as before, and a layer that differs after the call has an index below
`maxLayers`, was unlocked, and has become its zeroed copy. -/
theorem startRecording_keeps_locked_layers (lp : Looper) (hok : lp.ActiveLayersOk)
    (hov : lp.getOption RecordingOption.Overdub = false) :
    ∃ lp1, lp.startRecording = some lp1 ∧
      (∀ i, lp.lockedAt i → lp1.layers[i]? = lp.layers[i]?) ∧
      (∀ i, lp1.layers[i]? ≠ lp.layers[i]? →
        i < lp.maxLayers ∧ ∃ l, lp.layers[i]? = some l ∧ l.locked = false ∧
          lp1.layers[i]? = some l.zero) := by
  rcases getFirstUnlockedLayerIndex_scan lp hok lp.currentLayerIndex with
    ⟨j, _, ⟨l, hl, hun⟩, _, hget⟩ | ⟨_, hget⟩
  · have hr : (lp.currentLayerIndex + j) % lp.maxLayers < lp.maxLayers := Nat.mod_lt _ hok.1
    have hlen : (lp.currentLayerIndex + j) % lp.maxLayers < lp.layers.length :=
      Nat.lt_of_lt_of_le hr hok.2.1
    refine ⟨_, startRecording_of_found hok.2.2 hr hl hget, ?_, ?_⟩
    · intro i hlocked
      simp only [hov, Bool.false_eq_true, if_false]
      by_cases hi : (lp.currentLayerIndex + j) % lp.maxLayers = i
      · exact absurd hlocked (not_lockedAt_of_unlockedAt (hi ▸ ⟨l, hl, hun⟩))
      · exact List.getElem?_set_ne hi
    · intro i hne
      simp only [hov, Bool.false_eq_true, if_false] at hne ⊢
      by_cases hi : (lp.currentLayerIndex + j) % lp.maxLayers = i
      · subst hi
        refine ⟨hr, l, hl, hun, ?_⟩
        rw [List.getElem?_set_self hlen]
      · exact absurd (List.getElem?_set_ne hi) hne
  · refine ⟨lp, startRecording_of_none_found hget, fun _ _ => rfl, ?_⟩
    intro i hne
    exact absurd rfl hne

/-- C7 at a concrete state: layer 0 locked with content, the Looper stopped on
layer 0; `startRecording()` moves to layer 1 and leaves layer 0 as it was. -/
theorem startRecording_keeps_locked_layers_witness :
    (lockedFirstLayer.startRecording.map fun lp1 => (lp1.currentLayerIndex, lp1.layers[0]?)) =
      some (1, lockedFirstLayer.layers[0]?) ∧
    ∃ lp1, lockedFirstLayer.startRecording = some lp1 ∧
      (∀ i, lockedFirstLayer.lockedAt i → lp1.layers[i]? = lockedFirstLayer.layers[i]?) ∧
      (∀ i, lp1.layers[i]? ≠ lockedFirstLayer.layers[i]? →
        i < lockedFirstLayer.maxLayers ∧ ∃ l, lockedFirstLayer.layers[i]? = some l ∧
          l.locked = false ∧ lp1.layers[i]? = some l.zero) :=
  ⟨by rfl, startRecording_keeps_locked_layers lockedFirstLayer (by decide) (by rfl)⟩

/-- C8 (the code at the failing input): `selectLayer(3)` and `setLayers(1)` on a
new Looper leave the current layer at 3 with `maxLayers` = 1, because
`setLayers` does not bring `currentLayerIndex` back below the new `maxLayers`;
layer 3 is unlocked and so is layer 0, the only active one.
`startRecording()` then records on layer 0: the current layer does not stay
put although it is itself unlocked. -/
theorem startRecording_leaves_unlocked_current_layer :
    Looper.run 8 prepareKeepOrClear (Looper.new 8) [Op.selectLayer 3, Op.setLayers 1] =
      some (demoRun [Op.selectLayer 3, Op.setLayers 1]) ∧
    (demoRun [Op.selectLayer 3, Op.setLayers 1]).currentLayerIndex = 3 ∧
    (demoRun [Op.selectLayer 3, Op.setLayers 1]).maxLayers = 1 ∧
    ((demoRun [Op.selectLayer 3, Op.setLayers 1]).layers[3]?.map fun l => l.locked) = some false ∧
    ((demoRun [Op.selectLayer 3, Op.setLayers 1]).layers[0]?.map fun l => l.locked) = some false ∧
    ((demoRun [Op.selectLayer 3, Op.setLayers 1]).startRecording.map fun lp1 =>
      (lp1.currentLayerIndex, lp1.isRecording)) = some (0, true) :=
  ⟨by rfl, by rfl, by rfl, by rfl, by rfl, by rfl⟩

/-- When some layer with index below `maxLayers` is unlocked,
`startRecording()` makes current the first unlocked index `r` in the cyclic
order `currentLayerIndex mod maxLayers`, `(currentLayerIndex + 1) mod
maxLayers`, ..., zeroes layer `r` exactly when Overdub is disabled (no other
layer changes), and the state becomes Recording; `r` is `currentLayerIndex`
when the current layer is itself unlocked and `currentLayerIndex < maxLayers`,
the bound that `setCurrentLayer` keeps and `setLayers` does not.  When every
active layer is locked the call changes nothing. -/
theorem startRecording_first_unlocked (lp : Looper) (hok : lp.ActiveLayersOk) :
    ((∃ i, i < lp.maxLayers ∧ lp.unlockedAt i) →
      ∃ j l, j < lp.maxLayers ∧
        lp.layers[(lp.currentLayerIndex + j) % lp.maxLayers]? = some l ∧ l.locked = false ∧
        (∀ i, i < j → lp.lockedAt ((lp.currentLayerIndex + i) % lp.maxLayers)) ∧
        (lp.currentLayerIndex < lp.maxLayers → lp.unlockedAt lp.currentLayerIndex →
          (lp.currentLayerIndex + j) % lp.maxLayers = lp.currentLayerIndex) ∧
        lp.startRecording =
          some { lp with
            currentLayerIndex := (lp.currentLayerIndex + j) % lp.maxLayers
            layers :=
              if lp.getOption RecordingOption.Overdub then lp.layers
              else lp.layers.set ((lp.currentLayerIndex + j) % lp.maxLayers) l.zero
            state :=
              { addr := lp.state.addr + 1
                obj := LooperState.RecordingState
                  (((lp.currentLayerIndex + j) % lp.maxLayers : Nat) : Int) }
            emitted := lp.emitted ++
              [Signal.currentLayerChanged ((lp.currentLayerIndex + j) % lp.maxLayers),
                Signal.stateChanged] }) ∧
    ((∀ i, i < lp.maxLayers → lp.lockedAt i) → lp.startRecording = some lp) := by
  rcases getFirstUnlockedLayerIndex_scan lp hok lp.currentLayerIndex with
    ⟨j, hj, ⟨l, hl, hun⟩, hall, hget⟩ | ⟨hall, hget⟩
  · have hr : (lp.currentLayerIndex + j) % lp.maxLayers < lp.maxLayers := Nat.mod_lt _ hok.1
    constructor
    · intro _
      refine ⟨j, l, hj, hl, hun, hall, ?_, startRecording_of_found hok.2.2 hr hl hget⟩
      intro hcur hcurun
      cases j with
      | zero => rw [Nat.add_zero]; exact Nat.mod_eq_of_lt hcur
      | succ j =>
        have h0 := hall 0 (Nat.succ_pos j)
        rw [Nat.add_zero, Nat.mod_eq_of_lt hcur] at h0
        exact absurd h0 (not_lockedAt_of_unlockedAt hcurun)
    · intro hlocked
      exact absurd (hlocked _ hr) (not_lockedAt_of_unlockedAt ⟨l, hl, hun⟩)
  · constructor
    · rintro ⟨i, hi, hiun⟩
      exact absurd (hall i hi) (not_lockedAt_of_unlockedAt hiun)
    · intro _
      exact startRecording_of_none_found hget

/-- With layer 0 locked and current, `startRecording()` records on layer 1;
with every active layer of a new Looper locked it changes nothing. -/
theorem startRecording_first_unlocked_witness :
    (lockedFirstLayer.startRecording.map fun lp1 => (lp1.currentLayerIndex, lp1.isRecording)) =
      some (1, true) ∧
    allActiveLocked.startRecording = some allActiveLocked :=
  ⟨by rfl,
    (startRecording_first_unlocked allActiveLocked (by decide)).2 (by decide)⟩

/-- C9: `toggleRecording()` on a Recording or Waiting Looper gives Playing;
otherwise, when some active layer is unlocked it gives Waiting with the
current layer set to the first unlocked index in the cyclic order from
`currentLayerIndex`, no layer changed, and when every active layer is locked
it gives Stopped. -/
theorem toggleRecording_transitions (lp : Looper) (hok : lp.ActiveLayersOk) :
    ((lp.isRecording || lp.isWaiting) = true →
      lp.toggleRecording = some lp.play ∧ lp.play.isPlaying = true) ∧
    ((lp.isRecording || lp.isWaiting) = false → (∃ i, i < lp.maxLayers ∧ lp.unlockedAt i) →
      ∃ j lp1, j < lp.maxLayers ∧
        lp.unlockedAt ((lp.currentLayerIndex + j) % lp.maxLayers) ∧
        (∀ i, i < j → lp.lockedAt ((lp.currentLayerIndex + i) % lp.maxLayers)) ∧
        lp.toggleRecording = some lp1 ∧ lp1.isWaiting = true ∧ lp1.isRecording = false ∧
        lp1.currentLayerIndex = (lp.currentLayerIndex + j) % lp.maxLayers ∧
        lp1.layers = lp.layers) ∧
    ((lp.isRecording || lp.isWaiting) = false → (∀ i, i < lp.maxLayers → lp.lockedAt i) →
      lp.toggleRecording = some lp.stop ∧ lp.stop.isStopped = true) := by
  refine ⟨fun h => ⟨toggleRecording_of_active h, isPlaying_play lp⟩, ?_, ?_⟩
  · intro hidle hex
    rcases getFirstUnlockedLayerIndex_scan lp hok lp.currentLayerIndex with
      ⟨j, hj, hun, hall, hget⟩ | ⟨hall, _⟩
    · have hr : (lp.currentLayerIndex + j) % lp.maxLayers < lp.maxLayers := Nat.mod_lt _ hok.1
      exact ⟨j, _, hj, hun, hall, toggleRecording_of_found hidle hok.2.2 hr hget, rfl, rfl, rfl, rfl⟩
    · obtain ⟨i, hi, hiun⟩ := hex
      exact absurd (hall i hi) (not_lockedAt_of_unlockedAt hiun)
  · intro hidle hlocked
    rcases getFirstUnlockedLayerIndex_scan lp hok lp.currentLayerIndex with
      ⟨j, _, hun, _, _⟩ | ⟨_, hget⟩
    · exact absurd (hlocked _ (Nat.mod_lt _ hok.1)) (not_lockedAt_of_unlockedAt hun)
    · exact ⟨toggleRecording_of_none_found hidle hget, isStopped_stop lp⟩

/-- C9 at concrete states: a stopped Looper with layer 0 locked goes to Waiting
on layer 1; a Waiting one goes to Playing; with every active layer locked the
Looper goes to Stopped. -/
theorem toggleRecording_transitions_witness :
    (lockedFirstLayer.toggleRecording.map fun lp1 => (lp1.currentLayerIndex, lp1.isWaiting)) =
      some (1, true) ∧
    ((demoRun [Op.toggleRecording]).toggleRecording.map fun lp1 => lp1.isPlaying) = some true ∧
    (allActiveLocked.toggleRecording = some allActiveLocked.stop ∧
      allActiveLocked.stop.isStopped = true) :=
  ⟨by rfl,
    by rw [((toggleRecording_transitions (demoRun [Op.toggleRecording]) (by decide)).1 (by rfl)).1,
      Option.map_some', ((toggleRecording_transitions (demoRun [Op.toggleRecording])
        (by decide)).1 (by rfl)).2],
    (toggleRecording_transitions allActiveLocked (by decide)).2.2 (by rfl) (by decide)⟩

/-- C10: from every state `stop()` leaves the Looper Stopped and `play()` leaves
it Playing; `togglePlay()` takes a Playing Looper to Stopped and a Stopped one
to Playing, so two `togglePlay()` calls from Playing or from Stopped give back
the state kind they started from. -/
theorem stop_play_togglePlay (lp : Looper) :
    lp.stop.isStopped = true ∧ lp.play.isPlaying = true ∧
    (lp.isPlaying = true → lp.togglePlay.isStopped = true) ∧
    (lp.isStopped = true → lp.togglePlay.isPlaying = true) ∧
    (lp.isPlaying = true ∨ lp.isStopped = true →
      lp.togglePlay.togglePlay.state.obj = lp.state.obj) := by
  have hstop : ∀ x : Looper, x.stop.state.obj = LooperState.StoppedState := by
    intro x; unfold Looper.stop; rw [setState_new]
  have hplay : ∀ x : Looper, x.play.state.obj = LooperState.PlayingState := by
    intro x; unfold Looper.play; rw [setState_new]
  have htp : ∀ x : Looper, x.isPlaying = true → x.togglePlay = x.stop := by
    intro x hx; unfold Looper.togglePlay; rw [if_pos hx]
  have hts : ∀ x : Looper, x.isStopped = true → x.togglePlay = x.play := by
    intro x hx
    have hnp : ¬ x.isPlaying = true := by
      unfold Looper.isStopped at hx
      unfold Looper.isPlaying
      split at hx <;> simp_all
    unfold Looper.togglePlay; rw [if_neg hnp]
  refine ⟨isStopped_stop lp, isPlaying_play lp, ?_, ?_, ?_⟩
  · intro h
    rw [htp lp h]; exact isStopped_stop lp
  · intro h
    rw [hts lp h]; exact isPlaying_play lp
  · rintro (h | h)
    · rw [htp lp h, hts _ (isStopped_stop lp), hplay]
      unfold Looper.isPlaying at h
      split at h
      · next heq => exact heq.symm
      · cases h
    · rw [hts lp h, htp _ (isPlaying_play lp), hstop]
      unfold Looper.isStopped at h
      split at h
      · next heq => exact heq.symm
      · cases h

/-- C10 at a concrete state: a new Looper is Stopped; `togglePlay()` makes it
Playing and a second `togglePlay()` makes it Stopped again. -/
theorem stop_play_togglePlay_witness :
    (Looper.new 8).togglePlay.isPlaying = true ∧
      (Looper.new 8).togglePlay.togglePlay.state.obj = LooperState.StoppedState :=
  ⟨(stop_play_togglePlay (Looper.new 8)).2.2.2.1 (by rfl),
    (stop_play_togglePlay (Looper.new 8)).2.2.2.2 (Or.inr (by rfl))⟩

/-- C11 as stated fails: a new Looper is Stopped and has emitted nothing;
`stop()` on it emits `stateChanged`, and a second `stop()` emits it again, so
that two consecutive calls on a Stopped Looper emit the notification twice. -/
theorem stop_on_stopped_emits_stateChanged :
    (Looper.new 8).isStopped = true ∧ (Looper.new 8).emitted = [] ∧
    (Looper.new 8).stop.isStopped = true ∧
    (Looper.new 8).stop.emitted = [Signal.stateChanged] ∧
    (Looper.new 8).stop.stop.isStopped = true ∧
    (Looper.new 8).stop.stop.emitted = [Signal.stateChanged, Signal.stateChanged] :=
  ⟨by rfl, by rfl, by rfl, by rfl, by rfl, by rfl⟩

/-- C11 amended: `stop()` on a Looper that is already Stopped leaves it Stopped,
puts a new state object of the same kind in the place of the live one and
emits `stateChanged` once; two consecutive calls emit it twice.  `setState`
tests the object and not its kind: it leaves the Looper as it is, without a
notification, when it is handed the very object that is live, and installs
any other object with a notification. -/
theorem stop_emits_on_every_call (lp : Looper) (hstopped : lp.isStopped = true) :
    lp.stop.isStopped = true ∧ lp.stop.state.obj = lp.state.obj ∧
    lp.stop.state.addr ≠ lp.state.addr ∧
    lp.stop.emitted = lp.emitted ++ [Signal.stateChanged] ∧
    lp.stop.stop.isStopped = true ∧
    lp.stop.stop.emitted = lp.emitted ++ [Signal.stateChanged, Signal.stateChanged] ∧
    lp.setState lp.state = lp ∧
    (∀ newState : StatePtr, newState.addr ≠ lp.state.addr →
      lp.setState newState = ({ lp with state := newState }).emit Signal.stateChanged) := by
  have hobj : lp.state.obj = LooperState.StoppedState := by
    unfold Looper.isStopped at hstopped
    split at hstopped
    · next h => exact h
    · cases hstopped
  have hstop : ∀ lp0 : Looper, lp0.stop =
      { lp0 with
        state := { addr := lp0.state.addr + 1, obj := LooperState.StoppedState }
        emitted := lp0.emitted ++ [Signal.stateChanged] } := by
    intro lp0
    unfold Looper.stop
    rw [setState_new]
  refine ⟨?_, ?_, ?_, ?_, ?_, ?_, ?_, ?_⟩
  · rw [hstop]; rfl
  · rw [hstop, hobj]
  · rw [hstop]; exact Nat.succ_ne_self _
  · rw [hstop]
  · rw [hstop]; rfl
  · rw [hstop lp.stop, hstop lp]
    show (lp.emitted ++ [Signal.stateChanged]) ++ [Signal.stateChanged] = _
    rw [List.append_assoc]; rfl
  · unfold Looper.setState
    rw [if_neg (not_not.mpr rfl)]
  · intro newState hne
    unfold Looper.setState
    rw [if_pos (Ne.symm hne)]

/-- C11 amended, at a concrete state: a new Looper is Stopped; two calls of
`stop()` on it emit `stateChanged` twice, and `setState` with the live state
object emits nothing. -/
theorem stop_emits_on_every_call_witness :
    (Looper.new 8).isStopped = true ∧
    (Looper.new 8).stop.stop.emitted =
      (Looper.new 8).emitted ++ [Signal.stateChanged, Signal.stateChanged] ∧
    (Looper.new 8).setState (Looper.new 8).state = Looper.new 8 :=
  ⟨by rfl, (stop_emits_on_every_call (Looper.new 8) (by rfl)).2.2.2.2.2.1,
    (stop_emits_on_every_call (Looper.new 8) (by rfl)).2.2.2.2.2.2.1⟩

/-- C12: `canSelectLayers()` is false whenever the Looper is Recording or
Waiting, in every mode, and whenever it is Playing with a mode other than
SELECTED_LAYER; in each of these cases `selectLayer(n)` returns the Looper it
was given, so `currentLayerIndex` is unchanged, for every `n`. -/
theorem canSelectLayers_blocked (lp : Looper) :
    ((lp.isRecording || lp.isWaiting) = true →
      lp.canSelectLayers = false ∧ ∀ n, lp.selectLayer n = lp) ∧
    (lp.isPlaying = true → lp.mode ≠ Mode.SELECTED_LAYER →
      lp.canSelectLayers = false ∧ ∀ n, lp.selectLayer n = lp) := by
  have hsel : lp.canSelectLayers = false → ∀ n, lp.selectLayer n = lp := by
    intro h n
    unfold Looper.selectLayer
    rw [h]
    rfl
  constructor
  · intro h
    have hc : lp.canSelectLayers = false := by
      unfold Looper.canSelectLayers
      rw [if_pos h]
      split <;> rfl
    exact ⟨hc, hsel hc⟩
  · intro hp hm
    have hpm : (lp.isPlaying && decide (lp.mode ≠ Mode.SELECTED_LAYER)) = true := by
      rw [hp, Bool.true_and]
      exact decide_eq_true hm
    have hc : lp.canSelectLayers = false := by
      unfold Looper.canSelectLayers
      rw [if_pos hpm]
      split
      · rfl
      · split <;> rfl
    exact ⟨hc, hsel hc⟩

/-- C12 at concrete states: a Waiting Looper and a Playing Looper in SEQUENCE
mode refuse `selectLayer(2)`. -/
theorem canSelectLayers_blocked_witness :
    (demoRun [Op.toggleRecording]).canSelectLayers = false ∧
    (demoRun [Op.toggleRecording]).selectLayer 2 = demoRun [Op.toggleRecording] ∧
    (demoRun [Op.play]).canSelectLayers = false ∧
    (demoRun [Op.play]).selectLayer 2 = demoRun [Op.play] :=
  ⟨((canSelectLayers_blocked (demoRun [Op.toggleRecording])).1 (by rfl)).1,
    ((canSelectLayers_blocked (demoRun [Op.toggleRecording])).1 (by rfl)).2 2,
    ((canSelectLayers_blocked (demoRun [Op.play])).2 (by rfl) (by decide)).1,
    ((canSelectLayers_blocked (demoRun [Op.play])).2 (by rfl) (by decide)).2 2⟩

/-- C13: `setLayerLockedState(i, locked)` applies exactly when `i < maxLayers`
and the Looper is Playing or Stopped.  When it applies, layer `i` gets the lock
flag `locked`, the signal `layerLockedStateChanged(i, locked)` is emitted, and
no other layer and no other field changes; when it does not apply (`i >=
maxLayers`, or Recording, or Waiting) the Looper is unchanged. -/
theorem setLayerLockedState_guard (lp : Looper) (i : Nat) (locked : Bool)
    (hlen : lp.maxLayers ≤ lp.layers.length) :
    (i < lp.maxLayers → (lp.isPlaying || lp.isStopped) = true →
      ∃ l, lp.layers[i]? = some l ∧
        lp.setLayerLockedState i locked =
          some { lp with
            layers := lp.layers.set i { l with locked := locked }
            emitted := lp.emitted ++ [Signal.layerLockedStateChanged i locked] } ∧
        (∀ k, k ≠ i → (lp.layers.set i { l with locked := locked })[k]? = lp.layers[k]?)) ∧
    (lp.maxLayers ≤ i ∨ (lp.isRecording || lp.isWaiting) = true →
      lp.setLayerLockedState i locked = some lp) := by
  constructor
  · intro hi hps
    obtain ⟨l, hl⟩ := layerAt_of_lt (Nat.lt_of_lt_of_le hi hlen)
    refine ⟨l, hl, setLayerLockedState_of_can locked ?_ hl, ?_⟩
    · rw [canLockLayer_eq, hps]
      simp [hi]
    · intro k hk
      exact List.getElem?_set_ne (Ne.symm hk)
  · intro h
    apply setLayerLockedState_of_cannot
    rw [canLockLayer_eq, playingOrStopped_eq]
    rcases h with h | h
    · simp [Nat.not_lt.mpr h]
    · simp [h]

/-- C13 at concrete states: a stopped Looper locks its layer 1; a Waiting one
does not, and index 4 (= `maxLayers`) is ignored. -/
theorem setLayerLockedState_guard_witness :
    ((Looper.new 8).setLayerLockedState 1 true).map (fun lp1 =>
      (lp1.layers.map fun l => l.locked, lp1.emitted)) =
      some ([false, true, false, false, false, false, false, false],
        [Signal.layerLockedStateChanged 1 true]) ∧
    (demoRun [Op.toggleRecording]).setLayerLockedState 1 true =
      some (demoRun [Op.toggleRecording]) ∧
    (Looper.new 8).setLayerLockedState 4 true = some (Looper.new 8) :=
  ⟨by rfl,
    (setLayerLockedState_guard (demoRun [Op.toggleRecording]) 1 true (by decide)).2
      (Or.inr (by rfl)),
    (setLayerLockedState_guard (Looper.new 8) 4 true (by decide)).2 (Or.inl (by decide))⟩

/-- C14 (the code at the failing inputs): `toggleLayerLockedState(i)` reads
`layers[i]` before any test of `i`, so for an index at or past the end of the
layer array the call has no defined result, while `setLayerLockedState(i, b)`
ignores the same index; for an index inside the array the call is
`setLayerLockedState(i, !locked)`. -/
theorem toggleLayerLockedState_reads_before_guard (lp : Looper) (i : Nat)
    (hlen : lp.maxLayers ≤ lp.layers.length) :
    (lp.layers.length ≤ i →
      lp.toggleLayerLockedState i = none ∧ ∀ b, lp.setLayerLockedState i b = some lp) ∧
    (∀ l, lp.layers[i]? = some l →
      lp.toggleLayerLockedState i = lp.setLayerLockedState i (!l.locked)) := by
  constructor
  · intro hi
    constructor
    · unfold Looper.toggleLayerLockedState Looper.layerAt
      rw [List.getElem?_eq_none hi]
    · intro b
      apply setLayerLockedState_of_cannot
      rw [canLockLayer_eq]
      simp [Nat.not_lt.mpr (Nat.le_trans hlen hi)]
  · intro l hl
    unfold Looper.toggleLayerLockedState Looper.layerAt
    rw [hl]
    rfl

/-- C14 at a concrete input: with eight layer slots, `toggleLayerLockedState(200)`
has no defined result and `setLayerLockedState(200, true)` changes nothing. -/
theorem toggleLayerLockedState_reads_before_guard_witness :
    (Looper.new 8).toggleLayerLockedState 200 = none ∧
    (Looper.new 8).setLayerLockedState 200 true = some (Looper.new 8) :=
  ⟨((toggleLayerLockedState_reads_before_guard (Looper.new 8) 200 (by decide)).1 (by decide)).1,
    ((toggleLayerLockedState_reads_before_guard (Looper.new 8) 200 (by decide)).1 (by decide)).2
      true⟩

/-- C15: `clearLayer(i)` zeroes layer `i` when `i < maxLayers`, layer `i` is
unlocked and valid, and the Looper is Playing or Stopped, and then no other
layer and no other field changes; in every other case, in particular whenever
layer `i` is locked, the call leaves the Looper unchanged. -/
theorem clearLayer_guard (lp : Looper) (i : Nat) (hlen : lp.maxLayers ≤ lp.layers.length) :
    (i < lp.maxLayers → (lp.isPlaying || lp.isStopped) = true → lp.unlockedAt i →
      lp.validAt i →
      ∃ l, lp.layers[i]? = some l ∧
        lp.clearLayer i = some { lp with layers := lp.layers.set i l.zero }) ∧
    (¬ (i < lp.maxLayers ∧ (lp.isPlaying || lp.isStopped) = true ∧ lp.unlockedAt i ∧
        lp.validAt i) →
      lp.clearLayer i = some lp) ∧
    (lp.lockedAt i → lp.clearLayer i = some lp) := by
  have hno : ¬ (i < lp.maxLayers ∧ (lp.isPlaying || lp.isStopped) = true ∧ lp.unlockedAt i ∧
      lp.validAt i) → lp.clearLayer i = some lp := by
    intro hnot
    apply clearLayer_of_cannot
    rcases Nat.lt_or_ge i lp.maxLayers with hi | hi
    · obtain ⟨l, hl⟩ := layerAt_of_lt (Nat.lt_of_lt_of_le hi hlen)
      rw [canClearLayer_of_lt hi hl]
      congr 1
      by_contra hne
      have htrue : ((lp.isPlaying || lp.isStopped) && !l.locked && l.valid) = true :=
        (Bool.not_eq_false _).mp hne
      simp only [Bool.and_eq_true, Bool.not_eq_true'] at htrue
      exact hnot ⟨hi, htrue.1.1, ⟨l, hl, htrue.1.2⟩, ⟨l, hl, htrue.2⟩⟩
    · exact canClearLayer_of_ge hi
  refine ⟨?_, hno, ?_⟩
  · intro hi hps ⟨l, hl, hun⟩ ⟨l2, hl2, hval⟩
    rw [hl] at hl2
    cases hl2
    refine ⟨l, hl, clearLayer_of_can ?_ hl⟩
    rw [canClearLayer_of_lt hi hl, hps, hun, hval]
    rfl
  · intro hlocked
    exact hno (fun h => not_lockedAt_of_unlockedAt h.2.2.1 hlocked)

/-- C15 at concrete states: a stopped Looper with a recorded layer 0 clears it;
the same layer, once locked, is left as it is. -/
theorem clearLayer_guard_witness :
    ((demoRun recordOneLayerCalls).clearLayer 0).map (fun lp1 => lp1.layers[0]?) =
      some (some { samples := [], gain := 1, pan := 0, locked := false, valid := false }) ∧
    (demoRun recordOneLayerCalls).layers[0]? =
      some { samples := [1, 2, 3], gain := 1, pan := 0, locked := false, valid := true } ∧
    lockedFirstLayer.clearLayer 0 = some lockedFirstLayer :=
  ⟨by rfl, by rfl, (clearLayer_guard lockedFirstLayer 0 (by decide)).2.2 (by decide)⟩

/-- C16: in a mode other than SELECTED_LAYER `canRecord()` is true exactly when
some layer with index below `maxLayers` is unlocked; in SELECTED_LAYER mode it
is true exactly when the current layer is unlocked, whatever the lock flags of
the other layers. -/
theorem canRecord_spec (lp : Looper) (hok : lp.ActiveLayersOk)
    (hcur : lp.currentLayerIndex < lp.layers.length) :
    (lp.mode ≠ Mode.SELECTED_LAYER →
      ∃ b, lp.canRecord = some b ∧ (b = true ↔ ∃ i, i < lp.maxLayers ∧ lp.unlockedAt i)) ∧
    (lp.mode = Mode.SELECTED_LAYER →
      ∃ b, lp.canRecord = some b ∧ (b = true ↔ lp.unlockedAt lp.currentLayerIndex)) := by
  constructor
  · intro hmode
    unfold Looper.canRecord
    rw [if_pos hmode]
    rcases getFirstUnlockedLayerIndex_scan lp hok 0 with ⟨j, _, hun, _, hget⟩ | ⟨hall, hget⟩
    · refine ⟨true, ?_, ?_⟩
      · rw [hget]
        simp only [Option.map_some', ge_iff_le, Int.natCast_nonneg, decide_True]
      · exact ⟨fun _ => ⟨_, Nat.mod_lt _ hok.1, hun⟩, fun _ => rfl⟩
    · refine ⟨false, ?_, ?_⟩
      · rw [hget]
        rfl
      · constructor
        · intro h; cases h
        · rintro ⟨i, hi, hiun⟩
          exact absurd (hall i hi) (not_lockedAt_of_unlockedAt hiun)
  · intro hmode
    obtain ⟨l, hl⟩ := layerAt_of_lt hcur
    unfold Looper.canRecord Looper.layerAt
    rw [if_neg (not_not.mpr hmode), hl]
    refine ⟨!l.locked, rfl, ?_⟩
    constructor
    · intro h
      exact ⟨l, hl, by simpa using h⟩
    · rintro ⟨l2, hl2, hun⟩
      rw [hl] at hl2
      cases hl2
      rw [hun]
      rfl

/-- C16 at the scenario of the spec: SELECTED_LAYER mode, current layer 2
unlocked, layers 0 and 3 locked: `canRecord()` is true; after layer 2 is locked
it is false.  In SEQUENCE mode with every active layer locked it is false. -/
theorem canRecord_spec_witness :
    selectedThirdLayer.mode = Mode.SELECTED_LAYER ∧ selectedThirdLayer.currentLayerIndex = 2 ∧
    selectedThirdLayer.canRecord = some true ∧
    (selectedThirdLayer.setLayerLockedState 2 true).bind Looper.canRecord = some false ∧
    (∃ b, selectedThirdLayer.canRecord = some b ∧
      (b = true ↔ selectedThirdLayer.unlockedAt selectedThirdLayer.currentLayerIndex)) ∧
    (∃ b, allActiveLocked.canRecord = some b ∧
      (b = true ↔ ∃ i, i < allActiveLocked.maxLayers ∧ allActiveLocked.unlockedAt i)) :=
  ⟨by rfl, by rfl, by rfl, by rfl,
    (canRecord_spec selectedThirdLayer (by decide) (by decide)).2 (by rfl),
    (canRecord_spec allActiveLocked (by decide) (by decide)).1 (by decide)⟩

/-- C17: `incrementLockedLayer()` lands on locked layers only.  When some layer
with index below `maxLayers` is locked, every result of the call has a locked
current layer with index below `maxLayers`; with RandomizeLayers off the call
returns within `maxLayers` loop iterations and the new current layer is the
first locked index after the previous one in the cyclic order; with
RandomizeLayers on it returns once `qrand()` draws a locked index.  When no
active layer is locked, the call returns and `currentLayerIndex` is
unchanged. -/
theorem incrementLockedLayer_lands_on_locked (lp : Looper) (hok : lp.ActiveLayersOk)
    (fuel : Nat) (rand : Nat → Nat) :
    ((∃ i, i < lp.maxLayers ∧ lp.lockedAt i) →
      (∀ lp1, lp.incrementLockedLayer fuel rand = some lp1 →
        lp1.currentLayerIndex < lp.maxLayers ∧ lp1.layers = lp.layers ∧
          lp1.lockedAt lp1.currentLayerIndex) ∧
      (lp.getPlayingOption PlayingOption.RandomizeLayers = false → lp.maxLayers ≤ fuel →
        ∃ j lp1, j < lp.maxLayers ∧
          lp.lockedAt ((lp.currentLayerIndex + 1 + j) % lp.maxLayers) ∧
          (∀ i, i < j → ¬ lp.lockedAt ((lp.currentLayerIndex + 1 + i) % lp.maxLayers)) ∧
          lp.incrementLockedLayer fuel rand = some lp1 ∧
          lp1.currentLayerIndex = (lp.currentLayerIndex + 1 + j) % lp.maxLayers) ∧
      (lp.getPlayingOption PlayingOption.RandomizeLayers = true →
        (∃ k, k < fuel ∧ lp.lockedAt (rand k % lp.maxLayers)) →
        ∃ lp1, lp.incrementLockedLayer fuel rand = some lp1)) ∧
    ((∀ i, i < lp.maxLayers → ¬ lp.lockedAt i) →
      ∃ lp1, lp.incrementLockedLayer fuel rand = some lp1 ∧
        lp1.currentLayerIndex = lp.currentLayerIndex ∧ lp1.layers = lp.layers) := by
  constructor
  · intro hsome
    have heq := incrementLockedLayer_of_some_locked lp hok fuel rand hsome
    refine ⟨?_, ?_, ?_⟩
    · intro lp1 h1
      rw [heq, Option.map_eq_some'] at h1
      obtain ⟨r, hr, rfl⟩ := h1
      obtain ⟨hlt, hlocked⟩ :=
        lockedAt_of_layerIsLocked (incrementLockedLayer_loop_locked lp _ rand fuel 0 _ r hr)
      rw [setCurrentLayer_of_lt hlt]
      exact ⟨hlt, rfl, hlocked⟩
    · intro hseq hfuel
      obtain ⟨j, hj, hlock, hmin⟩ := first_locked_after lp lp.currentLayerIndex hsome
      have hr : (lp.currentLayerIndex + 1 + j) % lp.maxLayers < lp.maxLayers :=
        Nat.mod_lt _ hok.1
      refine ⟨j, lp.setCurrentLayer ((lp.currentLayerIndex + 1 + j) % lp.maxLayers), hj, hlock,
        hmin, ?_, ?_⟩
      · rw [heq, hseq, incrementLockedLayer_loop_scan lp hok rand fuel 0 lp.currentLayerIndex j
          (Nat.lt_of_lt_of_le hj hfuel) hlock hmin]
        rfl
      · rw [setCurrentLayer_of_lt hr]
    · intro hrnd hdraw
      obtain ⟨r, hr⟩ := incrementLockedLayer_loop_random lp hok rand fuel 0 lp.currentLayerIndex
        (by simpa using hdraw)
      exact ⟨_, by rw [heq, hrnd, hr]; rfl⟩
  · intro hnone
    refine ⟨_, incrementLockedLayer_of_none_locked lp hok fuel rand hnone, ?_, ?_⟩
    · unfold Looper.setCurrentLayer
      split <;> rfl
    · unfold Looper.setCurrentLayer
      split <;> rfl

/-- C17 at the scenario of the spec: layers 0 and 1 of four are locked and the
current layer is 0; four successive calls of `incrementLockedLayer()` visit the
indices 1, 0, 1, 0.  On a new Looper, where no layer is locked, the current
index stays 0. -/
theorem incrementLockedLayer_lands_on_locked_witness :
    twoLockedOfFour.currentLayerIndex = 0 ∧
    ((twoLockedOfFour.incrementLockedLayer 4 (fun _ => 0)).map fun a => a.currentLayerIndex) =
      some 1 ∧
    (((twoLockedOfFour.incrementLockedLayer 4 (fun _ => 0)).bind fun a =>
      a.incrementLockedLayer 4 (fun _ => 0)).map fun a => a.currentLayerIndex) = some 0 ∧
    ((((twoLockedOfFour.incrementLockedLayer 4 (fun _ => 0)).bind fun a =>
      a.incrementLockedLayer 4 (fun _ => 0)).bind fun a =>
      a.incrementLockedLayer 4 (fun _ => 0)).map fun a => a.currentLayerIndex) = some 1 ∧
    (∃ j lp1, j < twoLockedOfFour.maxLayers ∧
      twoLockedOfFour.lockedAt ((twoLockedOfFour.currentLayerIndex + 1 + j) %
        twoLockedOfFour.maxLayers) ∧
      (∀ i, i < j → ¬ twoLockedOfFour.lockedAt ((twoLockedOfFour.currentLayerIndex + 1 + i) %
        twoLockedOfFour.maxLayers)) ∧
      twoLockedOfFour.incrementLockedLayer 4 (fun _ => 0) = some lp1 ∧
      lp1.currentLayerIndex =
        (twoLockedOfFour.currentLayerIndex + 1 + j) % twoLockedOfFour.maxLayers) ∧
    (∃ lp1, (Looper.new 8).incrementLockedLayer 0 (fun _ => 0) = some lp1 ∧
      lp1.currentLayerIndex = (Looper.new 8).currentLayerIndex ∧
      lp1.layers = (Looper.new 8).layers) :=
  ⟨by rfl, by rfl, by rfl, by rfl,
    ((incrementLockedLayer_lands_on_locked twoLockedOfFour (by decide) 4 (fun _ => 0)).1
      (by decide)).2.1 (by rfl) (by decide),
    (incrementLockedLayer_lands_on_locked (Looper.new 8) (by decide) 0 (fun _ => 0)).2
      (by decide)⟩

/-- C18 (the code at the failing input): `selectLayer(3)` and `setLayers(1)` on
a new Looper (PlayLockedLayers and RandomizeLayers off) leave the current layer
at 3 with `maxLayers` = 1, because `setLayers` does not bring
`currentLayerIndex` back below the new `maxLayers`; one call of
`incrementCurrentLayer()`, which is `maxLayers` successive calls, then leaves
the current layer at 0, not at the starting index. -/
theorem incrementCurrentLayer_loses_starting_index :
    Looper.run 8 prepareKeepOrClear (Looper.new 8) [Op.selectLayer 3, Op.setLayers 1] =
      some (demoRun [Op.selectLayer 3, Op.setLayers 1]) ∧
    (demoRun [Op.selectLayer 3, Op.setLayers 1]).getPlayingOption PlayingOption.PlayLockedLayers =
      false ∧
    (demoRun [Op.selectLayer 3, Op.setLayers 1]).getPlayingOption PlayingOption.RandomizeLayers =
      false ∧
    (demoRun [Op.selectLayer 3, Op.setLayers 1]).currentLayerIndex = 3 ∧
    (demoRun [Op.selectLayer 3, Op.setLayers 1]).maxLayers = 1 ∧
    (((demoRun [Op.selectLayer 3, Op.setLayers 1]).incrementCurrentLayerTimes 1 (fun _ => 0)
      1).map fun lp1 => lp1.currentLayerIndex) = some 0 :=
  ⟨by rfl, by rfl, by rfl, by rfl, by rfl, by rfl⟩

/-- With the PlayLockedLayers option set, `incrementCurrentLayer()` is
`incrementLockedLayer()`; with PlayLockedLayers and RandomizeLayers both off
it sets `currentLayerIndex` to `(currentLayerIndex + 1) mod maxLayers`, and
`maxLayers` successive calls lead to `currentLayerIndex mod maxLayers`: they
return to the starting index whenever `currentLayerIndex < maxLayers`, the
bound that `setCurrentLayer` keeps and `setLayers` does not. -/
theorem incrementCurrentLayer_cycles (lp : Looper) (hok : lp.ActiveLayersOk) (fuel : Nat)
    (rand : Nat → Nat) :
    (lp.getPlayingOption PlayingOption.PlayLockedLayers = true →
      lp.incrementCurrentLayer fuel rand = lp.incrementLockedLayer fuel rand) ∧
    (lp.getPlayingOption PlayingOption.PlayLockedLayers = false →
      lp.getPlayingOption PlayingOption.RandomizeLayers = false →
      (∃ lp1, lp.incrementCurrentLayer fuel rand = some lp1 ∧
        lp1.currentLayerIndex = (lp.currentLayerIndex + 1) % lp.maxLayers ∧
        lp1.layers = lp.layers) ∧
      (∃ lp2, lp.incrementCurrentLayerTimes fuel rand lp.maxLayers = some lp2 ∧
        lp2.currentLayerIndex = lp.currentLayerIndex % lp.maxLayers ∧
        (lp.currentLayerIndex < lp.maxLayers → lp2.currentLayerIndex = lp.currentLayerIndex))) := by
  constructor
  · intro hlocked
    unfold Looper.incrementCurrentLayer
    dsimp only
    rw [if_pos hlocked]
  · intro hall hseq
    constructor
    · have hstep := incrementCurrentLayer_of_all lp hok fuel rand hall
      rw [hseq] at hstep
      simp only [Bool.false_and, Bool.false_eq_true, if_false] at hstep
      rw [setCurrentLayer_of_lt (Nat.mod_lt _ hok.1)] at hstep
      exact ⟨_, hstep, rfl, rfl⟩
    · obtain ⟨lp2, h2, hidx, _, _⟩ :=
        incrementCurrentLayerTimes_sequential lp.maxLayers lp fuel rand hok hall hseq
      rw [if_neg (Nat.pos_iff_ne_zero.mp hok.1), Nat.add_mod_right] at hidx
      exact ⟨lp2, h2, hidx, fun hlt => by rw [hidx, Nat.mod_eq_of_lt hlt]⟩

/-- On a new Looper (four active layers, current layer 0) one call of
`incrementCurrentLayer()` selects layer 1 and four calls come back to 0. -/
theorem incrementCurrentLayer_cycles_witness :
    (∃ lp1, (Looper.new 8).incrementCurrentLayer 0 (fun _ => 0) = some lp1 ∧
      lp1.currentLayerIndex = ((Looper.new 8).currentLayerIndex + 1) % (Looper.new 8).maxLayers ∧
      lp1.layers = (Looper.new 8).layers) ∧
    (((Looper.new 8).incrementCurrentLayerTimes 0 (fun _ => 0) 4).map fun lp2 =>
      lp2.currentLayerIndex) = some 0 :=
  ⟨((incrementCurrentLayer_cycles (Looper.new 8) (by decide) 0 (fun _ => 0)).2 (by rfl)
      (by rfl)).1, by rfl⟩

/-- C19 as stated fails: with PlayLockedLayers off, layer 1 locked, layer 0
unlocked and current, `incrementCurrentLayer()` selects layer 1, a locked
layer. -/
theorem incrementCurrentLayer_selects_locked_layer :
    Looper.run 8 prepareKeepOrClear (Looper.new 8) [Op.setLayerLockedState 1 true] =
      some secondLayerLocked ∧
    secondLayerLocked.getPlayingOption PlayingOption.PlayLockedLayers = false ∧
    secondLayerLocked.currentLayerIndex = 0 ∧ secondLayerLocked.unlockedAt 0 ∧
    ((secondLayerLocked.incrementCurrentLayer 4 (fun _ => 0)).map fun lp1 =>
      (lp1.currentLayerIndex, lp1.layers[lp1.currentLayerIndex]?.map fun l => l.locked)) =
      some (1, some true) :=
  ⟨by rfl, by rfl, by rfl, by decide, by rfl⟩

/-- C19 amended: with the PlayLockedLayers option off, `incrementCurrentLayer()`
does not test lock flags: it returns with the current layer set to
`(currentLayerIndex + 1) mod maxLayers`, or to `qrand() mod maxLayers` when
RandomizeLayers is on and `maxLayers > 1`, and changes no layer, so the
selected layer is locked exactly when that index holds a locked layer. -/
theorem incrementCurrentLayer_ignores_locks (lp : Looper) (hok : lp.ActiveLayersOk)
    (fuel : Nat) (rand : Nat → Nat)
    (hall : lp.getPlayingOption PlayingOption.PlayLockedLayers = false) :
    ∃ lp1, lp.incrementCurrentLayer fuel rand = some lp1 ∧
      lp1.currentLayerIndex =
        (if (lp.getPlayingOption PlayingOption.RandomizeLayers && decide (lp.maxLayers > 1)) = true
          then rand 0 % lp.maxLayers else (lp.currentLayerIndex + 1) % lp.maxLayers) ∧
      lp1.layers = lp.layers ∧
      (lp1.lockedAt lp1.currentLayerIndex ↔
        lp.lockedAt
          (if (lp.getPlayingOption PlayingOption.RandomizeLayers &&
              decide (lp.maxLayers > 1)) = true
            then rand 0 % lp.maxLayers else (lp.currentLayerIndex + 1) % lp.maxLayers)) := by
  have hlt : (if (lp.getPlayingOption PlayingOption.RandomizeLayers &&
      decide (lp.maxLayers > 1)) = true
      then rand 0 % lp.maxLayers else (lp.currentLayerIndex + 1) % lp.maxLayers) < lp.maxLayers := by
    split <;> exact Nat.mod_lt _ hok.1
  have hstep := incrementCurrentLayer_of_all lp hok fuel rand hall
  rw [setCurrentLayer_of_lt hlt] at hstep
  exact ⟨_, hstep, rfl, rfl, Iff.rfl⟩

/-- C19 amended, at a concrete state: with layer 1 locked and layer 0 current
the call selects the locked layer 1. -/
theorem incrementCurrentLayer_ignores_locks_witness :
    ∃ lp1, secondLayerLocked.incrementCurrentLayer 4 (fun _ => 0) = some lp1 ∧
      lp1.currentLayerIndex =
        (if (secondLayerLocked.getPlayingOption PlayingOption.RandomizeLayers &&
            decide (secondLayerLocked.maxLayers > 1)) = true
          then (fun _ => 0) 0 % secondLayerLocked.maxLayers
          else (secondLayerLocked.currentLayerIndex + 1) % secondLayerLocked.maxLayers) ∧
      lp1.layers = secondLayerLocked.layers ∧
      (lp1.lockedAt lp1.currentLayerIndex ↔
        secondLayerLocked.lockedAt
          (if (secondLayerLocked.getPlayingOption PlayingOption.RandomizeLayers &&
              decide (secondLayerLocked.maxLayers > 1)) = true
            then (fun _ => 0) 0 % secondLayerLocked.maxLayers
            else (secondLayerLocked.currentLayerIndex + 1) % secondLayerLocked.maxLayers)) :=
  incrementCurrentLayer_ignores_locks secondLayerLocked (by decide) 4 (fun _ => 0) (by rfl)

/-- C20: for `n` in `[1, MAX_LOOP_LAYERS]` and any lock flags, after
`setLayers(n)` the call `getLockedLayers()` returns, its value plus the number
of unlocked layers with index below `maxLayers` is `n`, and so it is at most
`n`. -/
theorem getLockedLayers_plus_unlocked (MAX_LOOP_LAYERS : Nat) (lp : Looper) (n : Nat)
    (h1 : 1 ≤ n) (hn : n ≤ MAX_LOOP_LAYERS) (h256 : n < QUINT8_RANGE)
    (hlen : lp.layers.length = MAX_LOOP_LAYERS) :
    ∃ k, (lp.setLayers MAX_LOOP_LAYERS n).getLockedLayers = some k ∧
      k + (lp.setLayers MAX_LOOP_LAYERS n).countUnlocked = n ∧ k ≤ n := by
  obtain ⟨hmax, hlay⟩ := setLayers_of_mem lp h1 hn
  have hok : (lp.setLayers MAX_LOOP_LAYERS n).ActiveLayersOk := by
    unfold Looper.ActiveLayersOk
    rw [hmax, hlay, hlen]
    exact ⟨h1, hn, h256⟩
  obtain ⟨k, hk, hsum, _⟩ := getLockedLayers_count _ hok
  rw [hmax] at hsum
  exact ⟨k, hk, hsum, by omega⟩

/-- C20 at a concrete state: with layers 0 and 1 locked, after `setLayers(3)`
two layers are counted locked and one unlocked. -/
theorem getLockedLayers_plus_unlocked_witness :
    (twoLockedOfFour.setLayers 8 3).getLockedLayers = some 2 ∧
    (twoLockedOfFour.setLayers 8 3).countUnlocked = 1 ∧
    ∃ k, (twoLockedOfFour.setLayers 8 3).getLockedLayers = some k ∧
      k + (twoLockedOfFour.setLayers 8 3).countUnlocked = 3 ∧ k ≤ 3 :=
  ⟨by rfl, by decide,
    getLockedLayers_plus_unlocked 8 twoLockedOfFour 3 (by decide) (by decide) (by decide)
      (by rfl)⟩

/-- C21: `getFirstUnlockedLayerIndex(s)` returns; its result is -1 exactly when
every layer with index below `maxLayers` is locked; a non-negative result `r`
is the first unlocked index `(s + j) mod maxLayers` in the cyclic order from
`s mod maxLayers`, it is below `maxLayers`, layer `r` is unlocked, and the loop
reaches it after testing `j + 1 <= maxLayers` layers. -/
theorem getFirstUnlockedLayerIndex_spec (lp : Looper) (hok : lp.ActiveLayersOk) (s : Nat) :
    ∃ r, lp.getFirstUnlockedLayerIndex s = some r ∧
      (r = -1 ↔ ∀ i, i < lp.maxLayers → lp.lockedAt i) ∧
      (r = -1 ∨ 0 ≤ r) ∧
      (0 ≤ r →
        ∃ j, j < lp.maxLayers ∧ r = (((s + j) % lp.maxLayers : Nat) : Int) ∧
          r < (lp.maxLayers : Int) ∧ lp.unlockedAt r.toNat ∧
          (∀ i, i < j → lp.lockedAt ((s + i) % lp.maxLayers)) ∧
          Looper.getFirstUnlockedLayerIndex.loop lp (j + 1) (s % lp.maxLayers) = some r) := by
  rcases getFirstUnlockedLayerIndex_scan lp hok s with ⟨j, hj, hun, hall, hget⟩ | ⟨hall, hget⟩
  · have hr : (s + j) % lp.maxLayers < lp.maxLayers := Nat.mod_lt _ hok.1
    refine ⟨_, hget, ?_, Or.inr (Int.natCast_nonneg _), ?_⟩
    · constructor
      · intro h
        have := Int.natCast_nonneg ((s + j) % lp.maxLayers)
        omega
      · intro hlocked
        exact absurd (hlocked _ hr) (not_lockedAt_of_unlockedAt hun)
    · intro _
      refine ⟨j, hj, rfl, Int.ofNat_lt.mpr hr, ?_, hall, ?_⟩
      · rw [Int.toNat_ofNat]; exact hun
      · have h := getFirstUnlockedLayerIndex_loop_hit lp hok (j + 1) (s % lp.maxLayers) j
          (Nat.mod_lt _ hok.1) (Nat.lt_succ_self j)
          (by rw [Nat.mod_add_mod]; exact hun)
          (by intro i hi; rw [Nat.mod_add_mod]; exact hall i hi)
        rw [h, Nat.mod_add_mod]
  · refine ⟨-1, hget, ⟨fun _ => hall, fun _ => rfl⟩, Or.inl rfl, ?_⟩
    intro h
    exact absurd h (by decide)

/-- C21 at concrete states: with layer 0 locked the scan from 0 returns 1 and
the scan from 7 (= 3 mod 4) returns 3; with every active layer locked it
returns -1. -/
theorem getFirstUnlockedLayerIndex_spec_witness :
    lockedFirstLayer.getFirstUnlockedLayerIndex 0 = some 1 ∧
    lockedFirstLayer.getFirstUnlockedLayerIndex 7 = some 3 ∧
    allActiveLocked.getFirstUnlockedLayerIndex 2 = some (-1) ∧
    ∃ r, allActiveLocked.getFirstUnlockedLayerIndex 2 = some r ∧
      (r = -1 ↔ ∀ i, i < allActiveLocked.maxLayers → allActiveLocked.lockedAt i) :=
  ⟨by rfl, by rfl, by rfl,
    (getFirstUnlockedLayerIndex_spec allActiveLocked (by decide) 2).imp
      fun _ h => ⟨h.1, h.2.1⟩⟩

/-- C22: with at least four layer slots, in every state reached from a new
Looper `1 <= maxLayers <= MAX_LOOP_LAYERS` and there are `MAX_LOOP_LAYERS` layer
objects; hence `maxLayers` is a non-zero divisor, every index below `maxLayers`
is the index of a layer object, and `getFirstUnlockedLayerIndex`,
`getNextUnlockedLayerIndex`, `getLockedLayers` and, in sequential order with a
budget of `maxLayers` iterations, `incrementLockedLayer` and
`incrementCurrentLayer` have a defined result. -/
theorem maxLayers_in_range (MAX_LOOP_LAYERS : Nat)
    (prepareForNewCycle : LooperLayer → Nat → Bool → LooperLayer) (ops : List Op) (lp : Looper)
    (hM : 4 ≤ MAX_LOOP_LAYERS)
    (h : Looper.run MAX_LOOP_LAYERS prepareForNewCycle (Looper.new MAX_LOOP_LAYERS) ops = some lp) :
    1 ≤ lp.maxLayers ∧ lp.maxLayers ≤ MAX_LOOP_LAYERS ∧ lp.layers.length = MAX_LOOP_LAYERS ∧
    lp.maxLayers ≠ 0 ∧
    (∀ l, l < lp.maxLayers → ∃ layer, lp.layers[l]? = some layer) ∧
    (∀ s, ∃ r, lp.getFirstUnlockedLayerIndex s = some r) ∧
    (∃ r, lp.getNextUnlockedLayerIndex = some r) ∧
    (∃ k, lp.getLockedLayers = some k) ∧
    (lp.getPlayingOption PlayingOption.RandomizeLayers = false →
      ∀ fuel rand, lp.maxLayers ≤ fuel →
        (∃ lp1, lp.incrementLockedLayer fuel rand = some lp1) ∧
        (∃ lp1, lp.incrementCurrentLayer fuel rand = some lp1)) := by
  have hinv := typedLayoutOk_run (Nat.lt_of_lt_of_le (Nat.succ_pos 3) hM) ops h
    (typedLayoutOk_new hM)
  have hok := activeLayersOk_of_typedLayoutOk hinv
  have hfirst : ∀ s, ∃ r, lp.getFirstUnlockedLayerIndex s = some r := by
    intro s
    rcases getFirstUnlockedLayerIndex_scan lp hok s with ⟨j, _, _, _, hget⟩ | ⟨_, hget⟩
    · exact ⟨_, hget⟩
    · exact ⟨_, hget⟩
  refine ⟨hinv.1, hinv.2.1, hinv.2.2.2, Nat.pos_iff_ne_zero.mp hinv.1, ?_, hfirst, ?_, ?_, ?_⟩
  · intro l hl
    exact layerAt_of_lt (Nat.lt_of_lt_of_le hl hok.2.1)
  · unfold Looper.getNextUnlockedLayerIndex
    rw [if_neg (Nat.pos_iff_ne_zero.mp hinv.1)]
    exact hfirst _
  · obtain ⟨k, hk, _⟩ := getLockedLayers_count lp hok
    exact ⟨k, hk⟩
  · intro hseq fuel rand hfuel
    exact ⟨incrementLockedLayer_returns lp hok fuel rand hfuel hseq,
      incrementCurrentLayer_returns lp hok fuel rand hfuel hseq⟩

/-- C22 at a concrete run: after `setLayers(0)` and `setLayers(200)` on a new
Looper with eight layer slots, `maxLayers` is 8. -/
theorem maxLayers_in_range_witness :
    (demoRun [Op.setLayers 0, Op.setLayers 200]).maxLayers = 8 ∧
    1 ≤ (demoRun [Op.setLayers 0, Op.setLayers 200]).maxLayers ∧
    (demoRun [Op.setLayers 0, Op.setLayers 200]).maxLayers ≤ 8 ∧
    (demoRun [Op.setLayers 0, Op.setLayers 200]).layers.length = 8 :=
  ⟨by rfl,
    (maxLayers_in_range 8 prepareKeepOrClear [Op.setLayers 0, Op.setLayers 200]
      (demoRun [Op.setLayers 0, Op.setLayers 200]) (by decide) (by rfl)).1,
    (maxLayers_in_range 8 prepareKeepOrClear [Op.setLayers 0, Op.setLayers 200]
      (demoRun [Op.setLayers 0, Op.setLayers 200]) (by decide) (by rfl)).2.1,
    (maxLayers_in_range 8 prepareKeepOrClear [Op.setLayers 0, Op.setLayers 200]
      (demoRun [Op.setLayers 0, Op.setLayers 200]) (by decide) (by rfl)).2.2.1⟩

/-- C23: from every state, `stop()`, `play()` and `togglePlay()` leave
`currentLayerIndex`, `maxLayers`, `mode`, `intervalLenght`, `intervalPosition`,
the options and every layer unchanged, and each emits exactly one
`stateChanged` signal. -/
theorem transport_only_swaps_state (lp : Looper) :
    OnlyStateSwapped lp lp.stop ∧ OnlyStateSwapped lp lp.play ∧
      OnlyStateSwapped lp lp.togglePlay := by
  have hstop : OnlyStateSwapped lp lp.stop := by
    unfold Looper.stop
    rw [setState_new]
    exact ⟨rfl, rfl, rfl, rfl, rfl, rfl, rfl, rfl⟩
  have hplay : OnlyStateSwapped lp lp.play := by
    unfold Looper.play
    rw [setState_new]
    exact ⟨rfl, rfl, rfl, rfl, rfl, rfl, rfl, rfl⟩
  refine ⟨hstop, hplay, ?_⟩
  unfold Looper.togglePlay
  split
  · exact hstop
  · exact hplay

/-- C24: with RandomizeLayers off and the active layers allocated,
`incrementLockedLayer()` terminates: when some active layer is locked, the
do-while loop ends in its iteration `j + 1 <= maxLayers`, on the first locked
index after the current one, and the call returns for every budget above `j`;
when no active layer is locked, the call returns with a budget of 0
iterations, so the loop is not entered. -/
theorem incrementLockedLayer_terminates (lp : Looper) (hok : lp.ActiveLayersOk)
    (rand : Nat → Nat) (hseq : lp.getPlayingOption PlayingOption.RandomizeLayers = false) :
    ((∃ i, i < lp.maxLayers ∧ lp.lockedAt i) →
      ∃ j, j < lp.maxLayers ∧
        Looper.incrementLockedLayer.loop lp false rand (j + 1) 0 lp.currentLayerIndex =
          some ((lp.currentLayerIndex + 1 + j) % lp.maxLayers) ∧
        Looper.incrementLockedLayer.loop lp false rand j 0 lp.currentLayerIndex = none ∧
        ∀ fuel, j < fuel → ∃ lp1, lp.incrementLockedLayer fuel rand = some lp1) ∧
    ((∀ i, i < lp.maxLayers → ¬ lp.lockedAt i) →
      ∃ lp1, lp.incrementLockedLayer 0 rand = some lp1) := by
  constructor
  · intro hsome
    obtain ⟨j, hj, hlock, hmin⟩ := first_locked_after lp lp.currentLayerIndex hsome
    refine ⟨j, hj, ?_, ?_, ?_⟩
    · exact incrementLockedLayer_loop_scan lp hok rand (j + 1) 0 lp.currentLayerIndex j
        (Nat.lt_succ_self j) hlock hmin
    · cases hnone : Looper.incrementLockedLayer.loop lp false rand j 0 lp.currentLayerIndex with
      | none => rfl
      | some r =>
        exfalso
        exact incrementLockedLayer_loop_short lp hok rand j 0 lp.currentLayerIndex r hnone
          (fun i hi => hmin i hi)
    · intro fuel hfuel
      refine ⟨lp.setCurrentLayer ((lp.currentLayerIndex + 1 + j) % lp.maxLayers), ?_⟩
      rw [incrementLockedLayer_of_some_locked lp hok fuel rand hsome, hseq,
        incrementLockedLayer_loop_scan lp hok rand fuel 0 lp.currentLayerIndex j hfuel hlock hmin]
      rfl
  · intro hnone
    exact ⟨_, incrementLockedLayer_of_none_locked lp hok 0 rand hnone⟩

/-- C24 at concrete states: with layers 0 and 1 of four locked and layer 1
current, the loop needs three iterations (2, 3, 0): a budget of 2 is not
enough and a budget of 3 is; on a new Looper a budget of 0 is enough. -/
theorem incrementLockedLayer_terminates_witness :
    ((demoRun [Op.setLayerLockedState 0 true, Op.setLayerLockedState 1 true,
      Op.selectLayer 1]).incrementLockedLayer 2 (fun _ => 0)) = none ∧
    (((demoRun [Op.setLayerLockedState 0 true, Op.setLayerLockedState 1 true,
      Op.selectLayer 1]).incrementLockedLayer 3 (fun _ => 0)).map fun a =>
        a.currentLayerIndex) = some 0 ∧
    ∃ lp1, (Looper.new 8).incrementLockedLayer 0 (fun _ => 0) = some lp1 :=
  ⟨by rfl, by rfl,
    (incrementLockedLayer_terminates (Looper.new 8) (by decide) (fun _ => 0) (by rfl)).2
      (by decide)⟩

/-- C25 as stated fails: in SELECTED_LAYER mode with the current layer 2 locked
and the other layers unlocked, `canRecord()` returns false and
`startRecording()` is not a no-op: it makes layer 3 current and the Looper
Recording. -/
theorem startRecording_records_when_canRecord_is_false :
    Looper.run 8 prepareKeepOrClear (Looper.new 8)
        [Op.setMode Mode.SELECTED_LAYER, Op.selectLayer 2, Op.setLayerLockedState 2 true] =
      some selectedLayerLocked ∧
    selectedLayerLocked.mode = Mode.SELECTED_LAYER ∧
    selectedLayerLocked.currentLayerIndex = 2 ∧ selectedLayerLocked.isStopped = true ∧
    selectedLayerLocked.canRecord = some false ∧
    (selectedLayerLocked.startRecording.map fun lp1 =>
      (lp1.currentLayerIndex, lp1.isRecording)) = some (3, true) ∧
    selectedLayerLocked.startRecording ≠ some selectedLayerLocked :=
  ⟨by rfl, by rfl, by rfl, by rfl, by rfl, by rfl, by decide⟩

/-- C25 amended: in a mode other than SELECTED_LAYER, whenever `canRecord()`
returns false `startRecording()` returns the Looper unchanged.  In
SELECTED_LAYER mode a false `canRecord()` means that the current layer is
locked, and `startRecording()` is then a no-op if and only if every layer with
index below `maxLayers` is locked; otherwise, for `currentLayerIndex <
maxLayers`, it records on the first unlocked layer after the current one in
cyclic order: the layers between the two are locked, that layer becomes
current and is zeroed exactly when Overdub is disabled, no other layer
changes, and the state becomes Recording. -/
theorem canRecord_false_startRecording (lp : Looper) (hok : lp.ActiveLayersOk)
    (hfalse : lp.canRecord = some false) :
    (lp.mode ≠ Mode.SELECTED_LAYER → lp.startRecording = some lp) ∧
    (lp.mode = Mode.SELECTED_LAYER →
      lp.lockedAt lp.currentLayerIndex ∧
      (lp.startRecording = some lp ↔ ∀ i, i < lp.maxLayers → lp.lockedAt i) ∧
      (lp.currentLayerIndex < lp.maxLayers → (∃ i, i < lp.maxLayers ∧ lp.unlockedAt i) →
        ∃ j l, 0 < j ∧ j < lp.maxLayers ∧
          lp.layers[(lp.currentLayerIndex + j) % lp.maxLayers]? = some l ∧ l.locked = false ∧
          (∀ i, i < j → lp.lockedAt ((lp.currentLayerIndex + i) % lp.maxLayers)) ∧
          lp.startRecording =
            some { lp with
              currentLayerIndex := (lp.currentLayerIndex + j) % lp.maxLayers
              layers :=
                if lp.getOption RecordingOption.Overdub then lp.layers
                else lp.layers.set ((lp.currentLayerIndex + j) % lp.maxLayers) l.zero
              state :=
                { addr := lp.state.addr + 1
                  obj := LooperState.RecordingState
                    (((lp.currentLayerIndex + j) % lp.maxLayers : Nat) : Int) }
              emitted := lp.emitted ++
                [Signal.currentLayerChanged ((lp.currentLayerIndex + j) % lp.maxLayers),
                  Signal.stateChanged] })) := by
  have hall_noop : (∀ i, i < lp.maxLayers → lp.lockedAt i) → lp.startRecording = some lp := by
    intro hall
    rcases getFirstUnlockedLayerIndex_scan lp hok lp.currentLayerIndex with
      ⟨j, _, hun, _, _⟩ | ⟨_, hget⟩
    · exact absurd (hall _ (Nat.mod_lt _ hok.1)) (not_lockedAt_of_unlockedAt hun)
    · exact startRecording_of_none_found hget
  constructor
  · intro hmode
    apply hall_noop
    unfold Looper.canRecord at hfalse
    rw [if_pos hmode] at hfalse
    rcases getFirstUnlockedLayerIndex_scan lp hok 0 with ⟨j, _, _, _, hget⟩ | ⟨hall, _⟩
    · rw [hget] at hfalse
      simp only [Option.map_some', ge_iff_le, Int.natCast_nonneg, decide_True,
        Option.some.injEq] at hfalse
      cases hfalse
    · exact hall
  · intro hmode
    have hcurlocked : lp.lockedAt lp.currentLayerIndex := by
      unfold Looper.canRecord Looper.layerAt at hfalse
      rw [if_neg (not_not.mpr hmode)] at hfalse
      simp only [Option.map_eq_some'] at hfalse
      obtain ⟨l, hl, hlock⟩ := hfalse
      exact ⟨l, hl, by simpa [LooperLayer.isLocked] using hlock⟩
    refine ⟨hcurlocked, ⟨?_, hall_noop⟩, ?_⟩
    · intro hnoop i hi
      rcases getFirstUnlockedLayerIndex_scan lp hok lp.currentLayerIndex with
        ⟨j, _, ⟨l, hl, _⟩, _, hget⟩ | ⟨hall, _⟩
      · exfalso
        rw [startRecording_of_found hok.2.2 (Nat.mod_lt _ hok.1) hl hget] at hnoop
        have haddr := congrArg (fun x : Option Looper => x.map fun y => y.state.addr) hnoop
        simp only [Option.map_some', Option.some.injEq] at haddr
        exact absurd haddr (Nat.succ_ne_self _)
      · exact hall i hi
    · rintro hcur ⟨i, hi, hiun⟩
      rcases getFirstUnlockedLayerIndex_scan lp hok lp.currentLayerIndex with
        ⟨j, hj, ⟨l, hl, hun⟩, hall, hget⟩ | ⟨hall, _⟩
      · refine ⟨j, l, ?_, hj, hl, hun, hall,
          startRecording_of_found hok.2.2 (Nat.mod_lt _ hok.1) hl hget⟩
        cases j with
        | zero =>
          exfalso
          rw [Nat.add_zero, Nat.mod_eq_of_lt hcur] at hl
          exact not_lockedAt_of_unlockedAt ⟨l, hl, hun⟩ hcurlocked
        | succ j => exact Nat.succ_pos j
      · exact absurd (hall i hi) (not_lockedAt_of_unlockedAt hiun)

/-- C25 amended, at concrete states: in SEQUENCE mode with every active layer
locked `canRecord()` is false and `startRecording()` changes nothing; in
SELECTED_LAYER mode with only the current layer 2 locked `canRecord()` is
false, the current layer is locked and `startRecording()` records on an
unlocked layer after it. -/
theorem canRecord_false_startRecording_witness :
    allActiveLocked.canRecord = some false ∧
    allActiveLocked.startRecording = some allActiveLocked ∧
    selectedLayerLocked.lockedAt selectedLayerLocked.currentLayerIndex ∧
    (∃ j l, 0 < j ∧ j < selectedLayerLocked.maxLayers ∧
      selectedLayerLocked.layers[(selectedLayerLocked.currentLayerIndex + j) %
        selectedLayerLocked.maxLayers]? = some l ∧ l.locked = false) ∧
    (selectedLayerLocked.startRecording.map fun lp1 => lp1.currentLayerIndex) = some 3 :=
  ⟨by rfl,
    (canRecord_false_startRecording allActiveLocked (by decide) (by rfl)).1 (by decide),
    ((canRecord_false_startRecording selectedLayerLocked (by decide) (by rfl)).2 (by rfl)).1,
    (match ((canRecord_false_startRecording selectedLayerLocked (by decide) (by rfl)).2
        (by rfl)).2.2 (by decide) ⟨0, by decide, by decide⟩ with
      | ⟨j, l, h0, hj, hl, hun, _, _⟩ => ⟨j, l, h0, hj, hl, hun⟩),
    by rfl⟩

/-- C26: for `i < maxLayers`, `mixLayer(i, out, n)` asks layer `i` to mix
`min(n, availableSamples(i))` samples at `intervalPosition` when that minimum
is positive, and returns the output as it was when the minimum is 0 or
`i >= maxLayers` (the Looper and its layers are not written by any of the
three methods); `mixAllLayers` is `mixLayer` applied in turn to the indices
`0, ..., maxLayers - 1`, and `mixLockedLayers` is `mixLayer` applied in turn to
the locked ones among them. -/
theorem mixLayer_spec (mixTo : LooperLayer → SamplesBuffer → Nat → Nat → SamplesBuffer)
    (lp : Looper) (hok : lp.ActiveLayersOk) (out : SamplesBuffer) (n : Nat) :
    (∀ i, i < lp.maxLayers →
      ∃ l, lp.layers[i]? = some l ∧
        (0 < min n l.getAvailableSamples →
          lp.mixLayer mixTo i out n =
            some (mixTo l out (min n l.getAvailableSamples) lp.intervalPosition)) ∧
        (min n l.getAvailableSamples = 0 → lp.mixLayer mixTo i out n = some out)) ∧
    (∀ i, lp.maxLayers ≤ i → lp.mixLayer mixTo i out n = some out) ∧
    lp.mixAllLayers mixTo out n =
      (List.range lp.maxLayers).foldlM (fun mixed i => lp.mixLayer mixTo i mixed n) out ∧
    lp.mixLockedLayers mixTo out n =
      ((List.range lp.maxLayers).filter fun i => decide (lp.lockedAt i)).foldlM
        (fun mixed i => lp.mixLayer mixTo i mixed n) out := by
  refine ⟨?_, ?_, ?_, ?_⟩
  · intro i hi
    obtain ⟨l, hl⟩ := layerAt_of_lt (Nat.lt_of_lt_of_le hi hok.2.1)
    refine ⟨l, hl, ?_, ?_⟩
    · intro hpos
      unfold Looper.mixLayer Looper.layerAt
      rw [if_neg (Nat.not_le.mpr hi), hl]
      simp only [qMin_eq_min]
      rw [if_pos (Nat.pos_iff_ne_zero.mp hpos)]
    · intro hzero
      unfold Looper.mixLayer Looper.layerAt
      rw [if_neg (Nat.not_le.mpr hi), hl]
      simp only [qMin_eq_min]
      rw [if_neg (not_not.mpr hzero)]
  · intro i hi
    unfold Looper.mixLayer
    rw [if_pos hi]
  · exact mixAllLayers_loop_eq mixTo lp out n lp.maxLayers (Nat.le_of_lt hok.2.2)
  · exact mixLockedLayers_loop_eq mixTo lp hok out n lp.maxLayers (Nat.le_refl _)

/-- C26 at a concrete state: layers 0 (four samples) and 2 (three samples,
locked) hold content and the position is 1; into a silent buffer of four
frames, `mixLayer(0)` adds the samples 2, 3, 4, `mixLayer(1)` and `mixLayer(9)`
add nothing, `mixAllLayers` adds layers 0 and 2 and `mixLockedLayers` adds
layer 2 only. -/
theorem mixLayer_spec_witness :
    mixDemo.mixLayer LooperLayer.mixTo 0 [0, 0, 0, 0] 4 = some [2, 3, 4, 0] ∧
    mixDemo.mixLayer LooperLayer.mixTo 1 [0, 0, 0, 0] 4 = some [0, 0, 0, 0] ∧
    mixDemo.mixLayer LooperLayer.mixTo 9 [0, 0, 0, 0] 4 = some [0, 0, 0, 0] ∧
    mixDemo.mixAllLayers LooperLayer.mixTo [0, 0, 0, 0] 4 = some [22, 33, 4, 0] ∧
    mixDemo.mixLockedLayers LooperLayer.mixTo [0, 0, 0, 0] 4 = some [20, 30, 0, 0] ∧
    mixDemo.mixLockedLayers LooperLayer.mixTo [0, 0, 0, 0] 4 =
      ((List.range mixDemo.maxLayers).filter fun i => decide (mixDemo.lockedAt i)).foldlM
        (fun mixed i => mixDemo.mixLayer LooperLayer.mixTo i mixed 4) [0, 0, 0, 0] :=
  ⟨by rfl, by rfl,
    (mixLayer_spec LooperLayer.mixTo mixDemo (by decide) [0, 0, 0, 0] 4).2.1 9 (by decide),
    by rfl, by rfl,
    (mixLayer_spec LooperLayer.mixTo mixDemo (by decide) [0, 0, 0, 0] 4).2.2.2⟩

/-- C27: the default recording options of every mode hold Overdub with the
value false, and hold HearAllLayers, with the value false, exactly in SEQUENCE
mode; the default playing options hold RandomizeLayers (false) in SEQUENCE mode
only, hold PlayLockedLayers (false) and PlayNonEmptyLayers (true) exactly in
SEQUENCE and ALL_LAYERS mode, and are empty in SELECTED_LAYER mode. -/
theorem default_options (mode : Mode) :
    (Looper.getDefaultSupportedRecordingOptions mode).contains RecordingOption.Overdub = true ∧
    (Looper.getDefaultSupportedRecordingOptions mode).value RecordingOption.Overdub true = false ∧
    ((Looper.getDefaultSupportedRecordingOptions mode).contains RecordingOption.HearAllLayers = true ↔
      mode = Mode.SEQUENCE) ∧
    (mode = Mode.SEQUENCE →
      (Looper.getDefaultSupportedRecordingOptions mode).value RecordingOption.HearAllLayers true =
        false) ∧
    ((Looper.getDefaultSupportedPlayingOptions mode).contains PlayingOption.RandomizeLayers = true ↔
      mode = Mode.SEQUENCE) ∧
    (mode = Mode.SEQUENCE →
      (Looper.getDefaultSupportedPlayingOptions mode).value PlayingOption.RandomizeLayers true =
        false) ∧
    ((Looper.getDefaultSupportedPlayingOptions mode).contains PlayingOption.PlayLockedLayers = true ↔
      mode = Mode.SEQUENCE ∨ mode = Mode.ALL_LAYERS) ∧
    (mode = Mode.SEQUENCE ∨ mode = Mode.ALL_LAYERS →
      (Looper.getDefaultSupportedPlayingOptions mode).value PlayingOption.PlayLockedLayers true =
        false) ∧
    ((Looper.getDefaultSupportedPlayingOptions mode).contains PlayingOption.PlayNonEmptyLayers =
        true ↔ mode = Mode.SEQUENCE ∨ mode = Mode.ALL_LAYERS) ∧
    (mode = Mode.SEQUENCE ∨ mode = Mode.ALL_LAYERS →
      (Looper.getDefaultSupportedPlayingOptions mode).value PlayingOption.PlayNonEmptyLayers
        false = true) ∧
    (mode = Mode.SELECTED_LAYER → Looper.getDefaultSupportedPlayingOptions mode = []) ∧
    (Looper.new 8).modeOptions.value mode { recordingOptions := [], playingOptions := [] } =
      { recordingOptions := Looper.getDefaultSupportedRecordingOptions mode
        playingOptions := Looper.getDefaultSupportedPlayingOptions mode } := by
  cases mode <;> decide

end Audio
